import Mathlib

/-!
# Claude artifact scraper: discovery and extraction pipeline

A shallow embedding of `src/scraper.js` (class `ClaudeArtifactScraper`).

* JavaScript strings are lists of characters (`Str`); one list element stands for one
  UTF-16 code unit, which is exact for text of the Basic Multilingual Plane.
* Values whose type is not fixed by the code (parsed JSON, record fields that may hold
  anything) are `JsVal`.
* A step that may throw returns `Option` (`none` when it throws); a method that returns a
  record or `null` returns `Option Artifact` (`none` for `null`); an asynchronous method
  whose promise may reject returns `Completion`.
* Everything the scraper reads from outside (HTTP responses, the rendered page, the
  browser launcher, search results) is an explicit argument.
* Built-ins of the runtime that are not part of the repository and are too large to
  embed (`String.prototype.toUpperCase`, `decodeURIComponent`, `new URL`) are fields of
  `Runtime`; theorems hold for every runtime.
-/

namespace Scraper

/-- A JavaScript string. -/
abbrev Str := List Char

/-! ## String built-ins -/

/-- `s.includes(p)`: `p` occurs in `s` as a contiguous substring. -/
def includes : Str → Str → Bool
  | [], p => p.isEmpty
  | c :: cs, p => p.isPrefixOf (c :: cs) || includes cs p

/-- `s.substring(0, n)`. -/
def substring0 (s : Str) (n : Nat) : Str := s.take n

/-- `s.split(sep)` for a one-character separator. -/
def split (sep : Char) : Str → List Str
  | [] => [[]]
  | c :: cs =>
    if c = sep then [] :: split sep cs
    else
      match split sep cs with
      | [] => [[c]]
      | seg :: rest => (c :: seg) :: rest

/-- `url.split('/').pop()`: the text after the last slash. -/
def lastSegment (url : Str) : Str := ((split '/' url).getLast?).getD []

/-- The two upper-case hexadecimal digits of a byte. -/
def hexByte (n : Nat) : Str :=
  [(Nat.digitChar (n / 16)).toUpper, (Nat.digitChar (n % 16)).toUpper]

/-- `encodeURIComponent(s)`: every character outside `A-Z a-z 0-9 - _ . ! ~ * ( )` and
the apostrophe is replaced by the percent escapes of its UTF-8 bytes. -/
def encodeURIComponent (s : Str) : Str :=
  s.flatMap (fun c =>
    if c.isAlphanum || c ∈ "-_.!~*()".toList || c.toNat == 39 then [c]
    else (String.utf8EncodeChar c).flatMap (fun b => '%' :: hexByte b.toNat))

/-- The character class `[a-f0-9-]` of the artifact identifier pattern. -/
def isIdChar (c : Char) : Bool :=
  ('a' ≤ c && c ≤ 'f') || ('0' ≤ c && c ≤ '9') || c == '-'

/-- Length of the longest run of `[a-f0-9-]` at the start of `s`. -/
def idRun (s : Str) : Nat := (s.takeWhile isIdChar).length

/-- `s.match(/[a-f0-9-]{8,}/)` is not null: somewhere in `s` there is a run of at
least eight identifier characters. -/
def matchesIdPattern (s : Str) : Bool := s.tails.any (fun t => decide (8 ≤ idRun t))

/-- The literal `claude.ai/public/artifacts/`. -/
def artifactsPath : Str := "claude.ai/public/artifacts/".toList

/-- `s.match(/claude\.ai\/public\/artifacts\/[a-f0-9-]{8,}/)` is not null: somewhere
in `s` the literal path is directly followed by at least eight identifier characters. -/
def matchesArtifactUrl (s : Str) : Bool :=
  s.tails.any (fun t =>
    artifactsPath.isPrefixOf t && decide (8 ≤ idRun (t.drop artifactsPath.length)))

/-! ## JavaScript values -/

/-- A JavaScript value as produced by `JSON.parse`, plus `undefined`. Numbers are
integers: the scraper only observes whether a number is zero. -/
inductive JsVal where
  | undefined : JsVal
  | null : JsVal
  | bool (b : Bool) : JsVal
  | num (n : Int) : JsVal
  | str (s : Str) : JsVal
  | arr (items : List JsVal) : JsVal
  | obj (fields : List (Str × JsVal)) : JsVal

namespace JsVal

/-- Truthiness (`ToBoolean`). -/
def truthy : JsVal → Bool
  | undefined => false
  | null => false
  | bool b => b
  | num n => n != 0
  | str s => !s.isEmpty
  | arr _ => true
  | obj _ => true

/-- The test `typeof v === 'object'`. -/
def isObject : JsVal → Bool
  | null => true
  | arr _ => true
  | obj _ => true
  | _ => false

/-- Look a key up in a property list (first entry wins). -/
def lookup (k : Str) : List (Str × JsVal) → JsVal
  | [] => undefined
  | (k', v) :: rest => if k' = k then v else lookup k rest

/-- Property read `v.k` for a key that no prototype defines (`content`, `title`,
`name`, `artifact`, `code`, `type`, `contents`): a `TypeError` (`none`) on `null` and
`undefined`, the stored value on an object, `undefined` otherwise. -/
def get (v : JsVal) (k : Str) : Option JsVal :=
  match v with
  | undefined => none
  | null => none
  | obj fields => some (lookup k fields)
  | _ => some undefined

/-- Optional chaining `v?.k`. -/
def getOpt (v : JsVal) (k : Str) : JsVal :=
  match v with
  | obj fields => lookup k fields
  | _ => undefined

/-- The operator `a || b`. -/
def or (a b : JsVal) : JsVal := if a.truthy then a else b

/-- The string held by a value, if it is a string. -/
def asStr? : JsVal → Option Str
  | str s => some s
  | _ => none

end JsVal

/-! ## Runtime built-ins -/

/-- Built-ins of the JavaScript runtime used by the scraper. -/
structure Runtime where
  /-- `String.prototype.toUpperCase`. -/
  toUpperCase : Str → Str
  /-- `decodeURIComponent`; `none` when it throws `URIError`. -/
  decodeURIComponent : Str → Option Str
  /-- `new URL(href)` rendered as `protocol//host` followed by `pathname`; `none` when
  the constructor throws. -/
  urlOriginPath : Str → Option Str
  /-- `new Date().toISOString()`. -/
  now : Str

/-! ## Classifiers -/

/-- Method `detectArtifactType(code)` (scraper.js 728-740). -/
def detectArtifactType (rt : Runtime) (code : Str) : Str :=
  if code.isEmpty then "unknown".toList
  else
    let codeUpper := rt.toUpperCase code
    if includes code "import React".toList || includes code "useState".toList then
      "react".toList
    else if includes code "<svg".toList then "svg".toList
    else if includes code "<!DOCTYPE".toList || includes code "<html".toList then
      "html".toList
    else if includes code "function ".toList || includes code "const ".toList then
      "javascript".toList
    else if includes codeUpper "MERMAID".toList then "mermaid".toList
    else "html".toList

/-- Method `detectLanguage(code)` (scraper.js 743-753). -/
def detectLanguage (code : Str) : Str :=
  if code.isEmpty then []
  else if includes code "import React".toList || includes code "jsx".toList then
    "jsx".toList
  else if includes code "<svg".toList then "xml".toList
  else if includes code "function ".toList || includes code "const ".toList then
    "javascript".toList
  else if includes code "<!DOCTYPE".toList || includes code "<html".toList then
    "html".toList
  else if includes code "\x7b".toList && includes code "\x7d".toList && includes code ":".toList then
    "css".toList
  else "html".toList

/-- The React test of the render path (scraper.js 973-978); `&&` binds tighter
than `||`. -/
def renderIsReact (rawCode : Str) : Bool :=
  includes rawCode "import React".toList ||
  includes rawCode "export default function".toList ||
  (includes rawCode "function ".toList && includes rawCode "return (".toList) ||
  (includes rawCode "const ".toList && includes rawCode "=> \x7b".toList) ||
  includes rawCode "useState".toList ||
  includes rawCode "useEffect".toList

/-- The SVG test of the render path (scraper.js 983). -/
def renderIsSvg (rt : Runtime) (rawCode : Str) : Bool :=
  includes rawCode "<svg".toList || includes (rt.toUpperCase rawCode) "SVG".toList

/-- The HTML test of the render path (scraper.js 988-991). -/
def renderIsHtml (rawCode : Str) : Bool :=
  includes rawCode "<!DOCTYPE".toList || includes rawCode "<html".toList ||
  includes rawCode "<head".toList || includes rawCode "<body".toList

/-- The JavaScript test of the render path (scraper.js 996-999). -/
def renderIsJavascript (rawCode : Str) : Bool :=
  includes rawCode "function ".toList || includes rawCode "const ".toList ||
  includes rawCode "let ".toList || includes rawCode "var ".toList

/-- The CSS test of the render path (scraper.js 1004). -/
def renderIsCss (rawCode : Str) : Bool :=
  includes rawCode "\x7b".toList && includes rawCode "\x7d".toList && includes rawCode ":".toList

/-- The tag test of the render path (scraper.js 1009). -/
def renderIsTagged (rawCode : Str) : Bool :=
  includes rawCode "<".toList && includes rawCode ">".toList

/-- The classification block of the render path (scraper.js 968-1013) for a string
`rawCode`; `type0` is the value of `type` before the block (`'html'`, or the type
given by the page's JSON), the language before the block is `''`. -/
def renderClassify (rt : Runtime) (type0 : JsVal) (rawCode : Str) : JsVal × Str :=
  if rawCode.isEmpty then (type0, [])
  else if renderIsReact rawCode then (JsVal.str "react".toList, "jsx".toList)
  else if renderIsSvg rt rawCode then (JsVal.str "svg".toList, "xml".toList)
  else if renderIsHtml rawCode then (JsVal.str "html".toList, "html".toList)
  else if renderIsJavascript rawCode then
    (JsVal.str "javascript".toList, "javascript".toList)
  else if renderIsCss rawCode then (JsVal.str "css".toList, "css".toList)
  else if renderIsTagged rawCode then (JsVal.str "html".toList, "html".toList)
  else (type0, [])

/-! ## Regular expressions of `parseArtifactData` -/

/-- Case-insensitive match of a lower-case ASCII literal at the start of `s`
(flag `i` without flag `u`: an ASCII pattern character only matches its two
ASCII cases). -/
def ciPrefix : Str → Str → Bool
  | [], _ => true
  | _ :: _, [] => false
  | a :: p, c :: s => c.toLower == a && ciPrefix p s

/-- Number of characters before the first case-insensitive occurrence of `p`. -/
def findCi (p : Str) : Str → Option Nat
  | [] => if p.isEmpty then some 0 else none
  | c :: cs => if ciPrefix p (c :: cs) then some 0 else (findCi p cs).map (· + 1)

/-- Length of the match of
`/<script[^>]*>[\s\S]*?artifact[\s\S]*?<\/script>/i` anchored at the start of `t`. -/
def scriptMatchLen (t : Str) : Option Nat :=
  if ciPrefix "<script".toList t then
    let r1 := t.drop 7
    let k := (r1.takeWhile (fun c => c != '>')).length
    if k < r1.length then
      let r2 := r1.drop (k + 1)
      match findCi "artifact".toList r2 with
      | none => none
      | some a =>
        match findCi "</script>".toList (r2.drop (a + 8)) with
        | none => none
        | some e => some (7 + k + 1 + a + 8 + e + 9)
    else none
  else none

/-- `data.match(/<script[^>]*>[\s\S]*?artifact[\s\S]*?<\/script>/i)`: the text of the
leftmost match, `none` for `null`. -/
def scriptMatch : Str → Option Str
  | [] => none
  | c :: cs =>
    match scriptMatchLen (c :: cs) with
    | some n => some ((c :: cs).take n)
    | none => scriptMatch cs

/-- Capture group of `/<title[^>]*>([^<]+)</i` anchored at the start of `t`. -/
def titleMatchAt (t : Str) : Option Str :=
  if ciPrefix "<title".toList t then
    let r1 := t.drop 6
    let k := (r1.takeWhile (fun c => c != '>')).length
    if k < r1.length then
      let r2 := r1.drop (k + 1)
      let g := r2.takeWhile (fun c => c != '<')
      if 0 < g.length && g.length < r2.length then some g else none
    else none
  else none

/-- `data.match(/<title[^>]*>([^<]+)</i)`: group 1 of the leftmost match. -/
def titleMatch : Str → Option Str
  | [] => none
  | c :: cs =>
    match titleMatchAt (c :: cs) with
    | some g => some g
    | none => titleMatch cs

/-- `s.replace(pat, rep)` for a string pattern: the first occurrence is replaced. -/
def replaceFirst (pat rep : Str) : Str → Str
  | [] => if pat.isEmpty then rep else []
  | c :: cs =>
    if pat.isPrefixOf (c :: cs) then rep ++ (c :: cs).drop pat.length
    else c :: replaceFirst pat rep cs

/-- White space and line terminators removed by `String.prototype.trim`. -/
def isJsSpace (c : Char) : Bool :=
  let n := c.toNat
  (9 ≤ n && n ≤ 13) || n == 32 || n == 160 || n == 0x1680 || (0x2000 ≤ n && n ≤ 0x200A) ||
  n == 0x2028 || n == 0x2029 || n == 0x202F || n == 0x205F || n == 0x3000 || n == 0xFEFF

/-- `s.trim()`. -/
def trim (s : Str) : Str := ((s.dropWhile isJsSpace).reverse.dropWhile isJsSpace).reverse

/-! ## Artifact records -/

/-- The record built for one artifact. `id` is `none` for `undefined`, `method` and
`screenshot` are `none` when the property is absent. -/
structure Artifact where
  id : Option Str
  url : Str
  title : JsVal
  description : Str
  content : Str
  rawCode : Str
  type : JsVal
  language : Str
  codeLength : Nat
  hasCode : Bool
  scrapedAt : Str
  author : Str
  method : Option Str
  screenshot : Option Str

/-- The values of the locals `content`, `rawCode`, `title`, `hasCode` of
`parseArtifactData` when the record is built; `none` when reading `data.content`
throws. -/
def parseLocals (data : JsVal) (method : Str) : Option (JsVal × JsVal × JsVal × Bool) :=
  if data.isObject then
    match data.get "content".toList with
    | none => none
    | some c =>
      if c.truthy then
        some (c, c,
          ((data.getOpt "title".toList).or (data.getOpt "name".toList)).or
            (JsVal.str "Untitled Artifact".toList),
          true)
      else some (JsVal.str [], JsVal.str [], JsVal.str [], false)
  else
    match data with
    | JsVal.str s =>
      if method = "archive".toList ∨ method = "proxy".toList then
        let found := scriptMatch s
        let title :=
          match titleMatch s with
          | some g => trim (replaceFirst " | Claude".toList [] g)
          | none => "Untitled Artifact".toList
        some (JsVal.str s, JsVal.str (found.getD []), JsVal.str title, found.isSome)
      else some (JsVal.str s, JsVal.str [], JsVal.str [], false)
    | _ => some (JsVal.str [], JsVal.str [], JsVal.str [], false)

/-- Method `parseArtifactData(url, data, method)` (scraper.js 673-725); `none` is the
`null` returned from the `catch` block. -/
def parseArtifactData (rt : Runtime) (url : Str) (data : JsVal) (method : Str) :
    Option Artifact :=
  let artifactId := lastSegment url
  match parseLocals data method with
  | none => none
  | some (content, rawCode, title, hasCode) =>
    match content.asStr?, rawCode.asStr? with
    | some content, some rawCode =>
      some {
        id := some artifactId
        url := url
        title := title.or (JsVal.str ("Artifact ".toList ++ substring0 artifactId 8))
        description := "Extracted via ".toList ++ method
        content := substring0 content 10000
        rawCode := substring0 rawCode 10000
        type := JsVal.str (detectArtifactType rt rawCode)
        language := detectLanguage rawCode
        codeLength := rawCode.length
        hasCode := hasCode
        scrapedAt := rt.now
        author := "Unknown".toList
        method := some method
        screenshot := none }
    | _, _ => none

/-! ## HTTP -/

/-- What the scraper reads from a `fetch` response. `text` is the body
(`response.text()`), `json` the body parsed as JSON (`response.json()`,
`JSON.parse(text)`); each is `none` when reading the body that way throws. -/
structure Response where
  ok : Bool
  contentType : Option Str
  text : Option Str
  json : Option JsVal

/-- The network: the outcome of `fetch(url, ...)`; `none` when the promise rejects
(connection error, timeout). -/
abbrev Fetch := Str → Option Response

/-- The strategies of the extraction chain. -/
inductive Strategy where
  | api | archive | proxy | metadata | browser
  deriving DecidableEq, Repr

/-- The endpoints probed by `tryApiEndpoints`, in order. -/
def apiEndpoints (artifactId : Str) : List Str :=
  [ "https://claude.ai/api/public/artifacts/".toList ++ artifactId,
    "https://claude.ai/api/v1/artifacts/".toList ++ artifactId,
    "https://claude.ai/public/artifacts/".toList ++ artifactId ++ "/raw".toList,
    "https://claude.ai/public/artifacts/".toList ++ artifactId ++ "/content".toList,
    "https://claude.ai/public/artifacts/".toList ++ artifactId ++ ".json".toList,
    "https://api.claude.ai/artifacts/".toList ++ artifactId,
    "https://artifacts.claude.ai/".toList ++ artifactId,
    "https://cdn.claude.ai/artifacts/".toList ++ artifactId ]

/-- The test `data && (typeof data === 'object' || data.length > 100)`. -/
def apiDataUsable (data : JsVal) : Bool :=
  data.truthy &&
    (data.isObject ||
      (match data with
       | JsVal.str s => decide (100 < s.length)
       | _ => false))

/-- One iteration of the loop of `tryApiEndpoints`: `some r` when the iteration
executes `return r`, `none` when the loop goes on to the next endpoint. -/
def apiAttempt (rt : Runtime) (fetch : Fetch) (url endpoint : Str) :
    Option (Option Artifact) :=
  match fetch endpoint with
  | none => none
  | some response =>
    if response.ok then
      let data : Option JsVal :=
        if (response.contentType.map (fun t => includes t "application/json".toList)).getD false
        then response.json
        else response.text.map JsVal.str
      match data with
      | none => none
      | some data =>
        if apiDataUsable data then some (parseArtifactData rt url data "api".toList)
        else none
    else none

/-- The loop of `tryApiEndpoints` over the remaining endpoints. -/
def apiLoop (rt : Runtime) (fetch : Fetch) (url : Str) : List Str → Option Artifact
  | [] => none
  | endpoint :: rest =>
    match apiAttempt rt fetch url endpoint with
    | some result => result
    | none => apiLoop rt fetch url rest

/-- Method `tryApiEndpoints(url)` (scraper.js 489-545). -/
def tryApiEndpoints (rt : Runtime) (fetch : Fetch) (url : Str) : Option Artifact :=
  apiLoop rt fetch url (apiEndpoints (lastSegment url))

/-- Method `tryInternetArchiveContent(url)` (scraper.js 548-577). -/
def tryInternetArchiveContent (rt : Runtime) (fetch : Fetch) (url : Str) : Option Artifact :=
  match fetch ("http://web.archive.org/web/".toList ++ url) with
  | none => none
  | some response =>
    if response.ok then
      match response.text with
      | none => none
      | some html =>
        if !includes html "Verify you are human".toList &&
            !includes html "Just a moment".toList then
          parseArtifactData rt url (JsVal.str html) "archive".toList
        else none
    else none

/-- The proxy URLs tried by `tryProxyServices`, in order. -/
def freeProxies (url : Str) : List Str :=
  [ "https://api.allorigins.win/get?url=".toList ++ encodeURIComponent url,
    "https://cors-anywhere.herokuapp.com/".toList ++ url ]

/-- The test `data && !data.includes('Verify you are human') && data.length > 500`
of `tryProxyServices`; `none` when `data.includes` is not callable (`TypeError`). On an
array `includes` looks for an element equal to the marker and `length` counts elements. -/
def proxyDataUsable (data : JsVal) : Option Bool :=
  if data.truthy then
    match data with
    | JsVal.str s => some (!includes s "Verify you are human".toList && decide (500 < s.length))
    | JsVal.arr items =>
      some (!items.any (fun v => decide (v.asStr? = some "Verify you are human".toList)) &&
        decide (500 < items.length))
    | _ => none
  else some false

/-- One iteration of the loop of `tryProxyServices`: `some r` when the iteration
executes `return r`, `none` when the loop goes on to the next proxy. -/
def proxyAttempt (rt : Runtime) (fetch : Fetch) (url proxyUrl : Str) :
    Option (Option Artifact) :=
  match fetch proxyUrl with
  | none => none
  | some response =>
    if response.ok then
      match response.text with
      | none => none
      | some text =>
        let data : Option JsVal :=
          if includes proxyUrl "allorigins".toList then
            match response.json with
            | none => none
            | some parsed => parsed.get "contents".toList
          else some (JsVal.str text)
        match data with
        | none => none
        | some data =>
          match proxyDataUsable data with
          | some true => some (parseArtifactData rt url data "proxy".toList)
          | _ => none
    else none

/-- The loop of `tryProxyServices` over the remaining proxies. -/
def proxyLoop (rt : Runtime) (fetch : Fetch) (url : Str) : List Str → Option Artifact
  | [] => none
  | proxyUrl :: rest =>
    match proxyAttempt rt fetch url proxyUrl with
    | some result => result
    | none => proxyLoop rt fetch url rest

/-- Method `tryProxyServices(url)` (scraper.js 580-630). -/
def tryProxyServices (rt : Runtime) (fetch : Fetch) (url : Str) : Option Artifact :=
  proxyLoop rt fetch url (freeProxies url)

/-- Method `trySocialMetadata(url)` (scraper.js 633-670). -/
def trySocialMetadata (rt : Runtime) (url : Str) : Option Artifact :=
  let artifactId := lastSegment url
  if !artifactId.isEmpty && matchesIdPattern artifactId then
    some {
      id := some artifactId
      url := url
      title := JsVal.str ("Artifact ".toList ++ substring0 artifactId 8)
      description := "Discovered via URL pattern matching".toList
      content := []
      rawCode := []
      type := JsVal.str "unknown".toList
      language := []
      codeLength := 0
      hasCode := false
      scrapedAt := rt.now
      author := "Unknown".toList
      method := some "social_metadata".toList
      screenshot := none }
  else none

/-- Method `scrapeArtifactAlternative(url)` (scraper.js 460-486), together with the
list of strategy methods it called, in call order. -/
def scrapeArtifactAlternative (rt : Runtime) (fetch : Fetch) (url : Str) :
    Option Artifact × List Strategy :=
  match tryApiEndpoints rt fetch url with
  | some content => (some content, [Strategy.api])
  | none =>
    match tryInternetArchiveContent rt fetch url with
    | some content => (some content, [Strategy.api, Strategy.archive])
    | none =>
      match tryProxyServices rt fetch url with
      | some content => (some content, [Strategy.api, Strategy.archive, Strategy.proxy])
      | none =>
        (trySocialMetadata rt url,
          [Strategy.api, Strategy.archive, Strategy.proxy, Strategy.metadata])

/-! ## The rendered page -/

/-- A `script` element selected by strategy 1: its `textContent` and the outcome of
`JSON.parse(textContent)` (`none` when it throws). -/
structure ScriptTag where
  text : Str
  json : Option JsVal

/-- The `dataset` of an element selected by strategy 3 (`none` for `undefined`). -/
structure DataSet where
  artifact : Option Str
  code : Option Str
  content : Option Str

/-- An element selected by strategy 5: `value` (`none` for `undefined`) and
`textContent`. -/
structure TextArea where
  value : Option Str
  textContent : Str

/-- What the function passed to `page.evaluate` reads from the document. An absent
element is `none`; `codeBlocks` holds `textContent || innerText` of each selected block,
`iframeSrcdoc` the `srcdoc` attribute of the first `iframe[srcdoc]`, `iframeSrc` the
`src` of the first `iframe`, `main` the `innerHTML` of the main content container. -/
structure Dom where
  title : Str
  h1 : Option Str
  h2 : Option Str
  h3 : Option Str
  metaDescription : Option Str
  ogDescription : Option Str
  twitterDescription : Option Str
  scripts : List ScriptTag
  codeBlocks : List Str
  dataElements : List DataSet
  iframeSrcdoc : Option Str
  textAreas : List TextArea
  iframeSrc : Option Str
  main : Option Str

/-- The operator `a || b` on optional strings (`undefined` and `''` are falsy). -/
def orStr (a : Option Str) (b : Option Str) : Option Str :=
  match a with
  | some (c :: cs) => some (c :: cs)
  | _ => b

/-- The title computed by the page function (scraper.js 814-823). -/
def pageTitle (dom : Dom) : Str :=
  let title := if dom.title.isEmpty then "Untitled Artifact".toList else dom.title
  let title := trim (replaceFirst " - Claude".toList [] (replaceFirst " | Claude".toList [] title))
  if title = "Claude".toList ∨ title = "Untitled Artifact".toList then
    ((orStr (orStr (orStr dom.h1 dom.h2) dom.h3) (some title)).getD title)
  else title

/-- The description computed by the page function (scraper.js 826-829). -/
def pageDescription (dom : Dom) : Str :=
  (orStr (orStr (orStr dom.metaDescription dom.ogDescription) dom.twitterDescription)
    (some "No description available".toList)).getD []

/-- The locals `rawCode`, `type`, `artifactFound` of the page function. -/
structure Found where
  rawCode : JsVal
  type : JsVal
  artifactFound : Bool

/-- The guard of strategy 1 on a script's text (scraper.js 842-848). -/
def scriptMentionsArtifact (text : Str) : Bool :=
  !text.isEmpty &&
    (includes text "artifact".toList || includes text "content".toList ||
     includes text "code".toList || includes text "html".toList ||
     includes text "react".toList)

/-- The `try`/`catch` of strategy 1 for one script (scraper.js 849-873): the locals
after a `break`, or `none` when the loop goes on. `type0` is the current `type`. -/
def scriptStep (type0 : JsVal) (tag : ScriptTag) : Option Found :=
  let direct : Option Found :=
    if includes tag.text "<".toList && includes tag.text ">".toList then
      some ⟨JsVal.str tag.text, type0, true⟩
    else none
  match tag.json with
  | none => direct
  | some data =>
    match data.get "artifact".toList with
    | none => direct
    | some artifact =>
      if (artifact.getOpt "content".toList).truthy then
        some ⟨artifact.getOpt "content".toList,
          (artifact.getOpt "type".toList).or (JsVal.str "html".toList), true⟩
      else if (data.getOpt "content".toList).truthy then
        some ⟨data.getOpt "content".toList, type0, true⟩
      else if (data.getOpt "code".toList).truthy then
        some ⟨data.getOpt "code".toList, type0, true⟩
      else none

/-- Strategy 1: the loop over script elements (scraper.js 841-875). -/
def findInScripts (type0 : JsVal) : List ScriptTag → Option Found
  | [] => none
  | tag :: rest =>
    if scriptMentionsArtifact tag.text then
      match scriptStep type0 tag with
      | some found => some found
      | none => findInScripts type0 rest
    else findInScripts type0 rest

/-- The guard of strategy 2 on a code block's text (scraper.js 882-889). -/
def codeBlockUsable (text : Str) : Bool :=
  !text.isEmpty && decide (100 < text.length) &&
    (includes text "<html".toList || includes text "<div".toList ||
     includes text "function ".toList || includes text "const ".toList ||
     includes text "import ".toList || includes text "<svg".toList)

/-- The value picked by strategy 3 from one element (scraper.js 901-913). -/
def dataSetValue (d : DataSet) : Option Str :=
  orStr (orStr (orStr d.artifact d.code) d.content) none

/-- The guard of strategy 5 on an element's text (scraper.js 931-937). -/
def textAreaUsable (text : Str) : Bool :=
  !text.isEmpty && decide (50 < text.length) &&
    (includes text "<".toList || includes text "function".toList ||
     includes text "const".toList || includes text "import".toList)

/-- The six content-location strategies of the page function (scraper.js 832-963). -/
def locateCode (dom : Dom) : Found :=
  let html := JsVal.str "html".toList
  match findInScripts html dom.scripts with
  | some found => found
  | none =>
    match dom.codeBlocks.find? codeBlockUsable with
    | some text => ⟨JsVal.str text, html, true⟩
    | none =>
      match dom.dataElements.findSome? dataSetValue with
      | some value => ⟨JsVal.str value, html, true⟩
      | none =>
        match orStr dom.iframeSrcdoc none with
        | some srcdoc => ⟨JsVal.str srcdoc, html, true⟩
        | none =>
          match (dom.textAreas.map (fun a => (orStr a.value (some a.textContent)).getD [])).find?
              textAreaUsable with
          | some text => ⟨JsVal.str text, html, true⟩
          | none =>
            match orStr dom.iframeSrc none with
            | some src =>
              ⟨JsVal.str ("<iframe src=\"".toList ++ src ++ "\"></iframe>".toList), html, false⟩
            | none =>
              match dom.main with
              | some innerHTML => ⟨JsVal.str innerHTML, html, false⟩
              | none => ⟨JsVal.str [], html, false⟩

/-- The `id` computed by the page function (scraper.js 810-811):
`urlParts[urlParts.length - 1] || urlParts[urlParts.length - 2]`. -/
def pageId (sourceUrl : Str) : Option Str :=
  let urlParts := split '/' sourceUrl
  orStr urlParts.getLast? (urlParts.dropLast.getLast?)

/-- The function passed to `page.evaluate` (scraper.js 808-1029); `none` when it throws
(`rawCode.toUpperCase` is not callable on a truthy value that is not a string). -/
def evaluatePage (rt : Runtime) (dom : Dom) (sourceUrl : Str) : Option Artifact :=
  let found := locateCode dom
  match found.rawCode with
  | JsVal.str rawCode =>
    let cls := renderClassify rt found.type rawCode
    some {
      id := pageId sourceUrl
      url := sourceUrl
      title := JsVal.str (substring0 (pageTitle dom) 200)
      description := substring0 (pageDescription dom) 500
      content := rawCode
      rawCode := rawCode
      type := cls.1
      language := cls.2
      codeLength := rawCode.length
      hasCode := found.artifactFound
      scrapedAt := rt.now
      author := "Unknown".toList
      method := none
      screenshot := none }
  | _ => none

/-! ## The extraction coordinator -/

/-- How an asynchronous method completes. -/
inductive Completion (α : Type) where
  | throws : Completion α
  | returns (value : α) : Completion α

/-- What `scrapeArtifact` observes of the browser session after navigation.
`cloudflareChallenge` is the conjunction of the two `page.$` queries,
`challengeText` the `document.body.innerText` read after the extra wait (`none` when
reading it throws), `screenshotPath` the stored path when `page.screenshot`
succeeds. -/
structure RenderedPage where
  cloudflareChallenge : Bool
  challengeText : Option Str
  dom : Dom
  screenshotPath : Option Str

/-- Everything outside the scraper that one extraction depends on: the network,
whether launch attempt `i` of `createBrowser` succeeds, and the page obtained for a
URL (`none` when `newPage`, `setUserAgent`, `goto` or a page query throws). -/
structure Web where
  fetch : Fetch
  launch : Nat → Bool
  render : Str → Option RenderedPage

/-- Method `createBrowser()` (scraper.js 55-89): three launch attempts, the error of
the third is rethrown (`false`). -/
def createBrowser (launch : Nat → Bool) : Bool := launch 0 || launch 1 || launch 2

/-- The test of `stillChallenge` (scraper.js 796-799). -/
def stillChallenge (bodyText : Str) : Bool :=
  includes bodyText "Verify you are human".toList || includes bodyText "Just a moment".toList

/-- The `try` block of `scrapeArtifact` once the page is open (scraper.js 786-1050). -/
def scrapeRendered (rt : Runtime) (screenshots : Bool) (page : RenderedPage) (url : Str) :
    Option Artifact :=
  let extract : Option Artifact :=
    match evaluatePage rt page.dom url with
    | none => none
    | some artifactData =>
      if screenshots then
        match page.screenshotPath with
        | some path => some { artifactData with screenshot := some path }
        | none => some artifactData
      else some artifactData
  if page.cloudflareChallenge then
    match page.challengeText with
    | none => none
    | some bodyText => if stillChallenge bodyText then none else extract
  else extract

/-- The browser fallback of `scrapeArtifact` (scraper.js 767-1061). -/
def scrapeWithBrowser (rt : Runtime) (screenshots : Bool) (web : Web) (url : Str) :
    Completion (Option Artifact) :=
  if createBrowser web.launch then
    match web.render url with
    | none => Completion.returns none
    | some page => Completion.returns (scrapeRendered rt screenshots page url)
  else Completion.throws

/-- Method `scrapeArtifact(url, index, total)` (scraper.js 756-1062), together with
the list of strategies it ran, in order. -/
def scrapeArtifact (rt : Runtime) (screenshots : Bool) (web : Web) (url : Str) :
    Completion (Option Artifact) × List Strategy :=
  let alt := scrapeArtifactAlternative rt web.fetch url
  match alt.1 with
  | some artifactData =>
    if artifactData.hasCode then (Completion.returns (some artifactData), alt.2)
    else (scrapeWithBrowser rt screenshots web url, alt.2 ++ [Strategy.browser])
  | none => (scrapeWithBrowser rt screenshots web url, alt.2 ++ [Strategy.browser])

/-! ## Discovery -/

/-- A JavaScript `Set` of strings as the list of its elements in insertion order;
`setAdd` is `Set.prototype.add`. -/
def setAdd (set : List Str) (x : Str) : List Str := if x ∈ set then set else set ++ [x]

/-- The loop `xs.forEach(x => set.add(x))`. -/
def setAddAll (set : List Str) (xs : List Str) : List Str := xs.foldl setAdd set

/-- Group 1 of `/url=([^&]+)/` anchored at the start of `t`. -/
def urlParamAt (t : Str) : Option Str :=
  if "url=".toList.isPrefixOf t then
    let g := (t.drop 4).takeWhile (fun c => c != '&')
    if g.isEmpty then none else some g
  else none

/-- `href.match(/url=([^&]+)/)`: group 1 of the leftmost match. -/
def urlParam : Str → Option Str
  | [] => none
  | c :: cs =>
    match urlParamAt (c :: cs) with
    | some g => some g
    | none => urlParam cs

/-- The first `map` of the Google page function (scraper.js 186-200): unwrap a
Google redirect link. -/
def unwrapRedirect (rt : Runtime) (href : Str) : Str :=
  if includes href "/url?".toList then
    match urlParam href with
    | some encoded => (rt.decodeURIComponent encoded).getD href
    | none => href
  else href

/-- Length of the match of
`/https?:\/\/claude\.ai\/public\/artifacts\/[a-f0-9-]{minLen,}/` anchored at the start
of `t`. -/
def urlMatchAt (minLen : Nat) (t : Str) : Option Nat :=
  let attempt := fun (literal : Str) =>
    if literal.isPrefixOf t then
      let n := idRun (t.drop literal.length)
      if minLen ≤ n then some (literal.length + n) else none
    else none
  match attempt "https://claude.ai/public/artifacts/".toList with
  | some n => some n
  | none => attempt "http://claude.ai/public/artifacts/".toList

/-- Scan for the global match below; `skip` characters belong to the previous match. -/
def matchAllUrlsAux (minLen : Nat) : Nat → Str → List Str
  | _, [] => []
  | skip + 1, _ :: cs => matchAllUrlsAux minLen skip cs
  | 0, c :: cs =>
    match urlMatchAt minLen (c :: cs) with
    | some n => (c :: cs).take n :: matchAllUrlsAux minLen (n - 1) cs
    | none => matchAllUrlsAux minLen 0 cs

/-- `text.match(/https?:\/\/claude\.ai\/public\/artifacts\/[a-f0-9-]{minLen,}/g) || []`:
all matches, left to right, without overlap. -/
def matchAllUrls (minLen : Nat) (text : Str) : List Str := matchAllUrlsAux minLen 0 text

/-- The `filter` of the Google page function (scraper.js 202-207). -/
def googleFilter (href : Str) : Bool :=
  !href.isEmpty &&
    (includes href artifactsPath && !includes href "google.com".toList &&
      matchesArtifactUrl href)

/-- The first element of `s.split(sep)`. -/
def firstSegment (sep : Char) (s : Str) : Str := ((split sep s).head?).getD []

/-- The last `map` of the Google page function (scraper.js 208-216). -/
def cleanUrl (rt : Runtime) (href : Str) : Str :=
  match rt.urlOriginPath href with
  | some cleaned => cleaned
  | none => firstSegment '?' (firstSegment '#' href)

/-- The function passed to `page.evaluate` in `getArtifactUrls` (scraper.js 162-219):
`links` are the `href`s of the selected anchors, `bodyText` is
`document.body.innerText`. -/
def extractUrls (rt : Runtime) (links : List Str) (bodyText : Str) : List Str :=
  setAddAll []
    ((((links.map (unwrapRedirect rt)) ++ matchAllUrls 1 bodyText).filter googleFilter).map
      (cleanUrl rt))

/-- The two `filter`s of the DuckDuckGo page function (scraper.js 332-333). -/
def duckFilter (href : Str) : Bool :=
  (!href.isEmpty && includes href artifactsPath) && matchesArtifactUrl href

/-- The test on a row of the Internet Archive index (scraper.js 402). -/
def archiveFilter (originalUrl : Str) : Bool :=
  !originalUrl.isEmpty && matchesArtifactUrl originalUrl

/-- Method `searchDuckDuckGo()` (scraper.js 313-346). `launch` is the browser
launcher, `links` the `href`s of the anchors on the result page (`none` when opening
the page throws). -/
def searchDuckDuckGo (launch : Nat → Bool) (links : Option (List Str)) :
    Completion (List Str) :=
  if createBrowser launch then
    match links with
    | some hrefs => Completion.returns (setAddAll [] (hrefs.filter duckFilter))
    | none => Completion.returns []
  else Completion.throws

/-- The element `row[0]` read from a row of the index; `none` when the read throws. -/
def rowHead : JsVal → Option JsVal
  | JsVal.undefined => none
  | JsVal.null => none
  | JsVal.arr items => some (items.head?.getD JsVal.undefined)
  | JsVal.str s => some ((s.head?.map (fun c => JsVal.str [c])).getD JsVal.undefined)
  | JsVal.obj fields => some (JsVal.lookup "0".toList fields)
  | _ => some JsVal.undefined

/-- The loop of `searchInternetArchive` over the rows `data[1]`, `data[2]`, ...
(scraper.js 400-405); a throw ends the loop and keeps what was added. -/
def archiveLoop (urls : List Str) : List JsVal → List Str
  | [] => urls
  | row :: rest =>
    match rowHead row with
    | none => urls
    | some (JsVal.str originalUrl) =>
      archiveLoop (if archiveFilter originalUrl then setAdd urls originalUrl else urls) rest
    | some originalUrl => if originalUrl.truthy then urls else archiveLoop urls rest

/-- Method `searchInternetArchive()` (scraper.js 387-413). `rows` are the rows after
the header row of the parsed index (`none` when the request fails, is not `ok`, or its
body cannot be read). -/
def searchInternetArchive (rows : Option (List JsVal)) : List Str :=
  match rows with
  | some rows => archiveLoop [] rows
  | none => []

/-- Method `searchWebArchives()` (scraper.js 368-384). -/
def searchWebArchives (rows : Option (List JsVal)) : List Str :=
  setAddAll [] (searchInternetArchive rows)

/-- The `forEach` over the posts of one Reddit response (scraper.js 438-442). A post
is the text `selftext + ' ' + url + ' ' + title`, or `none` when reading it throws,
which ends the processing of this response. -/
def redditPosts (urls : List Str) : List (Option Str) → List Str
  | [] => urls
  | none :: _ => urls
  | some text :: rest => redditPosts (setAddAll urls (matchAllUrls 8 text)) rest

/-- Method `searchRedditForArtifacts()` (scraper.js 416-457): the response for each of
the three search terms (`none` when the request fails, is not `ok`, or has no `data.children`). -/
def searchRedditForArtifacts (responses : Nat → Option (List (Option Str))) : List Str :=
  [0, 1, 2].foldl
    (fun urls term =>
      match responses term with
      | some posts => redditPosts urls posts
      | none => urls)
    []

/-- Method `searchForumsAndCommunities()` (scraper.js 349-365). -/
def searchForumsAndCommunities (responses : Nat → Option (List (Option Str))) : List Str :=
  setAddAll [] (searchRedditForArtifacts responses)

/-- One query round of the Google phase. -/
inductive Round where
  | page (links : List Str) (bodyText : Str) : Round
  | captcha : Round
  | error : Round

/-- Everything outside the scraper that discovery depends on. -/
structure Sources where
  /-- Launch attempts of the browser of `getArtifactUrls`. -/
  launchGoogle : Nat → Bool
  /-- The page set-up before the first round succeeds. -/
  googleSetup : Bool
  /-- The outcome of query round `pageNum`. -/
  rounds : Nat → Round
  /-- Launch attempts of the browser of `searchDuckDuckGo`. -/
  launchDuck : Nat → Bool
  duckLinks : Option (List Str)
  reddit : Nat → Option (List (Option Str))
  archiveRows : Option (List JsVal)

/-- Method `getArtifactUrlsAlternative()` (scraper.js 284-310). -/
def getArtifactUrlsAlternative (src : Sources) : List Str :=
  let alternativeUrls : List Str := setAddAll [] []
  match searchDuckDuckGo src.launchDuck src.duckLinks with
  | Completion.throws => alternativeUrls
  | Completion.returns alternativeSearchResults =>
    let alternativeUrls := setAddAll alternativeUrls alternativeSearchResults
    let alternativeUrls := setAddAll alternativeUrls (searchForumsAndCommunities src.reddit)
    setAddAll alternativeUrls (searchWebArchives src.archiveRows)

/-- One iteration of the round loop of `getArtifactUrls` (scraper.js 129-252). -/
def googleRound (rt : Runtime) (allUrls : List Str) : Round → List Str
  | Round.page links bodyText => setAddAll allUrls (extractUrls rt links bodyText)
  | Round.captcha => allUrls
  | Round.error => allUrls

/-- The Google phase of `getArtifactUrls` (scraper.js 97-264): the set `allUrls`
after the `try` block. -/
def googlePhase (rt : Runtime) (maxPages : Nat) (src : Sources) : List Str :=
  if src.googleSetup then
    (List.range maxPages).foldl (fun allUrls pageNum => googleRound rt allUrls (src.rounds pageNum)) []
  else []

/-- Method `getArtifactUrls()` (scraper.js 92-281): the returned list and the value
of `this.totalFound` afterwards. -/
def getArtifactUrls (rt : Runtime) (maxPages : Nat) (src : Sources) :
    Completion (List Str × Nat) :=
  if createBrowser src.launchGoogle then
    let uniqueUrls := googlePhase rt maxPages src
    let totalFound := uniqueUrls.length
    if uniqueUrls.length = 0 then
      let alternativeUrls := getArtifactUrlsAlternative src
      Completion.returns (setAddAll uniqueUrls alternativeUrls, totalFound)
    else Completion.returns (uniqueUrls, totalFound)
  else Completion.throws

/-! ## The run -/

/-- An item of the feed written by `saveResults`. `thumbnail` is `none` for `null`. -/
structure FeedItem where
  id : Nat
  title : JsVal
  description : Str
  author : Str
  likes : Nat
  comments : Nat
  type : JsVal
  language : Str
  content : Str
  rawCode : Str
  codeLength : Nat
  hasCode : Bool
  url : Str
  thumbnail : Option Str
  createdAt : Str
  isRenderable : Bool
  previewCode : Str

/-- The random numbers drawn by `saveResults` for the item at an index:
`Math.floor(Math.random() * 1000)` and `Math.floor(Math.random() * 100)`. -/
structure Dice where
  likes : Nat → Fin 1000
  comments : Nat → Fin 100

/-- The function mapped over the artifacts in `saveResults` (scraper.js 1135-1154). -/
def feedItem (dice : Dice) (index : Nat) (artifact : Artifact) : FeedItem where
  id := index + 1
  title := artifact.title
  description := artifact.description
  author := artifact.author
  likes := (dice.likes index).val + 50
  comments := (dice.comments index).val + 5
  type := artifact.type
  language := if artifact.language.isEmpty then "html".toList else artifact.language
  content := artifact.content
  rawCode := if artifact.rawCode.isEmpty then artifact.content else artifact.rawCode
  codeLength := artifact.codeLength
  hasCode := artifact.hasCode
  url := artifact.url
  thumbnail := orStr artifact.screenshot none
  createdAt := artifact.scrapedAt
  isRenderable := !artifact.rawCode.isEmpty && artifact.hasCode
  previewCode :=
    if artifact.rawCode.isEmpty then []
    else substring0 artifact.rawCode 200 ++ "...".toList

/-- The content of the output file: the object `completeData` of `saveResults`. -/
structure Dataset where
  scrapedAt : Str
  totalArtifacts : Nat
  artifacts : List Artifact

/-- Method `saveResults(artifacts)` (scraper.js 1124-1157): what is written to the
output file and to the feed file. -/
def saveResults (rt : Runtime) (dice : Dice) (artifacts : List Artifact) :
    Dataset × List FeedItem :=
  ({ scrapedAt := rt.now, totalArtifacts := artifacts.length, artifacts := artifacts },
    artifacts.mapIdx (fun index artifact => feedItem dice index artifact))

/-- The fields of a `ClaudeArtifactScraper` instance that `scrapeAll` reads or
writes. `existingUrls` is a `Set` in insertion order. -/
structure ScraperState where
  maxPages : Nat
  screenshots : Bool
  updateOnly : Bool
  artifacts : List Artifact
  existingUrls : List Str
  successCount : Nat
  totalFound : Nat

/-- The state of an instance right after the constructor (scraper.js 16-19), for given
values of the three options. -/
def newScraper (maxPages : Nat) (screenshots updateOnly : Bool) : ScraperState where
  maxPages := maxPages
  screenshots := screenshots
  updateOnly := updateOnly
  artifacts := []
  existingUrls := []
  successCount := 0
  totalFound := 0

/-- The loop of `init` over the existing artifacts (scraper.js 40-44): a record with a
falsy `url` is not entered into `existingUrls`. -/
def addExistingUrls (existingUrls : List Str) (existingArtifacts : List Artifact) : List Str :=
  existingArtifacts.foldl
    (fun set artifact => if artifact.url.isEmpty then set else setAdd set artifact.url)
    existingUrls

/-- Method `init()` (scraper.js 23-52): `file` is the parsed output file of an earlier
run, `none` when it cannot be read. Returns the state and the existing artifacts. -/
def init (self : ScraperState) (file : Option Dataset) : ScraperState × List Artifact :=
  match file with
  | some parsed =>
    ({ self with existingUrls := addExistingUrls self.existingUrls parsed.artifacts },
      parsed.artifacts)
  | none => (self, [])

/-- The loop of `scrapeAll` over `urlsToScrape` (scraper.js 1091-1106) for an extraction
function `extract`, together with the URLs that were passed to `extract`, in order. A
throw of `extract` ends the run. -/
def scrapeLoop (extract : Str → Completion (Option Artifact)) :
    ScraperState → List Str → Completion ScraperState × List Str
  | self, [] => (Completion.returns self, [])
  | self, url :: rest =>
    match extract url with
    | Completion.throws => (Completion.throws, [url])
    | Completion.returns none =>
      let next := scrapeLoop extract self rest
      (next.1, url :: next.2)
    | Completion.returns (some artifactData) =>
      let next := scrapeLoop extract
        { self with artifacts := self.artifacts ++ [artifactData],
                    successCount := self.successCount + 1 } rest
      (next.1, url :: next.2)

/-- The list `urlsToScrape` of `scrapeAll` (scraper.js 1077-1083). -/
def urlsToScrape (self : ScraperState) (urls : List Str) : List Str :=
  if self.updateOnly then urls.filter (fun url => !decide (url ∈ self.existingUrls)) else urls

/-- What one call of `scrapeAll` leaves behind: the state of the instance, the returned
value (`none` for `undefined`) and what `saveResults` wrote (`none` when it was not
called). -/
structure Run where
  state : ScraperState
  returned : Option (List Artifact)
  saved : Option (Dataset × List FeedItem)

/-- Method `scrapeAll()` (scraper.js 1065-1121), together with the URLs it passed to
`scrapeArtifact`, in order. -/
def scrapeAll (rt : Runtime) (dice : Dice) (self : ScraperState) (src : Sources) (web : Web)
    (file : Option Dataset) : Completion Run × List Str :=
  let started := init self file
  let existingArtifacts := started.2
  match getArtifactUrls rt started.1.maxPages src with
  | Completion.throws => (Completion.throws, [])
  | Completion.returns (urls, totalFound) =>
    let self := { started.1 with totalFound := totalFound }
    if urls.length = 0 then (Completion.returns ⟨self, none, none⟩, [])
    else
      let todo := urlsToScrape self urls
      if todo.length = 0 then (Completion.returns ⟨self, some existingArtifacts, none⟩, [])
      else
        let looped := scrapeLoop (fun url => (scrapeArtifact rt self.screenshots web url).1)
          self todo
        match looped.1 with
        | Completion.throws => (Completion.throws, looped.2)
        | Completion.returns self =>
          let allArtifacts :=
            if self.updateOnly then existingArtifacts ++ self.artifacts else self.artifacts
          (Completion.returns ⟨self, some allArtifacts, some (saveResults rt dice allArtifacts)⟩,
            looped.2)

/-- The parsed output file after a call of `scrapeAll` that found `file` before: the
dataset written by `saveResults`, or `file` unchanged when nothing was written. -/
def fileAfter (file : Option Dataset) (run : Completion Run) : Option Dataset :=
  match run with
  | Completion.returns ⟨_, _, some written⟩ => some written.1
  | _ => file

/-- The artifact records of a parsed output file (`[]` when there is none). -/
def recordsOf (file : Option Dataset) : List Artifact :=
  match file with
  | some parsed => parsed.artifacts
  | none => []

/-! ## The constructor -/

/-- The test `v !== false`. -/
def JsVal.isNotFalse : JsVal → Bool
  | JsVal.bool false => false
  | _ => true

/-- The fields of a `ClaudeArtifactScraper` after its constructor has run. A field
assigned with `||` holds whatever value the options gave when that value is truthy. -/
structure ClaudeArtifactScraper where
  maxPages : JsVal
  headless : Bool
  delay : JsVal
  screenshots : Bool
  outputFile : JsVal
  feedFile : JsVal
  screenshotDir : JsVal
  updateOnly : JsVal
  artifacts : List Artifact
  existingUrls : List Str
  successCount : Nat
  totalFound : Nat

/-- The expression `new ClaudeArtifactScraper(arg)` (scraper.js 6-20): the parameter
default `options = \x7b\x7d` applies when the argument is `undefined`; `none` when reading
a property of `options` throws (`options` is `null`). -/
def newClaudeArtifactScraper (arg : JsVal) : Option ClaudeArtifactScraper :=
  let options :=
    match arg with
    | JsVal.undefined => JsVal.obj []
    | given => given
  (options.get "maxPages".toList).bind fun maxPages =>
  (options.get "headless".toList).bind fun headless =>
  (options.get "delay".toList).bind fun delay =>
  (options.get "screenshots".toList).bind fun screenshots =>
  (options.get "outputFile".toList).bind fun outputFile =>
  (options.get "feedFile".toList).bind fun feedFile =>
  (options.get "screenshotDir".toList).bind fun screenshotDir =>
  (options.get "updateOnly".toList).bind fun updateOnly =>
  some {
    maxPages := maxPages.or (JsVal.num 3)
    headless := headless.isNotFalse
    delay := delay.or (JsVal.num 2000)
    screenshots := screenshots.isNotFalse
    outputFile := outputFile.or (JsVal.str "scraped_artifacts.json".toList)
    feedFile := feedFile.or (JsVal.str "feed_data.json".toList)
    screenshotDir := screenshotDir.or (JsVal.str "screenshots".toList)
    updateOnly := updateOnly.or (JsVal.bool false)
    artifacts := []
    existingUrls := []
    successCount := 0
    totalFound := 0 }

/-! ## Search requests of the Google phase -/

/-- The array `searchQueries` of `getArtifactUrls` (scraper.js 134-138). -/
def searchQueries : List Str :=
  [ "site:claude.ai \"public/artifacts\"".toList,
    "claude.ai/public/artifacts/".toList,
    "\"claude.ai/public/artifacts/\" -site:reddit.com -site:github.com".toList ]

/-- The index `pageNum % searchQueries.length` of the query used in round `pageNum`. -/
def queryVariant (pageNum : Nat) : Nat := pageNum % searchQueries.length

/-- The query `searchQueries[pageNum % searchQueries.length]` of round `pageNum`. -/
def searchQuery (pageNum : Nat) : Str := (searchQueries[queryVariant pageNum]?).getD []

/-- The value `Math.floor(pageNum / searchQueries.length) * 10` of the `start`
parameter in round `pageNum`. -/
def searchStart (pageNum : Nat) : Nat := pageNum / searchQueries.length * 10

/-- The address `searchUrl` that round `pageNum` navigates to (scraper.js 141). -/
def searchUrl (pageNum : Nat) : Str :=
  "https://www.google.com/search?q=".toList ++ encodeURIComponent (searchQuery pageNum) ++
    "&start=".toList ++ (Nat.repr (searchStart pageNum)).toList ++
    "&hl=en&safe=off&filter=0".toList

/-- The round loop of `getArtifactUrls` (scraper.js 129-252) with the addresses it
navigated to: the set `allUrls` and the list of the `searchUrl`s passed to `page.goto`,
in order. -/
def googleRounds (rt : Runtime) (maxPages : Nat) (src : Sources) : List Str × List Str :=
  (List.range maxPages).foldl
    (fun state pageNum =>
      (googleRound rt state.1 (src.rounds pageNum), state.2 ++ [searchUrl pageNum]))
    ([], [])

/-! ## Concrete inputs -/

/-- A runtime for evaluating the scraper on the concrete inputs below. Its fields agree
with the JavaScript built-ins on those inputs: ASCII text, no percent escapes, absolute
`http(s)` URLs made of a lower-case host and a path. -/
def asciiRuntime : Runtime where
  toUpperCase := fun s => s.map Char.toUpper
  decodeURIComponent := fun s => if '%' ∈ s then none else some s
  urlOriginPath := fun s =>
    let cut := fun (scheme : Str) =>
      let rest := s.drop scheme.length
      let host := rest.takeWhile (fun c => c != '/' && c != '?' && c != '#')
      let path := (rest.drop host.length).takeWhile (fun c => c != '?' && c != '#')
      scheme ++ host ++ (if path.isEmpty then ['/'] else path)
    if "https://".toList.isPrefixOf s then some (cut "https://".toList)
    else if "http://".toList.isPrefixOf s then some (cut "http://".toList)
    else none
  now := "2025-01-01T00:00:00.000Z".toList

/-- A well-formed candidate URL. -/
def sampleUrl : Str := "https://claude.ai/public/artifacts/abcdef12-3456".toList

/-- A page with no content at all. -/
def emptyDom : Dom where
  title := []
  h1 := none
  h2 := none
  h3 := none
  metaDescription := none
  ogDescription := none
  twitterDescription := none
  scripts := []
  codeBlocks := []
  dataElements := []
  iframeSrcdoc := none
  textAreas := []
  iframeSrc := none
  main := none

/-- The direct endpoint `/api/public/artifacts/<id>` answers with a JSON document
that carries the artifact source; every other request fails and the page cannot be
opened. -/
def webApiJson : Web where
  fetch := fun endpoint =>
    if endpoint = "https://claude.ai/api/public/artifacts/abcdef12-3456".toList then
      some {
        ok := true
        contentType := some "application/json".toList
        text := some "\x7b\"content\":\"<div>hi</div>\"\x7d".toList
        json := some (JsVal.obj [("content".toList, JsVal.str "<div>hi</div>".toList)]) }
    else none
  launch := fun _ => true
  render := fun _ => none

/-- The record built from the answer of `webApiJson`. -/
def apiJsonRecord : Artifact where
  id := some "abcdef12-3456".toList
  url := sampleUrl
  title := JsVal.str "Untitled Artifact".toList
  description := "Extracted via api".toList
  content := "<div>hi</div>".toList
  rawCode := "<div>hi</div>".toList
  type := JsVal.str "html".toList
  language := "html".toList
  codeLength := 13
  hasCode := true
  scrapedAt := "2025-01-01T00:00:00.000Z".toList
  author := "Unknown".toList
  method := some "api".toList
  screenshot := none

/-- Every request fails; the browser starts but the navigation times out. -/
def webDown : Web where
  fetch := fun _ => none
  launch := fun _ => true
  render := fun _ => none

/-- Every request fails and the browser cannot be started. -/
def webNoBrowser : Web where
  fetch := fun _ => none
  launch := fun _ => false
  render := fun _ => none

/-- The record that `trySocialMetadata` builds for `sampleUrl`. -/
def metadataRecord : Artifact where
  id := some "abcdef12-3456".toList
  url := sampleUrl
  title := JsVal.str "Artifact abcdef12".toList
  description := "Discovered via URL pattern matching".toList
  content := []
  rawCode := []
  type := JsVal.str "unknown".toList
  language := []
  codeLength := 0
  hasCode := false
  scrapedAt := "2025-01-01T00:00:00.000Z".toList
  author := "Unknown".toList
  method := some "social_metadata".toList
  screenshot := none

/-- Every request fails; the browser opens the page, which shows a security
challenge that is still there after the extra wait. -/
def webChallenge : Web where
  fetch := fun _ => none
  launch := fun _ => true
  render := fun _ =>
    some {
      cloudflareChallenge := true
      challengeText := some "Verify you are human".toList
      dom := emptyDom
      screenshotPath := none }

/-- A page whose only content is the text of its main container. -/
def notFoundDom : Dom := { emptyDom with main := some "<p>Not found</p>".toList }

/-- Every request fails; the browser opens a page on which no content-location
strategy finds code. -/
def webPlainRender : Web where
  fetch := fun _ => none
  launch := fun _ => true
  render := fun _ =>
    some {
      cloudflareChallenge := false
      challengeText := none
      dom := notFoundDom
      screenshotPath := none }

/-- The record that the page function builds on `notFoundDom` for `sampleUrl`. -/
def notFoundRecord : Artifact where
  id := some "abcdef12-3456".toList
  url := sampleUrl
  title := JsVal.str "Untitled Artifact".toList
  description := "No description available".toList
  content := "<p>Not found</p>".toList
  rawCode := "<p>Not found</p>".toList
  type := JsVal.str "html".toList
  language := "html".toList
  codeLength := 16
  hasCode := false
  scrapedAt := "2025-01-01T00:00:00.000Z".toList
  author := "Unknown".toList
  method := none
  screenshot := none

/-- An error page of more than 100 characters without any script. -/
def plainPage : Str :=
  ("<html><body><p>" ++ String.mk (List.replicate 90 'x') ++ "</p></body></html>").toList

/-- An archived copy of the artifact page that embeds the artifact in a script. -/
def archivedPage : Str :=
  "<html><title>Demo | Claude</title><script>var artifact = 1;</script></html>".toList

/-- The direct endpoint answers `200 OK` with `plainPage` as `text/html`, the Internet
Archive holds `archivedPage`, every other request fails and the page cannot be
opened. -/
def webApiHtml : Web where
  fetch := fun endpoint =>
    if endpoint = "https://claude.ai/api/public/artifacts/abcdef12-3456".toList then
      some { ok := true, contentType := some "text/html".toList, text := some plainPage,
             json := none }
    else if endpoint =
        "http://web.archive.org/web/https://claude.ai/public/artifacts/abcdef12-3456".toList then
      some { ok := true, contentType := some "text/html".toList, text := some archivedPage,
             json := none }
    else none
  launch := fun _ => true
  render := fun _ => none

/-- A component body that uses the state hook and returns markup. -/
def hookSnippet : Str := "const [n, setN] = useState(0); return (<p>hi</p>);".toList

/-- A complete HTML document whose text mentions SVG. -/
def htmlAboutSvg : Str := "<!DOCTYPE html><html><body>About SVG</body></html>".toList

/-- A complete HTML document whose text holds the words of the first React rule. -/
def htmlAboutFunctions : Str :=
  "<!DOCTYPE html><html><body>a function may return (x)</body></html>".toList

/-- A complete HTML document with an inline arrow function. -/
def htmlWithArrow : Str :=
  "<!DOCTYPE html><html><script>const f = () => \x7b\x7d</script></html>".toList

/-- A URL that passes every discovery filter although its last path segment is not a
hex/hyphen token. -/
def looseUrl : Str := "https://claude.ai/public/artifacts/abcdef12-not-an-id".toList

/-- The Google phase meets a CAPTCHA in every round; DuckDuckGo links to `sampleUrl`
and the Internet Archive index lists the same URL with a query string. -/
def sourcesDuplicate : Sources where
  launchGoogle := fun _ => true
  googleSetup := true
  rounds := fun _ => Round.captcha
  launchDuck := fun _ => true
  duckLinks := some [sampleUrl]
  reddit := fun _ => none
  archiveRows := some [JsVal.arr [JsVal.str (sampleUrl ++ "?ref=x".toList)]]

/-- A diagram source that names its notation. -/
def mermaidChart : Str := "graph TD; A-->B; %% mermaid".toList

/-- A JSON document whose only field is `content`. -/
def jsonWithContent (content : JsVal) : JsVal := JsVal.obj [("content".toList, content)]

/-- A source text of 10001 characters. -/
def longCode : Str := List.replicate 10001 'x'

/-- A page that carries `longCode` in a `data-artifact` attribute. -/
def longDom : Dom :=
  { emptyDom with dataElements := [{ artifact := some longCode, code := none, content := none }] }

/-- Every request fails; the browser opens a page whose `data-artifact` attribute
holds `longCode`. -/
def webLongRender : Web where
  fetch := fun _ => none
  launch := fun _ => true
  render := fun _ =>
    some {
      cloudflareChallenge := false
      challengeText := none
      dom := longDom
      screenshotPath := none }

/-- A candidate URL with a trailing slash. -/
def slashUrl : Str := "https://claude.ai/public/artifacts/abcdef12-3456/".toList

/-- A candidate URL with a further path segment after the id. -/
def editUrl : Str := "https://claude.ai/public/artifacts/abcdef12-3456/edit".toList

/-- Constant random numbers. -/
def zeroDice : Dice where
  likes := fun _ => 0
  comments := fun _ => 0

/-- The record that an extraction function returns for a URL, if it returns one. -/
def extracted (extract : Str → Completion (Option Artifact)) (url : Str) : Option Artifact :=
  match extract url with
  | Completion.returns (some artifactData) => some artifactData
  | _ => none

/-- The first round of the Google phase shows one link: a redirect whose target is a
bare fragment. The secondary tier is not reached. -/
def sourcesEmptyUrl : Sources where
  launchGoogle := fun _ => true
  googleSetup := true
  rounds := fun _ =>
    Round.page ["https://www.google.com/url?url=#claude.ai/public/artifacts/abcdef123".toList] []
  launchDuck := fun _ => false
  duckLinks := none
  reddit := fun _ => none
  archiveRows := none

/-- The direct endpoint for the empty id answers with a JSON document that carries
a source; every other request fails and no page can be opened. -/
def webEmptyId : Web where
  fetch := fun endpoint =>
    if endpoint = "https://claude.ai/api/public/artifacts/".toList then
      some {
        ok := true
        contentType := some "application/json".toList
        text := some "\x7b\"content\":\"<div>hi</div>\"\x7d".toList
        json := some (jsonWithContent (JsVal.str "<div>hi</div>".toList)) }
    else none
  launch := fun _ => true
  render := fun _ => none

/-- The record built from the answer of `webEmptyId` for the empty candidate URL. -/
def emptyUrlRecord : Artifact where
  id := some []
  url := []
  title := JsVal.str "Untitled Artifact".toList
  description := "Extracted via api".toList
  content := "<div>hi</div>".toList
  rawCode := "<div>hi</div>".toList
  type := JsVal.str "html".toList
  language := "html".toList
  codeLength := 13
  hasCode := true
  scrapedAt := "2025-01-01T00:00:00.000Z".toList
  author := "Unknown".toList
  method := some "api".toList
  screenshot := none

/-- The output file after a first run on `sourcesEmptyUrl` and `webEmptyId`. -/
def emptyUrlDataset : Dataset where
  scrapedAt := "2025-01-01T00:00:00.000Z".toList
  totalArtifacts := 1
  artifacts := [emptyUrlRecord]

/-- The options of the first test of `test.js`. -/
def testOptions : JsVal :=
  JsVal.obj [("maxPages".toList, JsVal.num 1), ("headless".toList, JsVal.bool true),
    ("screenshots".toList, JsVal.bool false)]

/-- The Google phase meets a CAPTCHA in every round, the browser of the DuckDuckGo
search cannot be started, and the Internet Archive index lists `sampleUrl`. -/
def sourcesDuckDown : Sources where
  launchGoogle := fun _ => true
  googleSetup := true
  rounds := fun _ => Round.captcha
  launchDuck := fun _ => false
  duckLinks := none
  reddit := fun _ => none
  archiveRows := some [JsVal.arr [JsVal.str sampleUrl]]

/-- The first round times out, the second meets a CAPTCHA, the third shows a link to
`sampleUrl`. -/
def sourcesThirdRound : Sources where
  launchGoogle := fun _ => true
  googleSetup := true
  rounds := fun pageNum =>
    if pageNum = 0 then Round.error
    else if pageNum = 1 then Round.captcha
    else Round.page [sampleUrl] []
  launchDuck := fun _ => false
  duckLinks := none
  reddit := fun _ => none
  archiveRows := none

/-- An interstitial page of 516 characters that asks the visitor to wait. -/
def waitingPage : Str := "Just a moment...".toList ++ List.replicate 500 'x'

/-- The relay `cors-anywhere` answers `200 OK` with `waitingPage` for `sampleUrl`;
every other request fails and the page cannot be opened. -/
def webProxyWaiting : Web where
  fetch := fun endpoint =>
    if endpoint =
        "https://cors-anywhere.herokuapp.com/https://claude.ai/public/artifacts/abcdef12-3456".toList
    then
      some { ok := true, contentType := some "text/html".toList, text := some waitingPage,
             json := none }
    else none
  launch := fun _ => true
  render := fun _ => none

/-- The Internet Archive answers `200 OK` with `waitingPage` for `sampleUrl`; every
other request fails and the page cannot be opened. -/
def webArchiveWaiting : Web where
  fetch := fun endpoint =>
    if endpoint =
        "http://web.archive.org/web/https://claude.ai/public/artifacts/abcdef12-3456".toList
    then
      some { ok := true, contentType := some "text/html".toList, text := some waitingPage,
             json := none }
    else none
  launch := fun _ => true
  render := fun _ => none

/-- The URL of the error-handling test of `test.js`. -/
def invalidUrl : Str := "https://example.com/invalid".toList

/-- The record that the page function builds on `notFoundDom` for `invalidUrl`. -/
def invalidUrlRecord : Artifact where
  id := some "invalid".toList
  url := invalidUrl
  title := JsVal.str "Untitled Artifact".toList
  description := "No description available".toList
  content := "<p>Not found</p>".toList
  rawCode := "<p>Not found</p>".toList
  type := JsVal.str "html".toList
  language := "html".toList
  codeLength := 16
  hasCode := false
  scrapedAt := "2025-01-01T00:00:00.000Z".toList
  author := "Unknown".toList
  method := none
  screenshot := none

/-- A document that holds a component-framework marker next to markup markers. -/
def mixedDocument : Str :=
  "<!DOCTYPE html><html><svg></svg><script>useState(0)</script></html>".toList

/-- A text without any marker. -/
def plainText : Str := "hello".toList

/-- A sentence that names the SVG format. -/
def svgSentence : Str := "About SVG".toList

/-- A component module. -/
def reactModule : Str := "import React from \"react\";".toList

/-- A drawing. -/
def svgDrawing : Str := "<svg></svg>".toList

/-- The number written by a list of decimal digits. -/
def digitsValue (ds : List Char) : Nat := ds.foldl (fun acc c => 10 * acc + (c.toNat - 48)) 0

/-- A page that carries a short source text in a `data-artifact` attribute. -/
def codeDom : Dom :=
  { emptyDom with
    dataElements := [{ artifact := some "<div>hi</div>".toList, code := none, content := none }] }

/-- Every request fails; the browser opens a page whose `data-artifact` attribute
holds `<div>hi</div>`. -/
def webCodeRender : Web where
  fetch := fun _ => none
  launch := fun _ => true
  render := fun _ =>
    some {
      cloudflareChallenge := false
      challengeText := none
      dom := codeDom
      screenshotPath := none }

/-- The record that the page function builds on `codeDom` for `sampleUrl`. -/
def codeRenderRecord : Artifact where
  id := some "abcdef12-3456".toList
  url := sampleUrl
  title := JsVal.str "Untitled Artifact".toList
  description := "No description available".toList
  content := "<div>hi</div>".toList
  rawCode := "<div>hi</div>".toList
  type := JsVal.str "html".toList
  language := "html".toList
  codeLength := 13
  hasCode := true
  scrapedAt := "2025-01-01T00:00:00.000Z".toList
  author := "Unknown".toList
  method := none
  screenshot := none

/-! ## Lemmas on strings -/

theorem idRun_eq_length (s : Str) (h : s.all isIdChar = true) : idRun s = s.length := by
  unfold idRun
  rw [List.takeWhile_eq_self_iff.mpr]
  intro c hc
  exact (List.all_eq_true.mp h) c hc

theorem matchesIdPattern_of_all (s : Str) (h : s.all isIdChar = true) (hlen : 8 ≤ s.length) :
    matchesIdPattern s = true := by
  unfold matchesIdPattern
  rw [List.any_eq_true]
  refine ⟨s, ?_, ?_⟩
  · cases s <;> simp
  · simpa [idRun_eq_length s h] using hlen

theorem includes_iff_occurs (s p : Str) : includes s p = true ↔ p <:+: s := by
  induction s with
  | nil => simp [includes, List.isEmpty_iff, List.infix_nil]
  | cons c cs ih =>
    simp [includes, ih, List.infix_cons_iff, List.isPrefixOf_iff_prefix]

theorem idRun_le_length (s : Str) : idRun s ≤ s.length :=
  (List.takeWhile_prefix isIdChar).length_le

theorem matchesArtifactUrl_iff (s : Str) :
    matchesArtifactUrl s = true ↔ ∃ b r, s = b ++ (artifactsPath ++ r) ∧ 8 ≤ idRun r := by
  unfold matchesArtifactUrl
  rw [List.any_eq_true]
  constructor
  · rintro ⟨t, ht, h⟩
    rw [List.mem_tails] at ht
    obtain ⟨b, rfl⟩ := ht
    rw [Bool.and_eq_true, List.isPrefixOf_iff_prefix, decide_eq_true_eq] at h
    obtain ⟨⟨r, rfl⟩, h8⟩ := h
    rw [List.drop_left] at h8
    exact ⟨b, r, rfl, h8⟩
  · rintro ⟨b, r, rfl, h8⟩
    refine ⟨artifactsPath ++ r, ?_, ?_⟩
    · rw [List.mem_tails]
      exact ⟨b, rfl⟩
    · rw [Bool.and_eq_true, List.isPrefixOf_iff_prefix, decide_eq_true_eq, List.drop_left]
      exact ⟨List.prefix_append _ _, h8⟩

/-! ## The extraction chain -/

/-- C1: if the direct-endpoint probe `tryApiEndpoints` returns a record with
`hasCode = true`, `scrapeArtifact` returns exactly that record and the only strategy it
ran is the direct-endpoint probe (no archive probe, proxy probe, metadata fallback or
browser render). -/
theorem scrapeArtifact_api_short_circuit (rt : Runtime) (screenshots : Bool) (web : Web)
    (url : Str) (r : Artifact) (hapi : tryApiEndpoints rt web.fetch url = some r)
    (hcode : r.hasCode = true) :
    scrapeArtifact rt screenshots web url = (Completion.returns (some r), [Strategy.api]) := by
  simp [scrapeArtifact, scrapeArtifactAlternative, hapi, hcode]

/-- Witness for C1: the endpoint of `webApiJson` serves the artifact as JSON. -/
theorem scrapeArtifact_api_short_circuit_witness :
    scrapeArtifact asciiRuntime true webApiJson sampleUrl =
      (Completion.returns (some apiJsonRecord), [Strategy.api]) :=
  scrapeArtifact_api_short_circuit asciiRuntime true webApiJson sampleUrl apiJsonRecord
    (by rfl) (by rfl)

/-- C2 (as stated, refuted): for the well-formed candidate `sampleUrl`, when every
request fails the alternative chain ends in the metadata-only record, which has no code,
so `scrapeArtifact` goes on to the browser: it returns `null` when the navigation
fails and throws when the browser cannot be started. -/
theorem scrapeArtifact_returns_null_or_throws :
    ((lastSegment sampleUrl).all isIdChar = true ∧ 8 ≤ (lastSegment sampleUrl).length) ∧
    (scrapeArtifactAlternative asciiRuntime webDown.fetch sampleUrl).1 = some metadataRecord ∧
    (scrapeArtifact asciiRuntime true webDown sampleUrl).1 = Completion.returns none ∧
    (scrapeArtifact asciiRuntime true webNoBrowser sampleUrl).1 = Completion.throws :=
  ⟨⟨by decide, by decide⟩, by rfl, by rfl, by rfl⟩

/-- C2 (amended): for every candidate URL and every outcome of the strategies,
`scrapeArtifact` completes. A record with code from the alternative chain is the result,
and no browser is started for it. The call throws if and only if the alternative chain
gives no record with code and none of the three launch attempts of the browser succeeds.
When the browser starts and the rendered page yields a record with code, that record is
the result. -/
theorem scrapeArtifact_completion (rt : Runtime) (screenshots : Bool) (web : Web)
    (url : Str) :
    (∀ r, (scrapeArtifactAlternative rt web.fetch url).1 = some r → r.hasCode = true →
      (scrapeArtifact rt screenshots web url).1 = Completion.returns (some r) ∧
      Strategy.browser ∉ (scrapeArtifact rt screenshots web url).2) ∧
    ((scrapeArtifact rt screenshots web url).1 = Completion.throws ↔
      ((∀ r, (scrapeArtifactAlternative rt web.fetch url).1 = some r → r.hasCode = false) ∧
        createBrowser web.launch = false)) ∧
    (∀ page r,
      (∀ r0, (scrapeArtifactAlternative rt web.fetch url).1 = some r0 → r0.hasCode = false) →
      createBrowser web.launch = true → web.render url = some page →
      scrapeRendered rt screenshots page url = some r → r.hasCode = true →
      (scrapeArtifact rt screenshots web url).1 = Completion.returns (some r)) := by
  have hbrowser : (∀ r, (scrapeArtifactAlternative rt web.fetch url).1 = some r →
      r.hasCode = false) →
      (scrapeArtifact rt screenshots web url).1 = scrapeWithBrowser rt screenshots web url := by
    intro h
    cases halt : (scrapeArtifactAlternative rt web.fetch url).1 with
    | none => simp [scrapeArtifact, halt]
    | some r => simp [scrapeArtifact, halt, h r halt]
  have hcode : ∀ r, (scrapeArtifactAlternative rt web.fetch url).1 = some r →
      r.hasCode = true →
      scrapeArtifact rt screenshots web url =
        (Completion.returns (some r), (scrapeArtifactAlternative rt web.fetch url).2) := by
    intro r h hc
    simp [scrapeArtifact, h, hc]
  have htrace : Strategy.browser ∉ (scrapeArtifactAlternative rt web.fetch url).2 := by
    unfold scrapeArtifactAlternative
    cases tryApiEndpoints rt web.fetch url <;>
      cases tryInternetArchiveContent rt web.fetch url <;>
      cases tryProxyServices rt web.fetch url <;> simp
  have hthrow : scrapeWithBrowser rt screenshots web url = Completion.throws ↔
      createBrowser web.launch = false := by
    unfold scrapeWithBrowser
    cases hl : createBrowser web.launch
    · simp
    · cases web.render url <;> simp
  refine ⟨?_, ?_, ?_⟩
  · intro r h hc
    rw [hcode r h hc]
    exact ⟨rfl, htrace⟩
  · constructor
    · intro ht
      have hno : ∀ r, (scrapeArtifactAlternative rt web.fetch url).1 = some r →
          r.hasCode = false := by
        intro r h
        cases hc : r.hasCode
        · rfl
        · rw [hcode r h hc] at ht
          exact absurd ht (by simp)
      rw [hbrowser hno] at ht
      exact ⟨hno, hthrow.mp ht⟩
    · rintro ⟨hno, hl⟩
      rw [hbrowser hno]
      exact hthrow.mpr hl
  · intro page r hno hl hpage hr _
    rw [hbrowser hno]
    unfold scrapeWithBrowser
    rw [if_pos hl, hpage]
    dsimp only
    rw [hr]

/-- Witness for C2 (amended): the JSON answer of `webApiJson` is returned without a
browser; on `webNoBrowser` every request fails and no browser starts, so the call
throws; on `webCodeRender` the rendered page carries the source. -/
theorem scrapeArtifact_completion_witness :
    ((scrapeArtifact asciiRuntime true webApiJson sampleUrl).1 =
        Completion.returns (some apiJsonRecord) ∧
      Strategy.browser ∉ (scrapeArtifact asciiRuntime true webApiJson sampleUrl).2) ∧
    (scrapeArtifact asciiRuntime true webNoBrowser sampleUrl).1 = Completion.throws ∧
    (scrapeArtifact asciiRuntime true webCodeRender sampleUrl).1 =
      Completion.returns (some codeRenderRecord) :=
  have hmeta : ∀ web : Web, web.fetch = (fun _ => none) →
      ∀ r, (scrapeArtifactAlternative asciiRuntime web.fetch sampleUrl).1 = some r →
        r.hasCode = false := by
    intro web hf r h
    rw [hf] at h
    have h2 : some metadataRecord = some r := h
    cases h2
    rfl
  ⟨(scrapeArtifact_completion asciiRuntime true webApiJson sampleUrl).1 apiJsonRecord
      (by rfl) (by rfl),
    ((scrapeArtifact_completion asciiRuntime true webNoBrowser sampleUrl).2.1).mpr
      ⟨hmeta webNoBrowser rfl, by rfl⟩,
    (scrapeArtifact_completion asciiRuntime true webCodeRender sampleUrl).2.2 _
      codeRenderRecord (hmeta webCodeRender rfl) (by rfl) (by rfl) (by rfl) (by rfl)⟩

/-- C3 (as stated, refuted): for the well-formed candidate `sampleUrl` the three
probes fail on `webChallenge` and on `webPlainRender`. When the render fails too
(`webChallenge`), `scrapeArtifact` outputs no record; when the render finds no code
(`webPlainRender`), it outputs the record of the page, with no method and a non-empty
`rawCode`. The record of the metadata fallback carries the method `social_metadata`. -/
theorem all_strategies_fail_outputs_null :
    tryApiEndpoints asciiRuntime webChallenge.fetch sampleUrl = none ∧
    tryInternetArchiveContent asciiRuntime webChallenge.fetch sampleUrl = none ∧
    tryProxyServices asciiRuntime webChallenge.fetch sampleUrl = none ∧
    scrapeWithBrowser asciiRuntime true webChallenge sampleUrl = Completion.returns none ∧
    (scrapeArtifact asciiRuntime true webChallenge sampleUrl).1 = Completion.returns none ∧
    (scrapeArtifact asciiRuntime true webPlainRender sampleUrl).1 =
      Completion.returns (some notFoundRecord) ∧
    (trySocialMetadata asciiRuntime sampleUrl).map (fun r => r.method) =
      some (some "social_metadata".toList) :=
  ⟨by rfl, by rfl, by rfl, by rfl, by rfl, by rfl, by rfl⟩

/-- C3 (amended): for a candidate whose id is a hex/hyphen token of at least 8
characters, when the direct-endpoint, archive and proxy probes fail, the alternative
chain ends in the metadata fallback, whose record has `hasCode = false`, method
`social_metadata` and `rawCode = ""`. -/
theorem metadata_fallback_record (rt : Runtime) (fetch : Fetch) (url : Str)
    (hid : (lastSegment url).all isIdChar = true) (hlen : 8 ≤ (lastSegment url).length)
    (hapi : tryApiEndpoints rt fetch url = none)
    (harchive : tryInternetArchiveContent rt fetch url = none)
    (hproxy : tryProxyServices rt fetch url = none) :
    ∃ r, scrapeArtifactAlternative rt fetch url =
        (some r, [Strategy.api, Strategy.archive, Strategy.proxy, Strategy.metadata]) ∧
      r.hasCode = false ∧ r.method = some "social_metadata".toList ∧ r.rawCode = [] := by
  have hne : (lastSegment url).isEmpty = false := by
    cases h : lastSegment url with
    | nil => rw [h] at hlen; simp at hlen
    | cons c cs => rfl
  have hm := matchesIdPattern_of_all _ hid hlen
  simp [scrapeArtifactAlternative, hapi, harchive, hproxy, trySocialMetadata, hne, hm]

/-- Witness for C3 (amended): `sampleUrl` with every request failing. -/
theorem metadata_fallback_record_witness :
    ∃ r, scrapeArtifactAlternative asciiRuntime webDown.fetch sampleUrl =
        (some r, [Strategy.api, Strategy.archive, Strategy.proxy, Strategy.metadata]) ∧
      r.hasCode = false ∧ r.method = some "social_metadata".toList ∧ r.rawCode = [] :=
  metadata_fallback_record asciiRuntime webDown.fetch sampleUrl (by decide) (by decide)
    (by rfl) (by rfl) (by rfl)

set_option maxRecDepth 100000 in
/-- C4 (as stated, refuted): on `webApiHtml` the direct-endpoint probe returns a record
without code (`hasCode = false`, empty `rawCode`); that record stops the alternative
chain, so the archive probe, which would yield a record with code, is never run, and
`scrapeArtifact` ends with `null` after the browser render. -/
theorem record_without_code_stops_chain :
    (tryApiEndpoints asciiRuntime webApiHtml.fetch sampleUrl).map
        (fun r => (r.hasCode, r.rawCode)) = some (false, []) ∧
    (tryInternetArchiveContent asciiRuntime webApiHtml.fetch sampleUrl).map
        (fun r => (r.hasCode, r.rawCode)) =
      some (true, "<script>var artifact = 1;</script>".toList) ∧
    scrapeArtifact asciiRuntime true webApiHtml sampleUrl =
      (Completion.returns none, [Strategy.api, Strategy.browser]) :=
  ⟨by rfl, by rfl, by rfl⟩

/-- C4 (amended): `scrapeArtifactAlternative` runs the direct-endpoint, archive and
proxy probes and the metadata fallback in this fixed order and stops at the first one
that returns a record at all, with or without code; `scrapeArtifact` returns that
record when its `hasCode` is true and otherwise (record without code, or no record)
runs the browser render next and returns its outcome. -/
theorem chain_stops_at_first_record (rt : Runtime) (screenshots : Bool) (web : Web)
    (url : Str) :
    (∀ r, tryApiEndpoints rt web.fetch url = some r →
      scrapeArtifactAlternative rt web.fetch url = (some r, [Strategy.api])) ∧
    (∀ r, tryApiEndpoints rt web.fetch url = none →
      tryInternetArchiveContent rt web.fetch url = some r →
      scrapeArtifactAlternative rt web.fetch url =
        (some r, [Strategy.api, Strategy.archive])) ∧
    (∀ r, tryApiEndpoints rt web.fetch url = none →
      tryInternetArchiveContent rt web.fetch url = none →
      tryProxyServices rt web.fetch url = some r →
      scrapeArtifactAlternative rt web.fetch url =
        (some r, [Strategy.api, Strategy.archive, Strategy.proxy])) ∧
    (tryApiEndpoints rt web.fetch url = none →
      tryInternetArchiveContent rt web.fetch url = none →
      tryProxyServices rt web.fetch url = none →
      scrapeArtifactAlternative rt web.fetch url =
        (trySocialMetadata rt url,
          [Strategy.api, Strategy.archive, Strategy.proxy, Strategy.metadata])) ∧
    (∀ r, (scrapeArtifactAlternative rt web.fetch url).1 = some r → r.hasCode = true →
      scrapeArtifact rt screenshots web url =
        (Completion.returns (some r), (scrapeArtifactAlternative rt web.fetch url).2)) ∧
    (∀ r, (scrapeArtifactAlternative rt web.fetch url).1 = some r → r.hasCode = false →
      scrapeArtifact rt screenshots web url =
        (scrapeWithBrowser rt screenshots web url,
          (scrapeArtifactAlternative rt web.fetch url).2 ++ [Strategy.browser])) ∧
    ((scrapeArtifactAlternative rt web.fetch url).1 = none →
      scrapeArtifact rt screenshots web url =
        (scrapeWithBrowser rt screenshots web url,
          (scrapeArtifactAlternative rt web.fetch url).2 ++ [Strategy.browser])) := by
  refine ⟨?_, ?_, ?_, ?_, ?_, ?_, ?_⟩
  · intro r h
    simp [scrapeArtifactAlternative, h]
  · intro r h1 h2
    simp [scrapeArtifactAlternative, h1, h2]
  · intro r h1 h2 h3
    simp [scrapeArtifactAlternative, h1, h2, h3]
  · intro h1 h2 h3
    simp [scrapeArtifactAlternative, h1, h2, h3]
  · intro r h hc
    simp [scrapeArtifact, h, hc]
  · intro r h hc
    simp [scrapeArtifact, h, hc]
  · intro h
    simp [scrapeArtifact, h]

set_option maxRecDepth 100000 in
/-- Witness for C4 (amended): on `webApiHtml` the chain stops at the record of the
direct-endpoint probe. -/
theorem chain_stops_at_first_record_witness :
    scrapeArtifactAlternative asciiRuntime webApiHtml.fetch sampleUrl =
      (tryApiEndpoints asciiRuntime webApiHtml.fetch sampleUrl, [Strategy.api]) :=
  (chain_stops_at_first_record asciiRuntime true webApiHtml sampleUrl).1 _ (by rfl)

/-! ## The classifiers -/

/-- C8: `hookSnippet` contains `useState` and `return (`; `detectArtifactType` returns
`react` for it but `detectLanguage` returns `javascript`, not `jsx`, whereas the
classifier of the render path returns `(react, jsx)` for the same text. -/
theorem detectLanguage_misses_useState :
    includes hookSnippet "useState".toList = true ∧
    includes hookSnippet "return (".toList = true ∧
    detectArtifactType asciiRuntime hookSnippet = "react".toList ∧
    detectLanguage hookSnippet = "javascript".toList ∧
    renderClassify asciiRuntime (JsVal.str "html".toList) hookSnippet =
      (JsVal.str "react".toList, "jsx".toList) :=
  ⟨by decide, by decide, by decide, by decide, by rfl⟩

/-- C9 (as stated, refuted): three documents of the shape `<!DOCTYPE html><html>...`
with a document-root marker, none of the four component-framework markers and no
`<svg` are not classified `(html, html)` by the render path: one is classified
`(svg, xml)`, two `(react, jsx)`. -/
theorem renderClassify_html_document_not_html :
    (∀ doc ∈ [htmlAboutSvg, htmlAboutFunctions, htmlWithArrow],
      includes doc "<!DOCTYPE".toList = true ∧
      includes doc "import React".toList = false ∧
      includes doc "export default function".toList = false ∧
      includes doc "useState".toList = false ∧
      includes doc "useEffect".toList = false ∧
      includes doc "<svg".toList = false) ∧
    renderClassify asciiRuntime (JsVal.str "html".toList) htmlAboutSvg =
      (JsVal.str "svg".toList, "xml".toList) ∧
    renderClassify asciiRuntime (JsVal.str "html".toList) htmlAboutFunctions =
      (JsVal.str "react".toList, "jsx".toList) ∧
    renderClassify asciiRuntime (JsVal.str "html".toList) htmlWithArrow =
      (JsVal.str "react".toList, "jsx".toList) :=
  ⟨by decide, by rfl, by rfl, by rfl⟩

/-- C9 (amended): for every raw content with a document-root marker (`<!DOCTYPE`,
`<html`, `<head` or `<body`) for which the React test of the render path fails (none
of `import React`, `export default function`, `useState`, `useEffect`, and neither
`function ` together with `return (` nor `const ` together with `=> {`) and the SVG
test fails (no `<svg`, and no `SVG` in the upper-cased text), the render-path
classifier returns `(html, html)`. -/
theorem renderClassify_html (rt : Runtime) (type0 : JsVal) (rawCode : Str)
    (hroot : renderIsHtml rawCode = true) (hreact : renderIsReact rawCode = false)
    (hsvg : renderIsSvg rt rawCode = false) :
    renderClassify rt type0 rawCode = (JsVal.str "html".toList, "html".toList) := by
  have hne : rawCode.isEmpty = false := by
    cases rawCode with
    | nil => simp [renderIsHtml, includes] at hroot
    | cons c cs => rfl
  simp [renderClassify, hne, hroot, hreact, hsvg]

/-- Witness for C9 (amended): a plain HTML document. -/
theorem renderClassify_html_witness :
    renderClassify asciiRuntime (JsVal.str "html".toList)
        "<!DOCTYPE html><html><body>hi</body></html>".toList =
      (JsVal.str "html".toList, "html".toList) :=
  renderClassify_html asciiRuntime _ _ (by decide) (by decide) (by decide)

/-- C10 (as stated, refuted): the text `hello` matches no rule, yet the render path
classifies it `(html, "")` and `detectArtifactType` / `detectLanguage` return
`html` / `html`, not `unknown` / `""`; `a mermaid chart` and `a jsx file` match none
of the listed rules either and get type `mermaid` and language `jsx`. -/
theorem fall_through_is_not_unknown :
    renderClassify asciiRuntime (JsVal.str "html".toList) "hello".toList =
      (JsVal.str "html".toList, []) ∧
    detectArtifactType asciiRuntime "hello".toList = "html".toList ∧
    detectLanguage "hello".toList = "html".toList ∧
    detectArtifactType asciiRuntime "a mermaid chart".toList = "mermaid".toList ∧
    detectLanguage "a jsx file".toList = "jsx".toList :=
  ⟨by rfl, by decide, by decide, by decide, by decide⟩

/-- C10 (amended): for every non-empty raw content that matches none of the ordered
rules of the render path (React, SVG, document root, declaration, brace-and-colon,
angle brackets), the render-path classifier leaves the content type at the value it
had before (`html` unless the page supplied one) and returns language `""`; if the
content has no `jsx` either and its upper-cased text no `MERMAID`,
`detectArtifactType` returns `html` and `detectLanguage` returns `html`. -/
theorem classifiers_fall_through (rt : Runtime) (type0 : JsVal) (code : Str)
    (hne : code ≠ []) (hreact : renderIsReact code = false)
    (hsvg : renderIsSvg rt code = false) (hhtml : renderIsHtml code = false)
    (hjs : renderIsJavascript code = false) (hcss : renderIsCss code = false)
    (htag : renderIsTagged code = false) :
    renderClassify rt type0 code = (type0, []) ∧
    (includes code "jsx".toList = false →
      includes (rt.toUpperCase code) "MERMAID".toList = false →
      detectArtifactType rt code = "html".toList ∧ detectLanguage code = "html".toList) := by
  have hemp : code.isEmpty = false := by
    cases code with
    | nil => exact absurd rfl hne
    | cons c cs => rfl
  refine ⟨by simp [renderClassify, hemp, hreact, hsvg, hhtml, hjs, hcss, htag], ?_⟩
  intro hjsx hmermaid
  simp only [renderIsReact, renderIsSvg, renderIsHtml, renderIsJavascript, Bool.or_eq_false_iff]
    at hreact hsvg hhtml hjs
  obtain ⟨⟨⟨⟨⟨hr1, -⟩, -⟩, -⟩, hr5⟩, -⟩ := hreact
  obtain ⟨hs1, -⟩ := hsvg
  obtain ⟨⟨⟨hh1, hh2⟩, -⟩, -⟩ := hhtml
  obtain ⟨⟨⟨hj1, hj2⟩, -⟩, -⟩ := hjs
  have hcss2 : (includes code "\x7b".toList && includes code "\x7d".toList &&
      includes code ":".toList) = false := hcss
  constructor
  · unfold detectArtifactType
    rw [hemp]
    simp only [hr1, hr5, hs1, hh1, hh2, hj1, hj2, hmermaid]
    simp
  · unfold detectLanguage
    rw [hemp]
    simp only [hr1, hjsx, hs1, hh1, hh2, hj1, hj2, hcss2]
    simp

/-- Witness for C10 (amended): the text `hello`. -/
theorem classifiers_fall_through_witness :
    renderClassify asciiRuntime (JsVal.str "css".toList) "hello".toList =
      (JsVal.str "css".toList, []) ∧
    (includes "hello".toList "jsx".toList = false →
      includes (asciiRuntime.toUpperCase "hello".toList) "MERMAID".toList = false →
      detectArtifactType asciiRuntime "hello".toList = "html".toList ∧
        detectLanguage "hello".toList = "html".toList) :=
  classifiers_fall_through asciiRuntime _ _ (by decide) (by decide) (by decide) (by decide)
    (by decide) (by decide) (by decide)

/-! ## Discovery -/

/-- C5: on `sourcesDuplicate` two adapters of the secondary tier report `sampleUrl`,
one of them with a query string; `getArtifactUrls` returns both as separate
candidates, whereas the page function of the Google phase cleans the same two links
to a single candidate. -/
theorem secondary_tier_keeps_query_duplicates :
    getArtifactUrls asciiRuntime 3 sourcesDuplicate =
      Completion.returns ([sampleUrl, sampleUrl ++ "?ref=x".toList], 0) ∧
    getArtifactUrlsAlternative sourcesDuplicate = [sampleUrl, sampleUrl ++ "?ref=x".toList] ∧
    cleanUrl asciiRuntime (sampleUrl ++ "?ref=x".toList) = sampleUrl ∧
    extractUrls asciiRuntime
        [sampleUrl, sampleUrl ++ "?ref=x".toList, sampleUrl ++ "#top".toList] [] =
      [sampleUrl] :=
  ⟨by rfl, by decide, by decide, by decide⟩

/-- C6 (as stated, refuted): `looseUrl` passes the Google, DuckDuckGo and Internet
Archive filters, but its id, the path segment after `claude.ai/public/artifacts/`,
is `abcdef12-not-an-id`, which does not consist of characters `a-f`, `0-9`, `-`
only. -/
theorem filters_accept_loose_id :
    googleFilter looseUrl = true ∧ duckFilter looseUrl = true ∧
    archiveFilter looseUrl = true ∧
    lastSegment looseUrl = "abcdef12-not-an-id".toList ∧
    (lastSegment looseUrl).all isIdChar = false :=
  ⟨by decide, by decide, by decide, by decide, by decide⟩

/-- C6 (amended): every URL that passes a discovery filter (Google round, DuckDuckGo,
Internet Archive) contains `claude.ai/public/artifacts/` directly followed by at
least 8 characters of `a-f`, `0-9`, `-`; what follows these characters is not
constrained. -/
theorem filters_require_id_prefix (href : Str)
    (h : googleFilter href = true ∨ duckFilter href = true ∨ archiveFilter href = true) :
    ∃ before id rest, href = before ++ (artifactsPath ++ (id ++ rest)) ∧
      id.all isIdChar = true ∧ 8 ≤ id.length := by
  have hm : matchesArtifactUrl href = true := by
    rcases h with h | h | h
    · simp only [googleFilter, Bool.and_eq_true] at h
      exact h.2.2
    · simp only [duckFilter, Bool.and_eq_true] at h
      exact h.2
    · simp only [archiveFilter, Bool.and_eq_true] at h
      exact h.2
  obtain ⟨b, r, rfl, h8⟩ := (matchesArtifactUrl_iff href).mp hm
  refine ⟨b, r.takeWhile isIdChar, r.dropWhile isIdChar, ?_, ?_, h8⟩
  · rw [List.takeWhile_append_dropWhile]
  · rw [List.all_eq_true]
    intro c hc
    exact List.mem_takeWhile_imp hc

/-- Witness for C6 (amended): `sampleUrl` passes the Google filter. -/
theorem filters_require_id_prefix_witness :
    ∃ before id rest, sampleUrl = before ++ (artifactsPath ++ (id ++ rest)) ∧
      id.all isIdChar = true ∧ 8 ≤ id.length :=
  filters_require_id_prefix sampleUrl (Or.inl (by decide))

/-- C7: the Google-round filter accepts `https://claude.ai/public/artifacts/<id>` for
every id of at least 8 hex/hyphen characters, rejects it for every id of fewer than 8
characters, and rejects every string without `claude.ai/public/artifacts/`, such as
`https://google.com`, `https://claude.ai/chat` and `invalid-url`. -/
theorem googleFilter_accepts_and_rejects :
    (∀ id : Str, id.all isIdChar = true → 8 ≤ id.length →
      googleFilter ("https://claude.ai/public/artifacts/".toList ++ id) = true) ∧
    (∀ id : Str, id.length < 8 →
      googleFilter ("https://claude.ai/public/artifacts/".toList ++ id) = false) ∧
    (∀ s : Str, includes s "claude.ai/public/artifacts/".toList = false →
      googleFilter s = false) ∧
    googleFilter "https://google.com".toList = false ∧
    googleFilter "https://claude.ai/chat".toList = false ∧
    googleFilter "invalid-url".toList = false := by
  have hsplit : ∀ id : Str, "https://claude.ai/public/artifacts/".toList ++ id =
      "https://".toList ++ (artifactsPath ++ id) := by
    intro id
    simp [artifactsPath]
  refine ⟨?_, ?_, ?_, by decide, by decide, by decide⟩
  · intro id hid hlen
    have h1 : includes ("https://claude.ai/public/artifacts/".toList ++ id) artifactsPath
        = true := by
      rw [includes_iff_occurs, hsplit]
      exact ⟨"https://".toList, id, by simp⟩
    have h2 : includes ("https://claude.ai/public/artifacts/".toList ++ id)
        "google.com".toList = false := by
      rw [Bool.eq_false_iff]
      intro hc
      rw [includes_iff_occurs] at hc
      have hg : 'g' ∈ "https://claude.ai/public/artifacts/".toList ++ id :=
        hc.subset (by decide)
      rw [List.mem_append] at hg
      rcases hg with hg | hg
      · exact absurd hg (by decide)
      · exact absurd ((List.all_eq_true.mp hid) _ hg) (by decide)
    have h3 : matchesArtifactUrl ("https://claude.ai/public/artifacts/".toList ++ id)
        = true := by
      rw [matchesArtifactUrl_iff]
      exact ⟨"https://".toList, id, hsplit id, by rw [idRun_eq_length id hid]; exact hlen⟩
    have h0 : ("https://claude.ai/public/artifacts/".toList ++ id).isEmpty = false := by
      simp
    simp only [googleFilter, h0, h1, h2, h3]
    rfl
  · intro id hlen
    have h3 : matchesArtifactUrl ("https://claude.ai/public/artifacts/".toList ++ id)
        = false := by
      rw [Bool.eq_false_iff]
      intro hc
      obtain ⟨b, r, h, h8⟩ := (matchesArtifactUrl_iff _).mp hc
      have hr := idRun_le_length r
      have hl := congrArg List.length h
      simp [artifactsPath] at hl
      have hb : b.length < 8 := by omega
      have hc1 : (b ++ (artifactsPath ++ r))[b.length]? = some 'c' := by
        rw [List.getElem?_append_right (le_refl _), Nat.sub_self]
        rfl
      have hc2 : ("https://claude.ai/public/artifacts/".toList ++ id)[b.length]? =
          ("https://claude.ai/public/artifacts/".toList)[b.length]? :=
        List.getElem?_append_left (by simp; omega)
      rw [h, hc1] at hc2
      generalize b.length = k at hb hc2
      interval_cases k <;> simp at hc2
    unfold googleFilter
    rw [h3]
    simp
  · intro s hs
    have hs2 : includes s artifactsPath = false := hs
    unfold googleFilter
    rw [hs2]
    simp

/-- Witness for C7: the id of `sampleUrl` has 13 hex/hyphen characters. -/
theorem googleFilter_accepts_and_rejects_witness :
    googleFilter ("https://claude.ai/public/artifacts/".toList ++ "abcdef12-3456".toList) =
      true :=
  googleFilter_accepts_and_rejects.1 _ (by decide) (by decide)

/-! ## Lemmas on records -/

theorem parseArtifactData_eq_some (rt : Runtime) (url : Str) (data : JsVal) (method : Str)
    (r : Artifact) (h : parseArtifactData rt url data method = some r) :
    ∃ content rawCode title hasCode,
      parseLocals data method = some (JsVal.str content, JsVal.str rawCode, title, hasCode) ∧
      r = {
        id := some (lastSegment url)
        url := url
        title := title.or (JsVal.str ("Artifact ".toList ++ substring0 (lastSegment url) 8))
        description := "Extracted via ".toList ++ method
        content := substring0 content 10000
        rawCode := substring0 rawCode 10000
        type := JsVal.str (detectArtifactType rt rawCode)
        language := detectLanguage rawCode
        codeLength := rawCode.length
        hasCode := hasCode
        scrapedAt := rt.now
        author := "Unknown".toList
        method := some method
        screenshot := none } := by
  unfold parseArtifactData at h
  cases hl : parseLocals data method with
  | none => simp [hl] at h
  | some t =>
    obtain ⟨c, rc, title, hasCode⟩ := t
    cases c <;> cases rc <;> simp [hl, JsVal.asStr?] at h
    exact ⟨_, _, _, _, rfl, h.symm⟩

theorem scriptMatchLen_pos (t : Str) (n : Nat) (h : scriptMatchLen t = some n) : 0 < n := by
  unfold scriptMatchLen at h
  split at h
  · simp only at h
    split at h
    · split at h
      · exact absurd h (by simp)
      · split at h
        · exact absurd h (by simp)
        · simp only [Option.some.injEq] at h
          omega
    · exact absurd h (by simp)
  · exact absurd h (by simp)

theorem scriptMatch_ne_nil (s m : Str) (h : scriptMatch s = some m) : m ≠ [] := by
  induction s with
  | nil => simp [scriptMatch] at h
  | cons c cs ih =>
    unfold scriptMatch at h
    cases hl : scriptMatchLen (c :: cs) with
    | none =>
      rw [hl] at h
      exact ih h
    | some n =>
      rw [hl] at h
      have hpos := scriptMatchLen_pos _ _ hl
      obtain ⟨k, rfl⟩ : ∃ k, n = k + 1 := ⟨n - 1, by omega⟩
      simp only [Option.some.injEq, List.take_succ_cons] at h
      rw [← h]
      exact List.cons_ne_nil _ _

theorem parseLocals_hasCode (data : JsVal) (method content rawCode : Str) (title : JsVal)
    (hasCode : Bool)
    (h : parseLocals data method = some (JsVal.str content, JsVal.str rawCode, title, hasCode)) :
    hasCode = true ↔ rawCode ≠ [] := by
  unfold parseLocals at h
  split at h
  · split at h
    · exact absurd h (by simp)
    · rename_i c hc
      split at h
      · rename_i htruthy
        simp only [Option.some.injEq, Prod.mk.injEq] at h
        obtain ⟨-, h2, -, h4⟩ := h
        subst h2 h4
        simp [JsVal.truthy] at htruthy
        simp [htruthy]
      · simp only [Option.some.injEq, Prod.mk.injEq, JsVal.str.injEq] at h
        obtain ⟨-, h2, -, h4⟩ := h
        subst h2 h4
        simp
  · split at h
    · split at h
      · simp only [Option.some.injEq, Prod.mk.injEq, JsVal.str.injEq] at h
        obtain ⟨-, h2, -, h4⟩ := h
        subst h2 h4
        rename_i s _ _
        cases hm : scriptMatch s with
        | none => simp
        | some m => simpa using scriptMatch_ne_nil s m hm
      · simp only [Option.some.injEq, Prod.mk.injEq, JsVal.str.injEq] at h
        obtain ⟨-, h2, -, h4⟩ := h
        subst h2 h4
        simp
    · simp only [Option.some.injEq, Prod.mk.injEq, JsVal.str.injEq] at h
      obtain ⟨-, h2, -, h4⟩ := h
      subst h2 h4
      simp

theorem parseArtifactData_hasCode_iff (rt : Runtime) (url : Str) (data : JsVal) (method : Str)
    (r : Artifact) (h : parseArtifactData rt url data method = some r) :
    r.hasCode = true ↔ r.rawCode ≠ [] := by
  obtain ⟨content, rawCode, title, hasCode, hl, rfl⟩ := parseArtifactData_eq_some _ _ _ _ _ h
  rw [parseLocals_hasCode _ _ _ _ _ _ hl]
  cases rawCode <;> simp [substring0]

theorem parseArtifactData_url (rt : Runtime) (url : Str) (data : JsVal) (method : Str)
    (r : Artifact) (h : parseArtifactData rt url data method = some r) : r.url = url := by
  obtain ⟨content, rawCode, title, hasCode, -, rfl⟩ := parseArtifactData_eq_some _ _ _ _ _ h
  rfl

theorem evaluatePage_eq_some (rt : Runtime) (dom : Dom) (url : Str) (r : Artifact)
    (h : evaluatePage rt dom url = some r) :
    ∃ rawCode, (locateCode dom).rawCode = JsVal.str rawCode ∧
      r = {
        id := pageId url
        url := url
        title := JsVal.str (substring0 (pageTitle dom) 200)
        description := substring0 (pageDescription dom) 500
        content := rawCode
        rawCode := rawCode
        type := (renderClassify rt (locateCode dom).type rawCode).1
        language := (renderClassify rt (locateCode dom).type rawCode).2
        codeLength := rawCode.length
        hasCode := (locateCode dom).artifactFound
        scrapedAt := rt.now
        author := "Unknown".toList
        method := none
        screenshot := none } := by
  unfold evaluatePage at h
  dsimp only at h
  split at h
  · rename_i rawCode hr
    simp only [Option.some.injEq] at h
    exact ⟨rawCode, hr, h.symm⟩
  · exact absurd h (by simp)

theorem split_decomp (s : Str) :
    ∃ segs last, split '/' s = segs ++ [last] ∧ '/' ∉ last ∧
      ((segs = [] ∧ s = last) ∨ (segs ≠ [] ∧ ∃ a, s = a ++ '/' :: last)) := by
  induction s with
  | nil => exact ⟨[], [], rfl, by simp, Or.inl ⟨rfl, rfl⟩⟩
  | cons c cs ih =>
    obtain ⟨segs, last, hs, hlast, hcase⟩ := ih
    by_cases hc : c = '/'
    · refine ⟨[] :: segs, last, ?_, hlast, Or.inr ⟨by simp, ?_⟩⟩
      · rw [split, if_pos hc, hs]
        rfl
      · subst hc
        rcases hcase with ⟨-, h⟩ | ⟨-, a, h⟩
        · exact ⟨[], by rw [h]; rfl⟩
        · exact ⟨'/' :: a, by rw [h]; rfl⟩
    · cases segs with
      | nil =>
        refine ⟨[], c :: last, ?_, ?_, Or.inl ⟨rfl, ?_⟩⟩
        · rw [split, if_neg hc, hs]
          rfl
        · intro hmem
          rcases List.mem_cons.mp hmem with h | h
          · exact hc h.symm
          · exact hlast h
        · rcases hcase with ⟨-, h⟩ | ⟨h, -⟩
          · rw [h]
          · exact absurd rfl h
      | cons seg rest =>
        refine ⟨(c :: seg) :: rest, last, ?_, hlast, Or.inr ⟨by simp, ?_⟩⟩
        · rw [split, if_neg hc, hs]
          rfl
        · rcases hcase with ⟨h, -⟩ | ⟨-, a, h⟩
          · exact absurd h (by simp)
          · exact ⟨c :: a, by rw [h]; rfl⟩

theorem lastSegment_decomp (s : Str) :
    '/' ∉ lastSegment s ∧ (s = lastSegment s ∨ ∃ a, s = a ++ '/' :: lastSegment s) := by
  obtain ⟨segs, last, hs, hlast, hcase⟩ := split_decomp s
  have hl : lastSegment s = last := by
    unfold lastSegment
    rw [hs]
    simp
  rw [hl]
  refine ⟨hlast, ?_⟩
  rcases hcase with ⟨-, h⟩ | ⟨-, a, h⟩
  · exact Or.inl h
  · exact Or.inr ⟨a, h⟩

theorem lastSegment_append (a b : Str) (h : '/' ∉ b) : lastSegment (a ++ '/' :: b) = b := by
  obtain ⟨hlast, hcase⟩ := lastSegment_decomp (a ++ '/' :: b)
  generalize lastSegment (a ++ '/' :: b) = last at hlast hcase
  rcases hcase with hcase | ⟨a2, hcase⟩
  · exact absurd (by rw [← hcase]; simp) hlast
  · rcases List.append_eq_append_iff.mp hcase with ⟨m, h1, h2⟩ | ⟨m, h1, h2⟩
    · cases m with
      | nil =>
        simp only [List.nil_append, List.cons.injEq, true_and] at h2
        exact h2.symm
      | cons x m =>
        simp only [List.cons_append, List.cons.injEq] at h2
        exact absurd (by rw [h2.2]; simp) h
    · cases m with
      | nil =>
        simp only [List.nil_append, List.cons.injEq, true_and] at h2
        exact h2
      | cons x m =>
        simp only [List.cons_append, List.cons.injEq] at h2
        exact absurd (by rw [h2.2]; simp) hlast

theorem lastSegment_ne_nil (s : Str) (hne : s ≠ []) (hslash : s.getLast? ≠ some '/') :
    lastSegment s ≠ [] := by
  obtain ⟨-, hcase⟩ := lastSegment_decomp s
  intro hnil
  rw [hnil] at hcase
  rcases hcase with h | ⟨a, h⟩
  · exact hne h
  · apply hslash
    rw [h]
    simp

theorem apiAttempt_eq_some (rt : Runtime) (fetch : Fetch) (url endpoint : Str)
    (res : Option Artifact) (h : apiAttempt rt fetch url endpoint = some res) :
    ∃ data, res = parseArtifactData rt url data "api".toList := by
  unfold apiAttempt at h
  split at h
  · exact absurd h (by simp)
  · split at h
    · dsimp only at h
      split at h
      · exact absurd h (by simp)
      · rename_i data _
        split at h
        · simp only [Option.some.injEq] at h
          exact ⟨data, h.symm⟩
        · exact absurd h (by simp)
    · exact absurd h (by simp)

theorem apiLoop_eq_some (rt : Runtime) (fetch : Fetch) (url : Str) (endpoints : List Str)
    (r : Artifact) (h : apiLoop rt fetch url endpoints = some r) :
    ∃ data, parseArtifactData rt url data "api".toList = some r := by
  induction endpoints with
  | nil => simp [apiLoop] at h
  | cons endpoint rest ih =>
    unfold apiLoop at h
    cases ha : apiAttempt rt fetch url endpoint with
    | none =>
      rw [ha] at h
      exact ih h
    | some res =>
      rw [ha] at h
      obtain ⟨data, hd⟩ := apiAttempt_eq_some _ _ _ _ _ ha
      exact ⟨data, by rw [← hd]; exact h⟩

theorem proxyAttempt_eq_some (rt : Runtime) (fetch : Fetch) (url proxyUrl : Str)
    (res : Option Artifact) (h : proxyAttempt rt fetch url proxyUrl = some res) :
    ∃ data, res = parseArtifactData rt url data "proxy".toList := by
  unfold proxyAttempt at h
  split at h
  · exact absurd h (by simp)
  · split at h
    · split at h
      · exact absurd h (by simp)
      · dsimp only at h
        split at h
        · exact absurd h (by simp)
        · rename_i data _
          split at h
          · simp only [Option.some.injEq] at h
            exact ⟨data, h.symm⟩
          · exact absurd h (by simp)
    · exact absurd h (by simp)

theorem proxyLoop_eq_some (rt : Runtime) (fetch : Fetch) (url : Str) (proxies : List Str)
    (r : Artifact) (h : proxyLoop rt fetch url proxies = some r) :
    ∃ data, parseArtifactData rt url data "proxy".toList = some r := by
  induction proxies with
  | nil => simp [proxyLoop] at h
  | cons proxyUrl rest ih =>
    unfold proxyLoop at h
    cases ha : proxyAttempt rt fetch url proxyUrl with
    | none =>
      rw [ha] at h
      exact ih h
    | some res =>
      rw [ha] at h
      obtain ⟨data, hd⟩ := proxyAttempt_eq_some _ _ _ _ _ ha
      exact ⟨data, by rw [← hd]; exact h⟩

theorem tryInternetArchiveContent_eq_some (rt : Runtime) (fetch : Fetch) (url : Str)
    (r : Artifact) (h : tryInternetArchiveContent rt fetch url = some r) :
    ∃ data, parseArtifactData rt url data "archive".toList = some r := by
  unfold tryInternetArchiveContent at h
  split at h
  · exact absurd h (by simp)
  · split at h
    · split at h
      · exact absurd h (by simp)
      · rename_i html _
        split at h
        · exact ⟨JsVal.str html, h⟩
        · exact absurd h (by simp)
    · exact absurd h (by simp)

theorem trySocialMetadata_eq_some (rt : Runtime) (url : Str) (r : Artifact)
    (h : trySocialMetadata rt url = some r) :
    r.url = url ∧ r.hasCode = false ∧ r.rawCode = [] ∧ r.codeLength = 0 := by
  unfold trySocialMetadata at h
  dsimp only at h
  split at h
  · simp only [Option.some.injEq] at h
    rw [← h]
    exact ⟨rfl, rfl, rfl, rfl⟩
  · exact absurd h (by simp)

theorem scrapeArtifactAlternative_cases (rt : Runtime) (fetch : Fetch) (url : Str)
    (r : Artifact) (h : (scrapeArtifactAlternative rt fetch url).1 = some r) :
    (∃ data method, parseArtifactData rt url data method = some r) ∨
      trySocialMetadata rt url = some r := by
  unfold scrapeArtifactAlternative at h
  cases h1 : tryApiEndpoints rt fetch url with
  | some a =>
    rw [h1] at h
    simp only [Option.some.injEq] at h
    subst h
    obtain ⟨data, hd⟩ := apiLoop_eq_some _ _ _ _ _ h1
    exact Or.inl ⟨data, _, hd⟩
  | none =>
    rw [h1] at h
    cases h2 : tryInternetArchiveContent rt fetch url with
    | some a =>
      rw [h2] at h
      simp only [Option.some.injEq] at h
      subst h
      obtain ⟨data, hd⟩ := tryInternetArchiveContent_eq_some _ _ _ _ h2
      exact Or.inl ⟨data, _, hd⟩
    | none =>
      rw [h2] at h
      cases h3 : tryProxyServices rt fetch url with
      | some a =>
        rw [h3] at h
        simp only [Option.some.injEq] at h
        subst h
        obtain ⟨data, hd⟩ := proxyLoop_eq_some _ _ _ _ _ h3
        exact Or.inl ⟨data, _, hd⟩
      | none =>
        rw [h3] at h
        exact Or.inr h

theorem includes_nil_left (p : Str) (h : includes [] p = true) : p = [] := by
  simpa [includes, List.isEmpty_iff] using h

theorem orStr_none_eq_some (a : Option Str) (v : Str) (h : orStr a none = some v) : v ≠ [] := by
  unfold orStr at h
  split at h
  · simp only [Option.some.injEq] at h
    rw [← h]
    exact List.cons_ne_nil _ _
  · exact absurd h (by simp)

theorem scriptStep_found (type0 : JsVal) (tag : ScriptTag) (found : Found)
    (h : scriptStep type0 tag = some found) :
    found.artifactFound = true ∧ found.rawCode.truthy = true := by
  have hdirect : ∀ f : Found,
      (if includes tag.text "<".toList && includes tag.text ">".toList then
        some (⟨JsVal.str tag.text, type0, true⟩ : Found) else none) = some f →
      f.artifactFound = true ∧ f.rawCode.truthy = true := by
    intro f hf
    split at hf
    · rename_i hc
      simp only [Option.some.injEq] at hf
      rw [← hf]
      refine ⟨rfl, ?_⟩
      simp only [Bool.and_eq_true] at hc
      cases ht : tag.text with
      | nil =>
        rw [ht] at hc
        exact absurd (includes_nil_left _ hc.1) (by decide)
      | cons c cs => rfl
    · exact absurd hf (by simp)
  unfold scriptStep at h
  dsimp only at h
  split at h
  · exact hdirect found h
  · split at h
    · exact hdirect found h
    · split at h
      · rename_i ht
        simp only [Option.some.injEq] at h
        rw [← h]
        exact ⟨rfl, ht⟩
      · split at h
        · rename_i ht
          simp only [Option.some.injEq] at h
          rw [← h]
          exact ⟨rfl, ht⟩
        · split at h
          · rename_i ht
            simp only [Option.some.injEq] at h
            rw [← h]
            exact ⟨rfl, ht⟩
          · exact absurd h (by simp)

theorem findInScripts_found (type0 : JsVal) (tags : List ScriptTag) (found : Found)
    (h : findInScripts type0 tags = some found) :
    found.artifactFound = true ∧ found.rawCode.truthy = true := by
  induction tags with
  | nil => simp [findInScripts] at h
  | cons tag rest ih =>
    unfold findInScripts at h
    split at h
    · cases hs : scriptStep type0 tag with
      | none =>
        rw [hs] at h
        exact ih h
      | some f =>
        rw [hs] at h
        simp only [Option.some.injEq] at h
        rw [← h]
        exact scriptStep_found _ _ _ hs
    · exact ih h

theorem locateCode_found (dom : Dom) (h : (locateCode dom).artifactFound = true) :
    (locateCode dom).rawCode.truthy = true := by
  unfold locateCode at h ⊢
  dsimp only at h ⊢
  split
  · rename_i found hf
    exact (findInScripts_found _ _ _ hf).2
  · rename_i hf
    rw [hf] at h
    dsimp only at h
    split
    · rename_i text ht
      have := List.find?_some ht
      simp only [codeBlockUsable, Bool.and_eq_true, Bool.not_eq_true'] at this
      simp [JsVal.truthy, this.1.1]
    · rename_i hcb
      rw [hcb] at h
      dsimp only at h
      split
      · rename_i value hv
        obtain ⟨d, -, hd⟩ := List.exists_of_findSome?_eq_some hv
        have hne := orStr_none_eq_some _ _ hd
        cases value with
        | nil => exact absurd rfl hne
        | cons c cs => rfl
      · rename_i hds
        rw [hds] at h
        dsimp only at h
        split
        · rename_i srcdoc hsd
          have hne := orStr_none_eq_some _ _ hsd
          cases srcdoc with
          | nil => exact absurd rfl hne
          | cons c cs => rfl
        · rename_i hsd
          rw [hsd] at h
          dsimp only at h
          split
          · rename_i text ht
            have := List.find?_some ht
            simp only [textAreaUsable, Bool.and_eq_true, Bool.not_eq_true'] at this
            simp [JsVal.truthy, this.1.1]
          · rename_i hta
            rw [hta] at h
            dsimp only at h
            split at h <;> [skip; split at h] <;> exact absurd h (by simp)

theorem scrapeRendered_eq_some (rt : Runtime) (screenshots : Bool) (page : RenderedPage)
    (url : Str) (r : Artifact) (h : scrapeRendered rt screenshots page url = some r) :
    ∃ r0, evaluatePage rt page.dom url = some r0 ∧
      (r = r0 ∨ ∃ path, r = { r0 with screenshot := some path }) := by
  unfold scrapeRendered at h
  cases he : evaluatePage rt page.dom url with
  | none =>
    exfalso
    cases hc : page.cloudflareChallenge <;> cases ht : page.challengeText <;>
      simp [he, hc, ht] at h
  | some r0 =>
    refine ⟨r0, rfl, ?_⟩
    cases screenshots <;> cases hp : page.screenshotPath <;>
      cases hc : page.cloudflareChallenge <;> cases ht : page.challengeText <;>
      simp [he, hp, hc, ht] at h <;>
      first
        | exact Or.inl h.symm
        | exact Or.inl h.2.symm
        | exact Or.inr ⟨_, h.symm⟩
        | exact Or.inr ⟨_, h.2.symm⟩

theorem scrapeWithBrowser_eq_some (rt : Runtime) (screenshots : Bool) (web : Web) (url : Str)
    (r : Artifact)
    (h : scrapeWithBrowser rt screenshots web url = Completion.returns (some r)) :
    ∃ page r0, web.render url = some page ∧ evaluatePage rt page.dom url = some r0 ∧
      (r = r0 ∨ ∃ path, r = { r0 with screenshot := some path }) := by
  unfold scrapeWithBrowser at h
  split at h
  · cases hp : web.render url with
    | none =>
      rw [hp] at h
      simp at h
    | some page =>
      rw [hp] at h
      simp only [Completion.returns.injEq] at h
      obtain ⟨r0, h0, hr⟩ := scrapeRendered_eq_some _ _ _ _ _ h
      exact ⟨page, r0, rfl, h0, hr⟩
  · exact absurd h (by simp)

theorem scrapeArtifact_cases (rt : Runtime) (screenshots : Bool) (web : Web) (url : Str)
    (r : Artifact)
    (h : (scrapeArtifact rt screenshots web url).1 = Completion.returns (some r)) :
    (r.hasCode = true ∧ ∃ data method, parseArtifactData rt url data method = some r) ∨
    (∃ page r0, web.render url = some page ∧ evaluatePage rt page.dom url = some r0 ∧
      (r = r0 ∨ ∃ path, r = { r0 with screenshot := some path })) := by
  unfold scrapeArtifact at h
  dsimp only at h
  cases halt : (scrapeArtifactAlternative rt web.fetch url).1 with
  | none =>
    rw [halt] at h
    exact Or.inr (scrapeWithBrowser_eq_some _ _ _ _ _ h)
  | some a =>
    rw [halt] at h
    by_cases hc : a.hasCode = true
    · simp only [hc, if_true, Completion.returns.injEq, Option.some.injEq] at h
      subst h
      rcases scrapeArtifactAlternative_cases _ _ _ _ halt with hp | hm
      · exact Or.inl ⟨hc, hp⟩
      · have := (trySocialMetadata_eq_some _ _ _ hm).2.1
        rw [hc] at this
        exact absurd this (by simp)
    · simp only [hc, if_false] at h
      exact Or.inr (scrapeWithBrowser_eq_some _ _ _ _ _ h)

theorem scrapeArtifact_url (rt : Runtime) (screenshots : Bool) (web : Web) (url : Str)
    (r : Artifact)
    (h : (scrapeArtifact rt screenshots web url).1 = Completion.returns (some r)) :
    r.url = url := by
  rcases scrapeArtifact_cases _ _ _ _ _ h with ⟨-, data, method, hp⟩ | ⟨page, r0, -, h0, hr⟩
  · exact parseArtifactData_url _ _ _ _ _ hp
  · obtain ⟨rawCode, -, rfl⟩ := evaluatePage_eq_some _ _ _ _ h0
    rcases hr with rfl | ⟨path, rfl⟩ <;> rfl

/-! ## Record invariants -/

/-- C11 (as stated, refuted): `detectArtifactType` returns `mermaid` for `mermaidChart`,
which is not a member of the enum `html, react, svg, javascript, css, unknown`, and
`parseArtifactData` stores it as the type of the record built from that content. -/
theorem detectArtifactType_returns_mermaid :
    detectArtifactType asciiRuntime mermaidChart = "mermaid".toList ∧
    "mermaid".toList ∉ ["html".toList, "react".toList, "svg".toList, "javascript".toList,
      "css".toList, "unknown".toList] ∧
    (parseArtifactData asciiRuntime sampleUrl (jsonWithContent (JsVal.str mermaidChart))
        "api".toList).map (fun r => r.type.asStr?) = some (some "mermaid".toList) :=
  ⟨by decide, by decide, by rfl⟩

/-- C11 (amended): for every input string `detectArtifactType` returns one of
`unknown`, `react`, `svg`, `html`, `javascript`, `mermaid` (never `css`), and the type
of every record built by `parseArtifactData` is one of these six strings. -/
theorem detectArtifactType_range (rt : Runtime) :
    (∀ code : Str, detectArtifactType rt code ∈
      ["unknown".toList, "react".toList, "svg".toList, "html".toList, "javascript".toList,
        "mermaid".toList]) ∧
    (∀ url data method r, parseArtifactData rt url data method = some r →
      ∃ t ∈ ["unknown".toList, "react".toList, "svg".toList, "html".toList,
        "javascript".toList, "mermaid".toList], r.type = JsVal.str t) := by
  have hrange : ∀ code : Str, detectArtifactType rt code ∈
      ["unknown".toList, "react".toList, "svg".toList, "html".toList, "javascript".toList,
        "mermaid".toList] := by
    intro code
    unfold detectArtifactType
    dsimp only
    split_ifs <;> simp
  refine ⟨hrange, ?_⟩
  intro url data method r h
  obtain ⟨content, rawCode, title, hasCode, -, rfl⟩ := parseArtifactData_eq_some _ _ _ _ _ h
  exact ⟨_, hrange rawCode, rfl⟩

/-- Witness for C11 (amended): the record built from the JSON answer of `webApiJson`. -/
theorem detectArtifactType_range_witness :
    ∃ t ∈ ["unknown".toList, "react".toList, "svg".toList, "html".toList,
      "javascript".toList, "mermaid".toList], apiJsonRecord.type = JsVal.str t :=
  (detectArtifactType_range asciiRuntime).2 sampleUrl
    (jsonWithContent (JsVal.str "<div>hi</div>".toList)) "api".toList apiJsonRecord (by rfl)

/-- C12: for a JSON answer whose `content` has 10001 characters `parseArtifactData`
stores the first 10000 characters in `rawCode` but 10001 in `codeLength`; every record
built by the page function of the render path has `codeLength` equal to the length of
its `rawCode`. -/
theorem parseArtifactData_codeLength_exceeds_rawCode :
    (parseArtifactData asciiRuntime sampleUrl (jsonWithContent (JsVal.str longCode))
        "api".toList).map (fun r => (r.codeLength, r.rawCode.length)) =
      some (10001, 10000) ∧
    (∀ rt dom url r, evaluatePage rt dom url = some r → r.codeLength = r.rawCode.length) := by
  have hlen : longCode.length = 10001 := List.length_replicate _ _
  have hne : longCode.isEmpty = false := by
    rw [List.isEmpty_eq_false]
    intro h0
    rw [h0] at hlen
    exact absurd hlen (by decide)
  constructor
  · simp [parseArtifactData, parseLocals, jsonWithContent, JsVal.isObject, JsVal.get,
      JsVal.lookup, JsVal.truthy, JsVal.asStr?, substring0, hlen, hne]
  · intro rt dom url r h
    obtain ⟨rawCode, -, rfl⟩ := evaluatePage_eq_some _ _ _ _ h
    rfl

/-- C16 (as stated, refuted): the JSON object `{"content": 5}` is accepted by the test
of `tryApiEndpoints`, and `parseArtifactData` returns `null` for it; the same happens
for a `content` that is an array. -/
theorem parseArtifactData_null_on_numeric_content :
    apiDataUsable (jsonWithContent (JsVal.num 5)) = true ∧
    (parseArtifactData asciiRuntime sampleUrl (jsonWithContent (JsVal.num 5))
      "api".toList).isNone = true ∧
    (parseArtifactData asciiRuntime sampleUrl
      (jsonWithContent (JsVal.arr [JsVal.str "<p>x</p>".toList])) "api".toList).isNone = true :=
  ⟨by rfl, by rfl, by rfl⟩

/-- C16 (amended): for every URL and method, `parseArtifactData` returns a record for
every string and every JSON array, and for a JSON object exactly when its `content`
field is absent or falsy or a string; for an object whose `content` is a truthy value
that is not a string it returns `null`. -/
theorem parseArtifactData_isSome (rt : Runtime) (url method : Str) :
    (∀ s, (parseArtifactData rt url (JsVal.str s) method).isSome = true) ∧
    (∀ items, (parseArtifactData rt url (JsVal.arr items) method).isSome = true) ∧
    (∀ fields, (parseArtifactData rt url (JsVal.obj fields) method).isSome = true ↔
      ((JsVal.lookup "content".toList fields).truthy = false ∨
        ∃ s, JsVal.lookup "content".toList fields = JsVal.str s)) := by
  refine ⟨?_, ?_, ?_⟩
  · intro s
    unfold parseArtifactData parseLocals
    simp only [JsVal.isObject, Bool.false_eq_true, if_false]
    split_ifs <;> simp [JsVal.asStr?]
  · intro items
    simp [parseArtifactData, parseLocals, JsVal.isObject, JsVal.get, JsVal.truthy,
      JsVal.asStr?]
  · intro fields
    unfold parseArtifactData parseLocals
    simp only [JsVal.isObject, JsVal.get, if_true]
    generalize JsVal.lookup "content".toList fields = c
    cases c with
    | undefined => simp [JsVal.truthy, JsVal.asStr?]
    | null => simp [JsVal.truthy, JsVal.asStr?]
    | bool b => cases b <;> simp [JsVal.truthy, JsVal.asStr?]
    | num n => by_cases hn : n = 0 <;> simp [JsVal.truthy, JsVal.asStr?, hn]
    | str t => cases t <;> simp [JsVal.truthy, JsVal.asStr?]
    | arr items => simp [JsVal.truthy, JsVal.asStr?]
    | obj fs => simp [JsVal.truthy, JsVal.asStr?]

/-- Witness for C16 (amended): the JSON answer of `webApiJson`. -/
theorem parseArtifactData_isSome_witness :
    (parseArtifactData asciiRuntime sampleUrl
      (JsVal.obj [("content".toList, JsVal.str "<div>hi</div>".toList)]) "api".toList).isSome =
      true :=
  ((parseArtifactData_isSome asciiRuntime sampleUrl "api".toList).2.2 _).mpr
    (Or.inr ⟨"<div>hi</div>".toList, by rfl⟩)

/-- C17: for every list of records given to `saveResults` and every position `i` in it,
the feed item at position `i` has `isRenderable = true` if and only if the record's
`rawCode` is non-empty and its `hasCode` is true; an item with `isRenderable = true` has
`hasCode = true` and a non-empty `rawCode`. -/
theorem feed_isRenderable_iff (rt : Runtime) (dice : Dice) (artifacts : List Artifact)
    (i : Nat) (h : i < artifacts.length) :
    ∃ item, (saveResults rt dice artifacts).2[i]? = some item ∧
      (item.isRenderable = true ↔ (artifacts[i].rawCode ≠ [] ∧ artifacts[i].hasCode = true)) ∧
      (item.isRenderable = true → item.hasCode = true ∧ item.rawCode ≠ []) := by
  refine ⟨feedItem dice i artifacts[i], ?_, ?_, ?_⟩
  · simp [saveResults, List.getElem?_mapIdx, h]
  · simp [feedItem, List.isEmpty_iff]
  · intro hr
    simp only [feedItem, Bool.and_eq_true, Bool.not_eq_true', List.isEmpty_eq_false] at hr
    refine ⟨hr.2, ?_⟩
    have hne : artifacts[i].rawCode.isEmpty = false := List.isEmpty_eq_false.mpr hr.1
    simp only [feedItem, hne]
    exact hr.1

/-- Witness for C17: the feed of the single record `apiJsonRecord`. -/
theorem feed_isRenderable_iff_witness :
    ∃ item, (saveResults asciiRuntime zeroDice [apiJsonRecord]).2[0]? = some item ∧
      (item.isRenderable = true ↔
        ([apiJsonRecord][0].rawCode ≠ [] ∧ [apiJsonRecord][0].hasCode = true)) ∧
      (item.isRenderable = true → item.hasCode = true ∧ item.rawCode ≠ []) :=
  feed_isRenderable_iff asciiRuntime zeroDice [apiJsonRecord] 0 (by decide)

/-- C14 (as stated, refuted): `slashUrl` and `editUrl` pass the Google filter and are
left unchanged by the URL clean-up; for `slashUrl` the record built by
`parseArtifactData` has the empty id (the page function of the render path computes
`abcdef12-3456` for the same URL), for `editUrl` it has the id `edit`. -/
theorem parseArtifactData_id_of_loose_urls :
    googleFilter slashUrl = true ∧ cleanUrl asciiRuntime slashUrl = slashUrl ∧
    (parseArtifactData asciiRuntime slashUrl (jsonWithContent (JsVal.str "<div>hi</div>".toList))
      "api".toList).map (fun r => r.id) = some (some []) ∧
    pageId slashUrl = some "abcdef12-3456".toList ∧
    googleFilter editUrl = true ∧ cleanUrl asciiRuntime editUrl = editUrl ∧
    (parseArtifactData asciiRuntime editUrl (jsonWithContent (JsVal.str "<div>hi</div>".toList))
      "api".toList).map (fun r => r.id) = some (some "edit".toList) :=
  ⟨by decide, by decide, by rfl, by decide, by decide, by decide, by rfl⟩

/-- C14 (amended): for every URL that is non-empty and does not end in a slash, and
every data and method for which `parseArtifactData` returns a record, the record's
`url` is that URL, its `id` is the non-empty text after the last slash of the URL, and
its `title` is populated; for a URL of the form `<base>/<id>` with no slash in `<id>`
the record's `id` is `<id>`. -/
theorem parseArtifactData_id (rt : Runtime) (url : Str) (data : JsVal) (method : Str)
    (r : Artifact) (h : parseArtifactData rt url data method = some r) (hne : url ≠ [])
    (hslash : url.getLast? ≠ some '/') :
    r.url = url ∧ r.id = some (lastSegment url) ∧ lastSegment url ≠ [] ∧
    r.title.truthy = true ∧
    (∀ base id, url = base ++ '/' :: id → '/' ∉ id → r.id = some id) := by
  obtain ⟨content, rawCode, title, hasCode, -, rfl⟩ := parseArtifactData_eq_some _ _ _ _ _ h
  refine ⟨rfl, rfl, lastSegment_ne_nil url hne hslash, ?_, ?_⟩
  · show (title.or _).truthy = true
    unfold JsVal.or
    split_ifs with ht
    · exact ht
    · rfl
  · intro base id hurl hid
    show some (lastSegment url) = some id
    rw [hurl, lastSegment_append base id hid]

/-- Witness for C14 (amended): the record built for `sampleUrl`. -/
theorem parseArtifactData_id_witness :
    apiJsonRecord.url = sampleUrl ∧ apiJsonRecord.id = some (lastSegment sampleUrl) ∧
    lastSegment sampleUrl ≠ [] ∧ apiJsonRecord.title.truthy = true ∧
    (∀ base id, sampleUrl = base ++ '/' :: id → '/' ∉ id → apiJsonRecord.id = some id) :=
  parseArtifactData_id asciiRuntime sampleUrl
    (jsonWithContent (JsVal.str "<div>hi</div>".toList)) "api".toList apiJsonRecord (by rfl)
    (by decide) (by decide)

/-- C15: on `webLongRender` the page carries a source text of 10001 characters;
`scrapeArtifact` returns the record of the page function, whose `rawCode` has all 10001
characters, whereas every record built by `parseArtifactData` has a `rawCode` of at most
10000 characters. -/
theorem render_record_not_truncated :
    (scrapeArtifact asciiRuntime false webLongRender sampleUrl).1 =
      Completion.returns (evaluatePage asciiRuntime longDom sampleUrl) ∧
    (evaluatePage asciiRuntime longDom sampleUrl).map
      (fun r => (r.hasCode, r.rawCode.length)) = some (true, 10001) ∧
    (∀ rt url data method r, parseArtifactData rt url data method = some r →
      r.rawCode.length ≤ 10000) := by
  have hfound : locateCode longDom = ⟨JsVal.str longCode, JsVal.str "html".toList, true⟩ := by
    rfl
  refine ⟨by rfl, ?_, ?_⟩
  · unfold evaluatePage
    rw [hfound]
    simp only [Option.map_some', Option.some.injEq, Prod.mk.injEq, true_and]
    exact List.length_replicate _ _
  · intro rt url data method r h
    obtain ⟨content, rawCode, title, hasCode, -, rfl⟩ := parseArtifactData_eq_some _ _ _ _ _ h
    show (substring0 rawCode 10000).length ≤ 10000
    unfold substring0
    rw [List.length_take]
    exact Nat.min_le_left _ _

/-- C13 (as stated, refuted): on `webPlainRender` the record that `scrapeArtifact`
returns comes from the full render, has `hasCode = false` and the non-empty `rawCode`
`<p>Not found</p>`, and carries no method, so it is not the metadata-only record. -/
theorem render_record_without_code_has_rawCode :
    (scrapeArtifact asciiRuntime false webPlainRender sampleUrl).1 =
      Completion.returns (some notFoundRecord) ∧
    (scrapeArtifact asciiRuntime false webPlainRender sampleUrl).2 =
      [Strategy.api, Strategy.archive, Strategy.proxy, Strategy.metadata, Strategy.browser] ∧
    notFoundRecord.hasCode = false ∧ notFoundRecord.rawCode = "<p>Not found</p>".toList ∧
    notFoundRecord.method = none :=
  ⟨by rfl, by rfl, by rfl, by rfl, by rfl⟩

/-- C13 (amended): every record that `scrapeArtifact` returns with `hasCode = true`
has a non-empty `rawCode`; a record built by `parseArtifactData` has `hasCode = true`
exactly when its `rawCode` is non-empty. (A record of the full render whose
content-location strategies 1 to 5 found nothing has `hasCode = false` whatever its
`rawCode`.) -/
theorem hasCode_implies_rawCode (rt : Runtime) (screenshots : Bool) (web : Web) (url : Str)
    (r : Artifact)
    (h : (scrapeArtifact rt screenshots web url).1 = Completion.returns (some r))
    (hc : r.hasCode = true) :
    r.rawCode ≠ [] ∧
    (∀ u data method p, parseArtifactData rt u data method = some p →
      (p.hasCode = true ↔ p.rawCode ≠ [])) := by
  refine ⟨?_, fun u data method p hp => parseArtifactData_hasCode_iff _ _ _ _ _ hp⟩
  rcases scrapeArtifact_cases _ _ _ _ _ h with ⟨-, data, method, hp⟩ | ⟨page, r0, -, h0, hr⟩
  · exact (parseArtifactData_hasCode_iff _ _ _ _ _ hp).mp hc
  · obtain ⟨rawCode, hraw, h0eq⟩ := evaluatePage_eq_some _ _ _ _ h0
    have hfound : (locateCode page.dom).artifactFound = true := by
      rcases hr with hr | ⟨path, hr⟩ <;> rw [hr, h0eq] at hc <;> exact hc
    have htruthy := locateCode_found _ hfound
    rw [hraw] at htruthy
    have hne : rawCode ≠ [] := by
      intro h0
      rw [h0] at htruthy
      exact absurd htruthy (by decide)
    rcases hr with hr | ⟨path, hr⟩ <;> rw [hr, h0eq] <;> exact hne

/-- Witness for C13 (amended): the record returned on `webApiJson`. -/
theorem hasCode_implies_rawCode_witness :
    apiJsonRecord.rawCode ≠ [] ∧
    (∀ u data method p, parseArtifactData asciiRuntime u data method = some p →
      (p.hasCode = true ↔ p.rawCode ≠ [])) :=
  hasCode_implies_rawCode asciiRuntime true webApiJson sampleUrl apiJsonRecord (by rfl) (by rfl)

/-! ## The run in update-only mode -/

/-- C18 (as stated, refuted): two ways in which a second update-only run adds records.
On `sourcesEmptyUrl` discovery returns the single candidate `""`; a first run without
prior output saves one record, whose `url` is `""`, and a second run on a fresh instance
saves that record twice. On `sourcesDuplicate` and `webApiJson` a first run saves
`apiJsonRecord` and gets `null` for the other candidate; calling `scrapeAll` again on
the same instance saves `apiJsonRecord` twice. -/
theorem update_run_repeats_records :
    getArtifactUrls asciiRuntime 1 sourcesEmptyUrl = Completion.returns ([[]], 1) ∧
    fileAfter none
      (scrapeAll asciiRuntime zeroDice (newScraper 1 false true) sourcesEmptyUrl webEmptyId
        none).1 = some emptyUrlDataset ∧
    recordsOf (fileAfter (some emptyUrlDataset)
      (scrapeAll asciiRuntime zeroDice (newScraper 1 false true) sourcesEmptyUrl webEmptyId
        (some emptyUrlDataset)).1) = [emptyUrlRecord, emptyUrlRecord] ∧
    (scrapeAll asciiRuntime zeroDice (newScraper 3 false true) sourcesDuplicate webApiJson
      none).1 =
      Completion.returns
        ⟨{ newScraper 3 false true with artifacts := [apiJsonRecord], successCount := 1 },
          some [apiJsonRecord], some (saveResults asciiRuntime zeroDice [apiJsonRecord])⟩ ∧
    recordsOf (fileAfter (some (saveResults asciiRuntime zeroDice [apiJsonRecord]).1)
      (scrapeAll asciiRuntime zeroDice
        { newScraper 3 false true with artifacts := [apiJsonRecord], successCount := 1 }
        sourcesDuplicate webApiJson
        (some (saveResults asciiRuntime zeroDice [apiJsonRecord]).1)).1) =
      [apiJsonRecord, apiJsonRecord] :=
  ⟨by rfl, by rfl, by rfl, by rfl, by rfl⟩

/-! ## Lemmas on the run -/

theorem mem_setAdd (set : List Str) (x u : Str) : u ∈ setAdd set x ↔ u ∈ set ∨ u = x := by
  unfold setAdd
  split_ifs with hx
  · constructor
    · exact Or.inl
    · rintro (h | h)
      · exact h
      · rw [h]
        exact hx
  · simp

theorem mem_addExistingUrls (existingUrls : List Str) (artifacts : List Artifact) (u : Str) :
    u ∈ addExistingUrls existingUrls artifacts ↔
      u ∈ existingUrls ∨ (u ≠ [] ∧ ∃ a ∈ artifacts, a.url = u) := by
  induction artifacts generalizing existingUrls with
  | nil => simp [addExistingUrls]
  | cons a rest ih =>
    have hstep : addExistingUrls existingUrls (a :: rest) =
        addExistingUrls (if a.url.isEmpty then existingUrls else setAdd existingUrls a.url)
          rest := rfl
    rw [hstep, ih]
    by_cases he : a.url.isEmpty = true
    · rw [if_pos he]
      have hnil : a.url = [] := List.isEmpty_iff.mp he
      constructor
      · rintro (h | ⟨hne, b, hb, hbu⟩)
        · exact Or.inl h
        · exact Or.inr ⟨hne, b, List.mem_cons_of_mem _ hb, hbu⟩
      · rintro (h | ⟨hne, b, hb, hbu⟩)
        · exact Or.inl h
        · rcases List.mem_cons.mp hb with rfl | hb
          · exact absurd (hbu.symm.trans hnil) hne
          · exact Or.inr ⟨hne, b, hb, hbu⟩
    · rw [if_neg he, mem_setAdd]
      have hne0 : a.url ≠ [] := fun h => he (List.isEmpty_iff.mpr h)
      constructor
      · rintro ((h | h) | ⟨hne, b, hb, hbu⟩)
        · exact Or.inl h
        · exact Or.inr ⟨by rw [h]; exact hne0, a, List.mem_cons_self _ _, h.symm⟩
        · exact Or.inr ⟨hne, b, List.mem_cons_of_mem _ hb, hbu⟩
      · rintro (h | ⟨hne, b, hb, hbu⟩)
        · exact Or.inl (Or.inl h)
        · rcases List.mem_cons.mp hb with rfl | hb
          · exact Or.inl (Or.inr hbu.symm)
          · exact Or.inr ⟨hne, b, hb, hbu⟩

theorem scrapeLoop_visited_subset (extract : Str → Completion (Option Artifact))
    (self : ScraperState) (urls : List Str) :
    ∀ u ∈ (scrapeLoop extract self urls).2, u ∈ urls := by
  induction urls generalizing self with
  | nil => simp [scrapeLoop]
  | cons url rest ih =>
    intro u hu
    unfold scrapeLoop at hu
    cases he : extract url with
    | throws =>
      rw [he] at hu
      simp only [List.mem_singleton] at hu
      rw [hu]
      exact List.mem_cons_self _ _
    | returns o =>
      rw [he] at hu
      cases o with
      | none =>
        rcases List.mem_cons.mp hu with h | h
        · rw [h]; exact List.mem_cons_self _ _
        · exact List.mem_cons_of_mem _ (ih _ u h)
      | some a =>
        rcases List.mem_cons.mp hu with h | h
        · rw [h]; exact List.mem_cons_self _ _
        · exact List.mem_cons_of_mem _ (ih _ u h)

theorem scrapeLoop_returns (extract : Str → Completion (Option Artifact))
    (self : ScraperState) (urls : List Str) (final : ScraperState)
    (h : (scrapeLoop extract self urls).1 = Completion.returns final) :
    final.artifacts = self.artifacts ++ urls.filterMap (extracted extract) ∧
    final.updateOnly = self.updateOnly ∧
    (scrapeLoop extract self urls).2 = urls ∧
    ∀ u ∈ urls, extract u ≠ Completion.throws := by
  induction urls generalizing self with
  | nil =>
    simp only [scrapeLoop, Completion.returns.injEq] at h
    subst h
    simp [scrapeLoop]
  | cons url rest ih =>
    unfold scrapeLoop at h ⊢
    cases he : extract url with
    | throws =>
      rw [he] at h
      exact absurd h (by simp)
    | returns o =>
      rw [he] at h
      cases o with
      | none =>
        obtain ⟨h1, h2, h3, h4⟩ := ih _ h
        refine ⟨?_, h2, by simp [h3], ?_⟩
        · rw [h1]
          simp [List.filterMap_cons, extracted, he]
        · intro u hu
          rcases List.mem_cons.mp hu with rfl | hu
          · rw [he]; simp
          · exact h4 u hu
      | some a =>
        obtain ⟨h1, h2, h3, h4⟩ := ih _ h
        refine ⟨?_, h2, by simp [h3], ?_⟩
        · rw [h1]
          simp [List.filterMap_cons, extracted, he]
        · intro u hu
          rcases List.mem_cons.mp hu with rfl | hu
          · rw [he]; simp
          · exact h4 u hu

theorem scrapeLoop_no_throw (extract : Str → Completion (Option Artifact))
    (self : ScraperState) (urls : List Str)
    (h : ∀ u ∈ urls, extract u ≠ Completion.throws) :
    ∃ final, (scrapeLoop extract self urls).1 = Completion.returns final := by
  induction urls generalizing self with
  | nil => exact ⟨self, rfl⟩
  | cons url rest ih =>
    unfold scrapeLoop
    cases he : extract url with
    | throws => exact absurd he (h url (List.mem_cons_self _ _))
    | returns o =>
      cases o with
      | none => exact ih _ (fun u hu => h u (List.mem_cons_of_mem _ hu))
      | some a => exact ih _ (fun u hu => h u (List.mem_cons_of_mem _ hu))

theorem init_newScraper (maxPages : Nat) (screenshots updateOnly : Bool)
    (file : Option Dataset) :
    init (newScraper maxPages screenshots updateOnly) file =
      ({ newScraper maxPages screenshots updateOnly with
          existingUrls := addExistingUrls [] (recordsOf file) }, recordsOf file) := by
  cases file <;> rfl

theorem scrapeAll_update_eq (rt : Runtime) (dice : Dice) (maxPages : Nat) (screenshots : Bool)
    (src : Sources) (web : Web) (file : Option Dataset) (urls : List Str) (n : Nat)
    (hu : getArtifactUrls rt maxPages src = Completion.returns (urls, n)) :
    scrapeAll rt dice (newScraper maxPages screenshots true) src web file =
      if urls.length = 0 then
        (Completion.returns
          ⟨{ newScraper maxPages screenshots true with
              existingUrls := addExistingUrls [] (recordsOf file), totalFound := n },
            none, none⟩, [])
      else if (urls.filter
          (fun u => !decide (u ∈ addExistingUrls [] (recordsOf file)))).length = 0 then
        (Completion.returns
          ⟨{ newScraper maxPages screenshots true with
              existingUrls := addExistingUrls [] (recordsOf file), totalFound := n },
            some (recordsOf file), none⟩, [])
      else
        match (scrapeLoop (fun url => (scrapeArtifact rt screenshots web url).1)
            { newScraper maxPages screenshots true with
              existingUrls := addExistingUrls [] (recordsOf file), totalFound := n }
            (urls.filter (fun u => !decide (u ∈ addExistingUrls [] (recordsOf file))))).1 with
        | Completion.throws =>
          (Completion.throws,
            (scrapeLoop (fun url => (scrapeArtifact rt screenshots web url).1)
              { newScraper maxPages screenshots true with
                existingUrls := addExistingUrls [] (recordsOf file), totalFound := n }
              (urls.filter (fun u => !decide (u ∈ addExistingUrls [] (recordsOf file))))).2)
        | Completion.returns final =>
          (Completion.returns
            ⟨final,
              some (if final.updateOnly then recordsOf file ++ final.artifacts
                else final.artifacts),
              some (saveResults rt dice
                (if final.updateOnly then recordsOf file ++ final.artifacts
                  else final.artifacts))⟩,
            (scrapeLoop (fun url => (scrapeArtifact rt screenshots web url).1)
              { newScraper maxPages screenshots true with
                existingUrls := addExistingUrls [] (recordsOf file), totalFound := n }
              (urls.filter (fun u => !decide (u ∈ addExistingUrls [] (recordsOf file))))).2) := by
  unfold scrapeAll
  rw [init_newScraper]
  have hm : (newScraper maxPages screenshots true).maxPages = maxPages := rfl
  simp only [hm, hu]
  rfl

theorem scrapeAll_throws_of_discovery (rt : Runtime) (dice : Dice) (self : ScraperState)
    (src : Sources) (web : Web) (file : Option Dataset)
    (hu : getArtifactUrls rt (init self file).1.maxPages src = Completion.throws) :
    scrapeAll rt dice self src web file = (Completion.throws, []) := by
  unfold scrapeAll
  simp only [hu]

theorem scrapeAll_update_records (rt : Runtime) (dice : Dice) (maxPages : Nat)
    (screenshots : Bool) (src : Sources) (web : Web) (file : Option Dataset)
    (urls : List Str) (n : Nat)
    (hu : getArtifactUrls rt maxPages src = Completion.returns (urls, n))
    (hok : ∀ u ∈ urls.filter (fun u => !decide (u ∈ addExistingUrls [] (recordsOf file))),
      (scrapeArtifact rt screenshots web u).1 ≠ Completion.throws) :
    recordsOf (fileAfter file
        (scrapeAll rt dice (newScraper maxPages screenshots true) src web file).1) =
      recordsOf file ++
        (urls.filter (fun u => !decide (u ∈ addExistingUrls [] (recordsOf file)))).filterMap
          (extracted (fun url => (scrapeArtifact rt screenshots web url).1)) := by
  rw [scrapeAll_update_eq rt dice maxPages screenshots src web file urls n hu]
  generalize hT : urls.filter (fun u => !decide (u ∈ addExistingUrls [] (recordsOf file))) = T
    at hok ⊢
  split_ifs with h0 h1
  · have hnil : urls = [] := List.length_eq_zero.mp h0
    rw [hnil] at hT
    simp only [List.filter_nil] at hT
    rw [← hT]
    simp [fileAfter]
  · have hnil : T = [] := List.length_eq_zero.mp h1
    rw [hnil]
    simp [fileAfter]
  · obtain ⟨final, hf⟩ := scrapeLoop_no_throw
      (fun url => (scrapeArtifact rt screenshots web url).1)
      { newScraper maxPages screenshots true with
        existingUrls := addExistingUrls [] (recordsOf file), totalFound := n } T hok
    obtain ⟨h1a, h1u, -, -⟩ := scrapeLoop_returns _ _ _ _ hf
    rw [hf]
    have hup : final.updateOnly = true := h1u
    have hart : final.artifacts = T.filterMap
        (extracted (fun url => (scrapeArtifact rt screenshots web url).1)) := by
      rw [h1a]
      rfl
    simp only [fileAfter, recordsOf, saveResults, hup, if_true, hart]

theorem scrapeAll_update_unchanged (rt : Runtime) (dice : Dice) (maxPages : Nat)
    (screenshots : Bool) (src : Sources) (web : Web) (file : Option Dataset)
    (urls : List Str) (n : Nat)
    (hu : getArtifactUrls rt maxPages src = Completion.returns (urls, n))
    (hthrow : ∃ u ∈ urls.filter (fun u => !decide (u ∈ addExistingUrls [] (recordsOf file))),
      (scrapeArtifact rt screenshots web u).1 = Completion.throws) :
    fileAfter file (scrapeAll rt dice (newScraper maxPages screenshots true) src web file).1 =
      file := by
  rw [scrapeAll_update_eq rt dice maxPages screenshots src web file urls n hu]
  generalize hT : urls.filter (fun u => !decide (u ∈ addExistingUrls [] (recordsOf file))) = T
    at hthrow ⊢
  split_ifs with h0 h1
  · rfl
  · rfl
  · cases hl : (scrapeLoop (fun url => (scrapeArtifact rt screenshots web url).1)
        { newScraper maxPages screenshots true with
          existingUrls := addExistingUrls [] (recordsOf file), totalFound := n } T).1 with
    | throws => rfl
    | returns final =>
      obtain ⟨-, -, -, hno⟩ := scrapeLoop_returns _ _ _ _ hl
      obtain ⟨u, hu1, hu2⟩ := hthrow
      exact absurd hu2 (hno u hu1)

theorem extracted_eq_some (extract : Str → Completion (Option Artifact)) (u : Str)
    (a : Artifact) (h : extracted extract u = some a) :
    extract u = Completion.returns (some a) := by
  unfold extracted at h
  split at h
  · simp only [Option.some.injEq] at h
    rename_i b hb
    rw [hb, h]
  · exact absurd h (by simp)

/-- C18 (amended): for every prior dataset, every world of discovery whose candidate
URLs are non-empty strings and every world of extraction, running `scrapeAll` twice in
update-only mode, each time on a fresh instance and the second time on the output of
the first, leaves after the second run the same records as after the first. -/
theorem scrapeAll_update_idempotent (rt : Runtime) (dice1 dice2 : Dice) (maxPages : Nat)
    (screenshots : Bool) (src : Sources) (web : Web) (file : Option Dataset)
    (hurls : ∀ urls n, getArtifactUrls rt maxPages src = Completion.returns (urls, n) →
      [] ∉ urls) :
    recordsOf (fileAfter
        (fileAfter file
          (scrapeAll rt dice1 (newScraper maxPages screenshots true) src web file).1)
        (scrapeAll rt dice2 (newScraper maxPages screenshots true) src web
          (fileAfter file
            (scrapeAll rt dice1 (newScraper maxPages screenshots true) src web file).1)).1) =
      recordsOf (fileAfter file
        (scrapeAll rt dice1 (newScraper maxPages screenshots true) src web file).1) := by
  cases hu : getArtifactUrls rt maxPages src with
  | throws =>
    have h1 : ∀ (f : Option Dataset) (dice : Dice),
        scrapeAll rt dice (newScraper maxPages screenshots true) src web f =
          (Completion.throws, []) := by
      intro f dice
      apply scrapeAll_throws_of_discovery
      rw [init_newScraper]
      exact hu
    simp only [h1, fileAfter]
  | returns p =>
    obtain ⟨urls, n⟩ := p
    have hne := hurls urls n hu
    by_cases hok : ∀ u ∈ urls.filter
        (fun u => !decide (u ∈ addExistingUrls [] (recordsOf file))),
        (scrapeArtifact rt screenshots web u).1 ≠ Completion.throws
    · have hR1 := scrapeAll_update_records rt dice1 maxPages screenshots src web file urls n
        hu hok
      generalize fileAfter file
        (scrapeAll rt dice1 (newScraper maxPages screenshots true) src web file).1 = file1
        at hR1 ⊢
      have hT2 : ∀ u ∈ urls.filter
          (fun u => !decide (u ∈ addExistingUrls [] (recordsOf file1))),
          u ∈ urls.filter (fun u => !decide (u ∈ addExistingUrls [] (recordsOf file))) ∧
          extracted (fun url => (scrapeArtifact rt screenshots web url).1) u = none := by
        intro u hu2
        simp only [List.mem_filter, Bool.not_eq_true', decide_eq_false_iff_not] at hu2 ⊢
        obtain ⟨hmem, hnot⟩ := hu2
        rw [hR1] at hnot
        have hu0 : u ≠ [] := fun h0 => hne (h0 ▸ hmem)
        have hT1 : u ∉ addExistingUrls [] (recordsOf file) := by
          intro hin
          apply hnot
          rw [mem_addExistingUrls] at hin ⊢
          rcases hin with hin | ⟨h1, a, ha, hau⟩
          · exact Or.inl hin
          · exact Or.inr ⟨h1, a, List.mem_append_left _ ha, hau⟩
        refine ⟨⟨hmem, hT1⟩, ?_⟩
        cases hx : extracted (fun url => (scrapeArtifact rt screenshots web url).1) u with
        | none => rfl
        | some a =>
          exfalso
          apply hnot
          rw [mem_addExistingUrls]
          refine Or.inr ⟨hu0, a, List.mem_append_right _ ?_, ?_⟩
          · rw [List.mem_filterMap]
            refine ⟨u, ?_, hx⟩
            simp only [List.mem_filter, Bool.not_eq_true', decide_eq_false_iff_not]
            exact ⟨hmem, hT1⟩
          · exact scrapeArtifact_url _ _ _ _ _ (extracted_eq_some _ _ _ hx)
      have hok2 : ∀ u ∈ urls.filter
          (fun u => !decide (u ∈ addExistingUrls [] (recordsOf file1))),
          (scrapeArtifact rt screenshots web u).1 ≠ Completion.throws :=
        fun u hu2 => hok u (hT2 u hu2).1
      rw [scrapeAll_update_records rt dice2 maxPages screenshots src web file1 urls n hu hok2]
      have hnil : (urls.filter
          (fun u => !decide (u ∈ addExistingUrls [] (recordsOf file1)))).filterMap
          (extracted (fun url => (scrapeArtifact rt screenshots web url).1)) = [] :=
        List.filterMap_eq_nil_iff.mpr (fun u hu2 => (hT2 u hu2).2)
      rw [hnil, List.append_nil]
    · push_neg at hok
      rw [scrapeAll_update_unchanged rt dice1 maxPages screenshots src web file urls n hu hok]
      rw [scrapeAll_update_unchanged rt dice2 maxPages screenshots src web file urls n hu hok]

theorem scrapeAll_update_visited (rt : Runtime) (dice : Dice) (maxPages : Nat)
    (screenshots : Bool) (src : Sources) (web : Web) (file : Option Dataset) (u : Str)
    (h : u ∈ (scrapeAll rt dice (newScraper maxPages screenshots true) src web file).2) :
    ∃ urls n, getArtifactUrls rt maxPages src = Completion.returns (urls, n) ∧ u ∈ urls ∧
      u ∉ addExistingUrls [] (recordsOf file) := by
  cases hu : getArtifactUrls rt maxPages src with
  | throws =>
    rw [scrapeAll_throws_of_discovery rt dice _ src web file
      (by rw [init_newScraper]; exact hu)] at h
    simp at h
  | returns p =>
    obtain ⟨urls, n⟩ := p
    refine ⟨urls, n, rfl, ?_⟩
    rw [scrapeAll_update_eq rt dice maxPages screenshots src web file urls n hu] at h
    have hsub : ∀ v ∈ (scrapeLoop (fun url => (scrapeArtifact rt screenshots web url).1)
        { newScraper maxPages screenshots true with
          existingUrls := addExistingUrls [] (recordsOf file), totalFound := n }
        (urls.filter (fun u => !decide (u ∈ addExistingUrls [] (recordsOf file))))).2,
        v ∈ urls ∧ v ∉ addExistingUrls [] (recordsOf file) := by
      intro v hv
      have := scrapeLoop_visited_subset _ _ _ v hv
      simpa only [List.mem_filter, Bool.not_eq_true', decide_eq_false_iff_not] using this
    split_ifs at h with h0 h1
    · simp at h
    · simp at h
    · split at h
      · exact hsub u h
      · exact hsub u h

theorem scrapeAll_update_saved (rt : Runtime) (dice : Dice) (maxPages : Nat)
    (screenshots : Bool) (src : Sources) (web : Web) (file : Option Dataset) (run : Run)
    (written : Dataset × List FeedItem)
    (hrun : (scrapeAll rt dice (newScraper maxPages screenshots true) src web file).1 =
      Completion.returns run)
    (hsaved : run.saved = some written) :
    ∃ urls n, getArtifactUrls rt maxPages src = Completion.returns (urls, n) ∧
      (scrapeAll rt dice (newScraper maxPages screenshots true) src web file).2 =
        urls.filter (fun u => !decide (u ∈ addExistingUrls [] (recordsOf file))) ∧
      written.1.artifacts = recordsOf file ++
        (urls.filter (fun u => !decide (u ∈ addExistingUrls [] (recordsOf file)))).filterMap
          (extracted (fun url => (scrapeArtifact rt screenshots web url).1)) := by
  cases hu : getArtifactUrls rt maxPages src with
  | throws =>
    rw [scrapeAll_throws_of_discovery rt dice _ src web file
      (by rw [init_newScraper]; exact hu)] at hrun
    simp at hrun
  | returns p =>
    obtain ⟨urls, n⟩ := p
    refine ⟨urls, n, rfl, ?_⟩
    rw [scrapeAll_update_eq rt dice maxPages screenshots src web file urls n hu] at hrun ⊢
    split_ifs at hrun ⊢ with h0 h1
    · simp only [Completion.returns.injEq] at hrun
      rw [← hrun] at hsaved
      simp at hsaved
    · simp only [Completion.returns.injEq] at hrun
      rw [← hrun] at hsaved
      simp at hsaved
    · cases hl : (scrapeLoop (fun url => (scrapeArtifact rt screenshots web url).1)
          { newScraper maxPages screenshots true with
            existingUrls := addExistingUrls [] (recordsOf file), totalFound := n }
          (urls.filter (fun u => !decide (u ∈ addExistingUrls [] (recordsOf file))))).1 with
      | throws =>
        rw [hl] at hrun
        simp at hrun
      | returns final =>
        obtain ⟨ha, hup, hv, -⟩ := scrapeLoop_returns _ _ _ _ hl
        rw [hl] at hrun
        simp only [Completion.returns.injEq] at hrun
        rw [← hrun] at hsaved
        simp only [Option.some.injEq] at hsaved
        have hup2 : final.updateOnly = true := hup
        refine ⟨hv, ?_⟩
        rw [← hsaved, ha]
        simp [saveResults, hup2, newScraper]

theorem map_url_extracted_sublist (extract : Str → Completion (Option Artifact))
    (hurl : ∀ u a, extract u = Completion.returns (some a) → a.url = u) (urls : List Str) :
    ((urls.filterMap (extracted extract)).map (fun a => a.url)).Sublist urls := by
  induction urls with
  | nil => simp
  | cons u rest ih =>
    cases hx : extracted extract u with
    | none =>
      rw [List.filterMap_cons_none hx]
      exact List.Sublist.cons _ ih
    | some a =>
      rw [List.filterMap_cons_some hx, List.map_cons,
        hurl u a (extracted_eq_some _ _ _ hx)]
      exact List.Sublist.cons₂ _ ih

/-- Witness for C18 (amended): two update-only runs on `sourcesDuplicate` and
`webApiJson`, starting without prior output. -/
theorem scrapeAll_update_idempotent_witness :
    recordsOf (fileAfter
        (fileAfter none
          (scrapeAll asciiRuntime zeroDice (newScraper 3 false true) sourcesDuplicate
            webApiJson none).1)
        (scrapeAll asciiRuntime zeroDice (newScraper 3 false true) sourcesDuplicate webApiJson
          (fileAfter none
            (scrapeAll asciiRuntime zeroDice (newScraper 3 false true) sourcesDuplicate
              webApiJson none).1)).1) =
      recordsOf (fileAfter none
        (scrapeAll asciiRuntime zeroDice (newScraper 3 false true) sourcesDuplicate webApiJson
          none).1) :=
  scrapeAll_update_idempotent asciiRuntime zeroDice zeroDice 3 false sourcesDuplicate webApiJson
    none
    (by
      intro urls n h
      have h2 : getArtifactUrls asciiRuntime 3 sourcesDuplicate =
          Completion.returns ([sampleUrl, sampleUrl ++ "?ref=x".toList], 0) := by rfl
      rw [h2] at h
      simp only [Completion.returns.injEq, Prod.mk.injEq] at h
      rw [← h.1]
      decide)

/-- C19 (as stated, refuted): with the prior output `emptyUrlDataset`, whose record has
the `url` `""`, an update-only run on `sourcesEmptyUrl` passes the candidate `""` to
`scrapeArtifact`. -/
theorem update_run_scrapes_prior_empty_url :
    emptyUrlRecord ∈ recordsOf (some emptyUrlDataset) ∧ emptyUrlRecord.url = [] ∧
    (scrapeAll asciiRuntime zeroDice (newScraper 1 false true) sourcesEmptyUrl webEmptyId
      (some emptyUrlDataset)).2 = [[]] :=
  ⟨List.mem_singleton.mpr rfl, by rfl, by rfl⟩

/-- C19 (amended): in update-only mode, when the candidate URLs of discovery are
non-empty strings, `scrapeAll` passes to `scrapeArtifact` no URL that is the `url` of a
record of the prior dataset; and a dataset that it saves consists of the prior records,
unchanged and in order, followed by the records extracted for the URLs passed to
`scrapeArtifact`, in order. -/
theorem scrapeAll_update_skips_existing (rt : Runtime) (dice : Dice) (maxPages : Nat)
    (screenshots : Bool) (src : Sources) (web : Web) (file : Option Dataset)
    (hurls : ∀ urls n, getArtifactUrls rt maxPages src = Completion.returns (urls, n) →
      [] ∉ urls) :
    (∀ u ∈ (scrapeAll rt dice (newScraper maxPages screenshots true) src web file).2,
      ∀ a ∈ recordsOf file, a.url ≠ u) ∧
    (∀ run written,
      (scrapeAll rt dice (newScraper maxPages screenshots true) src web file).1 =
        Completion.returns run →
      run.saved = some written →
      written.1.artifacts = recordsOf file ++
        (scrapeAll rt dice (newScraper maxPages screenshots true) src web file).2.filterMap
          (extracted (fun url => (scrapeArtifact rt screenshots web url).1))) := by
  constructor
  · intro u hu a ha hau
    obtain ⟨urls, n, hd, hmem, hnot⟩ :=
      scrapeAll_update_visited rt dice maxPages screenshots src web file u hu
    apply hnot
    rw [mem_addExistingUrls]
    exact Or.inr ⟨fun h0 => hurls urls n hd (h0 ▸ hmem), a, ha, hau⟩
  · intro run written hrun hsaved
    obtain ⟨urls, n, -, hv, hw⟩ :=
      scrapeAll_update_saved rt dice maxPages screenshots src web file run written hrun hsaved
    rw [hv, hw]

/-- Witness for C19 (amended): an update-only run on `sourcesDuplicate` and `webApiJson`
with the prior output `emptyUrlDataset` saves the prior record followed by the record
extracted for `sampleUrl`. -/
theorem scrapeAll_update_skips_existing_witness :
    (saveResults asciiRuntime zeroDice [emptyUrlRecord, apiJsonRecord]).1.artifacts =
      recordsOf (some emptyUrlDataset) ++
        (scrapeAll asciiRuntime zeroDice (newScraper 3 false true) sourcesDuplicate webApiJson
          (some emptyUrlDataset)).2.filterMap
          (extracted (fun url => (scrapeArtifact asciiRuntime false webApiJson url).1)) :=
  (scrapeAll_update_skips_existing asciiRuntime zeroDice 3 false sourcesDuplicate webApiJson
    (some emptyUrlDataset)
    (by
      intro urls n h
      have h2 : getArtifactUrls asciiRuntime 3 sourcesDuplicate =
          Completion.returns ([sampleUrl, sampleUrl ++ "?ref=x".toList], 0) := by rfl
      rw [h2] at h
      simp only [Completion.returns.injEq, Prod.mk.injEq] at h
      rw [← h.1]
      decide)).2
    ⟨{ newScraper 3 false true with artifacts := [apiJsonRecord], successCount := 1 },
      some [emptyUrlRecord, apiJsonRecord],
      some (saveResults asciiRuntime zeroDice [emptyUrlRecord, apiJsonRecord])⟩
    (saveResults asciiRuntime zeroDice [emptyUrlRecord, apiJsonRecord])
    (by rfl) (by rfl)

/-- C20 (as stated, refuted): the prior output `emptyUrlDataset` has a single record and
the candidate list of `sourcesEmptyUrl` a single URL, yet the dataset that an update-only
run saves has two records with the same `url`. -/
theorem update_run_saves_duplicate_empty_url :
    ((recordsOf (some emptyUrlDataset)).map (fun a => a.url)).Nodup ∧
    getArtifactUrls asciiRuntime 1 sourcesEmptyUrl = Completion.returns ([[]], 1) ∧
    (recordsOf (fileAfter (some emptyUrlDataset)
      (scrapeAll asciiRuntime zeroDice (newScraper 1 false true) sourcesEmptyUrl webEmptyId
        (some emptyUrlDataset)).1)).map (fun a => a.url) = [[], []] ∧
    ¬ ([[], []] : List Str).Nodup :=
  ⟨by decide, by rfl, by rfl, by decide⟩

/-- C20 (amended): in update-only mode, if no two records of the prior dataset share a
`url`, the candidate list has no repeated URL and every candidate URL is a non-empty
string, then no two records of a dataset that `scrapeAll` saves share a `url`. -/
theorem scrapeAll_update_nodup (rt : Runtime) (dice : Dice) (maxPages : Nat)
    (screenshots : Bool) (src : Sources) (web : Web) (file : Option Dataset)
    (hurls : ∀ urls n, getArtifactUrls rt maxPages src = Completion.returns (urls, n) →
      [] ∉ urls)
    (hprior : ((recordsOf file).map (fun a => a.url)).Nodup)
    (hcand : ∀ urls n, getArtifactUrls rt maxPages src = Completion.returns (urls, n) →
      urls.Nodup)
    (run : Run) (written : Dataset × List FeedItem)
    (hrun : (scrapeAll rt dice (newScraper maxPages screenshots true) src web file).1 =
      Completion.returns run)
    (hsaved : run.saved = some written) :
    (written.1.artifacts.map (fun a => a.url)).Nodup := by
  obtain ⟨urls, n, hd, -, hw⟩ :=
    scrapeAll_update_saved rt dice maxPages screenshots src web file run written hrun hsaved
  have hsub := map_url_extracted_sublist
    (fun url => (scrapeArtifact rt screenshots web url).1)
    (fun u a h => scrapeArtifact_url rt screenshots web u a h)
    (urls.filter (fun u => !decide (u ∈ addExistingUrls [] (recordsOf file))))
  rw [hw, List.map_append, List.nodup_append]
  refine ⟨hprior, hsub.nodup ((List.filter_sublist urls).nodup (hcand urls n hd)), ?_⟩
  rw [List.disjoint_left]
  intro x hx1 hx2
  have hx3 := hsub.subset hx2
  simp only [List.mem_filter, Bool.not_eq_true', decide_eq_false_iff_not] at hx3
  apply hx3.2
  rw [mem_addExistingUrls]
  obtain ⟨a, ha, hau⟩ := List.mem_map.mp hx1
  exact Or.inr ⟨fun h0 => hurls urls n hd (h0 ▸ hx3.1), a, ha, hau⟩

/-- Witness for C20 (amended): an update-only run on `sourcesDuplicate` and `webApiJson`
without prior output saves the single record `apiJsonRecord`. -/
theorem scrapeAll_update_nodup_witness :
    ((saveResults asciiRuntime zeroDice [apiJsonRecord]).1.artifacts.map
      (fun a => a.url)).Nodup :=
  scrapeAll_update_nodup asciiRuntime zeroDice 3 false sourcesDuplicate webApiJson none
    (by
      intro urls n h
      have h2 : getArtifactUrls asciiRuntime 3 sourcesDuplicate =
          Completion.returns ([sampleUrl, sampleUrl ++ "?ref=x".toList], 0) := by rfl
      rw [h2] at h
      simp only [Completion.returns.injEq, Prod.mk.injEq] at h
      rw [← h.1]
      decide)
    (by decide)
    (by
      intro urls n h
      have h2 : getArtifactUrls asciiRuntime 3 sourcesDuplicate =
          Completion.returns ([sampleUrl, sampleUrl ++ "?ref=x".toList], 0) := by rfl
      rw [h2] at h
      simp only [Completion.returns.injEq, Prod.mk.injEq] at h
      rw [← h.1]
      decide)
    ⟨{ newScraper 3 false true with artifacts := [apiJsonRecord], successCount := 1 },
      some [apiJsonRecord], some (saveResults asciiRuntime zeroDice [apiJsonRecord])⟩
    (saveResults asciiRuntime zeroDice [apiJsonRecord])
    (by rfl) (by rfl)

/-! ## Constructor options -/

/-- C25: for every options object whose `maxPages` is a positive number `m` and whose
`headless` is a boolean `h`, the constructor sets `maxPages` to `m` and `headless` to
`h`; without options, and with the empty options object, it sets `maxPages = 3`,
`headless = true`, `screenshots = true` and `updateOnly = false`. -/
theorem constructor_options (fields : List (Str × JsVal)) (m : Int) (h : Bool)
    (hm : 0 < m) (hmax : JsVal.lookup "maxPages".toList fields = JsVal.num m)
    (hhead : JsVal.lookup "headless".toList fields = JsVal.bool h) :
    (∃ scraper, newClaudeArtifactScraper (JsVal.obj fields) = some scraper ∧
      scraper.maxPages = JsVal.num m ∧ scraper.headless = h) ∧
    (∃ scraper, newClaudeArtifactScraper JsVal.undefined = some scraper ∧
      newClaudeArtifactScraper (JsVal.obj []) = some scraper ∧
      scraper.maxPages = JsVal.num 3 ∧ scraper.headless = true ∧
      scraper.screenshots = true ∧ scraper.updateOnly = JsVal.bool false) := by
  constructor
  · refine ⟨_, rfl, ?_, ?_⟩
    · show (JsVal.lookup "maxPages".toList fields).or (JsVal.num 3) = JsVal.num m
      rw [hmax]
      have hne : m ≠ 0 := ne_of_gt hm
      simp [JsVal.or, JsVal.truthy, hne]
    · show (JsVal.lookup "headless".toList fields).isNotFalse = h
      rw [hhead]
      cases h <;> rfl
  · exact ⟨_, rfl, rfl, rfl, rfl, rfl, rfl⟩

/-- Witness for C25: the options of the first test of `test.js`. -/
theorem constructor_options_witness :
    (∃ scraper, newClaudeArtifactScraper testOptions = some scraper ∧
      scraper.maxPages = JsVal.num 1 ∧ scraper.headless = true) ∧
    (∃ scraper, newClaudeArtifactScraper JsVal.undefined = some scraper ∧
      newClaudeArtifactScraper (JsVal.obj []) = some scraper ∧
      scraper.maxPages = JsVal.num 3 ∧ scraper.headless = true ∧
      scraper.screenshots = true ∧ scraper.updateOnly = JsVal.bool false) :=
  constructor_options _ 1 true (by decide) (by rfl) (by rfl)

/-! ## Precedence of the render-path classifier -/

theorem isEmpty_of_includes (s p : Str) (hp : p ≠ []) (h : includes s p = true) :
    s.isEmpty = false := by
  cases s with
  | nil => exact absurd (includes_nil_left p h) hp
  | cons c cs => rfl

/-- C26: for every raw content that contains `useState`, `useEffect`, `import React` or
`export default function`, the render-path classifier returns `(react, jsx)`, whatever
else the content contains and whatever the type was before; the record that the page
function builds from such a content has type `react` and language `jsx`. -/
theorem renderClassify_react_first (rt : Runtime) (rawCode : Str)
    (h : includes rawCode "useState".toList = true ∨
      includes rawCode "useEffect".toList = true ∨
      includes rawCode "import React".toList = true ∨
      includes rawCode "export default function".toList = true) :
    (∀ type0, renderClassify rt type0 rawCode = (JsVal.str "react".toList, "jsx".toList)) ∧
    (∀ dom url r, evaluatePage rt dom url = some r → r.rawCode = rawCode →
      r.type = JsVal.str "react".toList ∧ r.language = "jsx".toList) := by
  have hne : rawCode.isEmpty = false := by
    rcases h with h | h | h | h <;> exact isEmpty_of_includes _ _ (by decide) h
  have hreact : renderIsReact rawCode = true := by
    unfold renderIsReact
    rcases h with h | h | h | h <;> simp only [h, Bool.or_true, Bool.true_or]
  have hcls : ∀ type0,
      renderClassify rt type0 rawCode = (JsVal.str "react".toList, "jsx".toList) := by
    intro type0
    unfold renderClassify
    simp only [hne, hreact, Bool.false_eq_true, if_false, if_true]
  refine ⟨hcls, ?_⟩
  intro dom url r hr hraw
  obtain ⟨code, -, rfl⟩ := evaluatePage_eq_some _ _ _ _ hr
  dsimp only at hraw
  subst hraw
  exact ⟨by rw [hcls], by rw [hcls]⟩

/-- Witness for C26: a document that holds `useState` next to `<svg`, `<!DOCTYPE` and
`<html`. -/
theorem renderClassify_react_first_witness :
    (includes mixedDocument "<svg".toList = true ∧
      includes mixedDocument "<!DOCTYPE".toList = true ∧
      includes mixedDocument "<html".toList = true) ∧
    renderClassify asciiRuntime (JsVal.str "html".toList) mixedDocument =
      (JsVal.str "react".toList, "jsx".toList) :=
  ⟨by decide,
    (renderClassify_react_first asciiRuntime mixedDocument (Or.inl (by decide))).1 _⟩

/-! ## Failures during discovery -/

theorem mem_setAddAll (xs set : List Str) (u : Str) :
    u ∈ setAddAll set xs ↔ u ∈ set ∨ u ∈ xs := by
  unfold setAddAll
  induction xs generalizing set with
  | nil => simp
  | cons x rest ih =>
    rw [List.foldl_cons, ih, mem_setAdd, List.mem_cons]
    constructor
    · rintro ((h | h) | h)
      · exact Or.inl h
      · exact Or.inr (Or.inl h)
      · exact Or.inr (Or.inr h)
    · rintro (h | h | h)
      · exact Or.inl (Or.inl h)
      · exact Or.inl (Or.inr h)
      · exact Or.inr h

theorem nodup_setAdd (set : List Str) (x : Str) (h : set.Nodup) : (setAdd set x).Nodup := by
  unfold setAdd
  split_ifs with hx
  · exact h
  · rw [List.nodup_append]
    refine ⟨h, List.nodup_singleton x, ?_⟩
    intro a ha hb
    rw [List.mem_singleton] at hb
    rw [hb] at ha
    exact absurd ha hx

theorem nodup_setAddAll (xs set : List Str) (h : set.Nodup) : (setAddAll set xs).Nodup := by
  unfold setAddAll
  induction xs generalizing set with
  | nil => exact h
  | cons x rest ih =>
    rw [List.foldl_cons]
    exact ih _ (nodup_setAdd _ _ h)

theorem mem_googleRound (rt : Runtime) (allUrls : List Str) (round : Round) (u : Str) :
    u ∈ googleRound rt allUrls round ↔
      u ∈ allUrls ∨ ∃ links bodyText, round = Round.page links bodyText ∧
        u ∈ extractUrls rt links bodyText := by
  cases round with
  | page links bodyText =>
    unfold googleRound
    rw [mem_setAddAll]
    constructor
    · rintro (h | h)
      · exact Or.inl h
      · exact Or.inr ⟨links, bodyText, rfl, h⟩
    · rintro (h | ⟨l, b, hp, h⟩)
      · exact Or.inl h
      · cases hp
        exact Or.inr h
  | captcha =>
    unfold googleRound
    constructor
    · exact Or.inl
    · rintro (h | ⟨l, b, hp, -⟩)
      · exact h
      · cases hp
  | error =>
    unfold googleRound
    constructor
    · exact Or.inl
    · rintro (h | ⟨l, b, hp, -⟩)
      · exact h
      · cases hp

theorem nodup_googleRound (rt : Runtime) (allUrls : List Str) (round : Round)
    (h : allUrls.Nodup) : (googleRound rt allUrls round).Nodup := by
  cases round with
  | page links bodyText => exact nodup_setAddAll _ _ h
  | captcha => exact h
  | error => exact h

theorem googleRounds_succ (rt : Runtime) (n : Nat) (src : Sources) :
    googleRounds rt (n + 1) src =
      (googleRound rt (googleRounds rt n src).1 (src.rounds n),
        (googleRounds rt n src).2 ++ [searchUrl n]) := by
  unfold googleRounds
  rw [List.range_succ, List.foldl_append]
  rfl

theorem googleRounds_requests (rt : Runtime) (maxPages : Nat) (src : Sources) :
    (googleRounds rt maxPages src).2 = (List.range maxPages).map searchUrl := by
  induction maxPages with
  | zero => rfl
  | succ n ih =>
    rw [googleRounds_succ, List.range_succ, List.map_append]
    simp only [List.map_cons, List.map_nil]
    rw [ih]

theorem googlePhase_eq (rt : Runtime) (maxPages : Nat) (src : Sources)
    (hsetup : src.googleSetup = true) :
    googlePhase rt maxPages src = (googleRounds rt maxPages src).1 := by
  unfold googlePhase
  rw [if_pos hsetup]
  induction maxPages with
  | zero => rfl
  | succ n ih =>
    rw [googleRounds_succ, List.range_succ, List.foldl_append]
    simp only [List.foldl_cons, List.foldl_nil]
    rw [ih]

theorem mem_googleRounds (rt : Runtime) (maxPages : Nat) (src : Sources) (u : Str) :
    u ∈ (googleRounds rt maxPages src).1 ↔
      ∃ p, p < maxPages ∧ ∃ links bodyText, src.rounds p = Round.page links bodyText ∧
        u ∈ extractUrls rt links bodyText := by
  induction maxPages with
  | zero =>
    constructor
    · intro h
      exact absurd h (List.not_mem_nil u)
    · rintro ⟨p, hp, -⟩
      exact absurd hp (Nat.not_lt_zero p)
  | succ n ih =>
    rw [googleRounds_succ, mem_googleRound, ih]
    constructor
    · rintro (⟨p, hp, h⟩ | h)
      · exact ⟨p, Nat.lt_succ_of_lt hp, h⟩
      · exact ⟨n, Nat.lt_succ_self n, h⟩
    · rintro ⟨p, hp, h⟩
      rcases Nat.lt_succ_iff_lt_or_eq.mp hp with hlt | heq
      · exact Or.inl ⟨p, hlt, h⟩
      · rw [heq] at h
        exact Or.inr h

theorem nodup_googleRounds (rt : Runtime) (maxPages : Nat) (src : Sources) :
    (googleRounds rt maxPages src).1.Nodup := by
  induction maxPages with
  | zero => exact List.nodup_nil
  | succ n ih =>
    rw [googleRounds_succ]
    exact nodup_googleRound _ _ _ ih

/-! ## Query variants of the Google phase -/

theorem searchQueries_length : searchQueries.length = 3 := rfl

theorem digitsValue_append_singleton (ds : List Char) (c : Char) :
    digitsValue (ds ++ [c]) = 10 * digitsValue ds + (c.toNat - 48) := by
  unfold digitsValue
  rw [List.foldl_append]
  rfl

theorem digitChar_value (k : Nat) (h : k < 10) : (Nat.digitChar k).toNat - 48 = k := by
  interval_cases k <;> rfl

theorem toDigitsCore_append (fuel n : Nat) (ds : List Char) :
    Nat.toDigitsCore 10 fuel n ds = Nat.toDigitsCore 10 fuel n [] ++ ds := by
  induction fuel generalizing n ds with
  | zero => rfl
  | succ f ih =>
    unfold Nat.toDigitsCore
    dsimp only
    split_ifs with h0
    · rfl
    · rw [ih (n / 10) (Nat.digitChar (n % 10) :: ds), ih (n / 10) [Nat.digitChar (n % 10)]]
      simp

theorem digitsValue_toDigitsCore (fuel n : Nat) (h : n < fuel) :
    digitsValue (Nat.toDigitsCore 10 fuel n []) = n := by
  induction fuel generalizing n with
  | zero => exact absurd h (Nat.not_lt_zero n)
  | succ f ih =>
    unfold Nat.toDigitsCore
    dsimp only
    split_ifs with h0
    · have hlt : n < 10 := by omega
      have hm : n % 10 = n := Nat.mod_eq_of_lt hlt
      rw [hm]
      show 10 * 0 + ((Nat.digitChar n).toNat - 48) = n
      rw [digitChar_value n hlt]
      omega
    · rw [toDigitsCore_append, digitsValue_append_singleton, ih (n / 10) (by omega),
        digitChar_value (n % 10) (Nat.mod_lt _ (by decide))]
      omega

theorem repr_toList_injective (a b : Nat) (h : (Nat.repr a).toList = (Nat.repr b).toList) :
    a = b := by
  have ha : digitsValue (Nat.repr a).toList = a := digitsValue_toDigitsCore (a + 1) a (by omega)
  have hb : digitsValue (Nat.repr b).toList = b := digitsValue_toDigitsCore (b + 1) b (by omega)
  rw [← ha, ← hb, h]

theorem searchStart_eq (n : Nat) : searchStart n = 10 * (n / 3) := by
  unfold searchStart
  rw [searchQueries_length]
  omega

theorem searchQuery_eq (n : Nat) : searchQueries[n % 3]? = some (searchQuery n) := by
  have h3 : n % 3 < 3 := Nat.mod_lt _ (by decide)
  have hq : searchQuery n = (searchQueries[n % 3]?).getD [] := rfl
  rw [hq]
  generalize n % 3 = k at h3
  interval_cases k <;> rfl

theorem searchUrl_eq (p : Nat) :
    searchUrl p =
      "https://www.google.com/search?q=".toList ++
        (encodeURIComponent (searchQuery p) ++
          ("&start=".toList ++
            ((Nat.repr (searchStart p)).toList ++ "&hl=en&safe=off&filter=0".toList))) := by
  unfold searchUrl
  simp only [List.append_assoc]

theorem encoded_query_cases (p : Nat) :
    (p % 3 = 0 ∧ encodeURIComponent (searchQuery p) =
      "site%3Aclaude.ai%20%22public%2Fartifacts%22".toList) ∨
    (p % 3 = 1 ∧ encodeURIComponent (searchQuery p) =
      "claude.ai%2Fpublic%2Fartifacts%2F".toList) ∨
    (p % 3 = 2 ∧ encodeURIComponent (searchQuery p) =
      "%22claude.ai%2Fpublic%2Fartifacts%2F%22%20-site%3Areddit.com%20-site%3Agithub.com".toList) := by
  have h3 : p % 3 < 3 := Nat.mod_lt _ (by decide)
  have hq : searchQuery p = (searchQueries[p % 3]?).getD [] := rfl
  rw [hq]
  generalize p % 3 = k at h3
  interval_cases k
  · exact Or.inl ⟨rfl, by decide⟩
  · exact Or.inr (Or.inl ⟨rfl, by decide⟩)
  · exact Or.inr (Or.inr ⟨rfl, by decide⟩)

theorem searchUrl_injective (p q : Nat) (h : searchUrl q = searchUrl p) : q = p := by
  rw [searchUrl_eq, searchUrl_eq] at h
  have h1 := List.append_cancel_left h
  have hsame : q % 3 = p % 3 →
      encodeURIComponent (searchQuery q) = encodeURIComponent (searchQuery p) → q = p := by
    intro hmod henc
    rw [henc] at h1
    have h2 := List.append_cancel_left (List.append_cancel_left h1)
    have h3 := repr_toList_injective _ _ (List.append_cancel_right h2)
    rw [searchStart_eq, searchStart_eq] at h3
    omega
  rcases encoded_query_cases p with ⟨hp, ep⟩ | ⟨hp, ep⟩ | ⟨hp, ep⟩ <;>
    rcases encoded_query_cases q with ⟨hq, eq⟩ | ⟨hq, eq⟩ | ⟨hq, eq⟩
  · exact hsame (by omega) (by rw [ep, eq])
  · rw [ep, eq] at h1
    simp at h1
  · rw [ep, eq] at h1
    simp at h1
  · rw [ep, eq] at h1
    simp at h1
  · exact hsame (by omega) (by rw [ep, eq])
  · rw [ep, eq] at h1
    simp at h1
  · rw [ep, eq] at h1
    simp at h1
  · rw [ep, eq] at h1
    simp at h1
  · exact hsame (by omega) (by rw [ep, eq])

set_option maxRecDepth 100000 in
/-- C27: in round `p` of the Google phase the address passed to `page.goto` is
`https://www.google.com/search?q=` followed by the URI-encoded query at index `p mod 3`
of the three queries, `&start=`, the decimal number `10 * floor(p / 3)` and
`&hl=en&safe=off&filter=0`, whatever happened in the rounds before; the loop navigates
once per round, to the addresses of rounds `0, ..., maxPages - 1` in order. Round
`p + 1` uses another index, another query text and another address than round `p`; two
rounds with the same (index, offset) pair, or with the same address, are the same
round. Rounds 0 to 3 navigate to the four addresses listed. -/
theorem search_request_of_round (p : Nat) :
    (queryVariant p = p % 3 ∧ searchStart p = 10 * (p / 3) ∧
      searchQueries[p % 3]? = some (searchQuery p)) ∧
    searchUrl p =
      "https://www.google.com/search?q=".toList ++ encodeURIComponent (searchQuery p) ++
        "&start=".toList ++ (Nat.repr (10 * (p / 3))).toList ++
        "&hl=en&safe=off&filter=0".toList ∧
    (∀ rt maxPages src,
      (googleRounds rt maxPages src).2 = (List.range maxPages).map searchUrl) ∧
    (queryVariant (p + 1) ≠ queryVariant p ∧ searchQuery (p + 1) ≠ searchQuery p ∧
      searchUrl (p + 1) ≠ searchUrl p) ∧
    (∀ q, (queryVariant q, searchStart q) = (queryVariant p, searchStart p) → q = p) ∧
    (∀ q, searchUrl q = searchUrl p → q = p) ∧
    (List.range 4).map searchUrl =
      [ ("https://www.google.com/search?q=site%3Aclaude.ai%20%22public%2Fartifacts%22" ++
          "&start=0&hl=en&safe=off&filter=0").toList,
        ("https://www.google.com/search?q=claude.ai%2Fpublic%2Fartifacts%2F" ++
          "&start=0&hl=en&safe=off&filter=0").toList,
        ("https://www.google.com/search?q=%22claude.ai%2Fpublic%2Fartifacts%2F%22%20" ++
          "-site%3Areddit.com%20-site%3Agithub.com&start=0&hl=en&safe=off&filter=0").toList,
        ("https://www.google.com/search?q=site%3Aclaude.ai%20%22public%2Fartifacts%22" ++
          "&start=10&hl=en&safe=off&filter=0").toList ] := by
  have hv : ∀ n, queryVariant n = n % 3 := fun n => rfl
  refine ⟨⟨hv p, searchStart_eq p, searchQuery_eq p⟩, ?_, googleRounds_requests, ⟨?_, ?_, ?_⟩,
    ?_, ?_, ?_⟩
  · unfold searchUrl
    rw [searchStart_eq]
  · rw [hv, hv]
    omega
  · intro heq
    have h1 := searchQuery_eq (p + 1)
    have h2 := searchQuery_eq p
    rw [heq] at h1
    have h3 : p % 3 < 3 := Nat.mod_lt _ (by decide)
    have h4 : (p + 1) % 3 = (p % 3 + 1) % 3 := by omega
    rw [h4] at h1
    generalize p % 3 = k at h1 h2 h3
    generalize searchQuery p = query at h1 h2
    interval_cases k
    · rw [← h2] at h1
      exact absurd h1 (by decide)
    · rw [← h2] at h1
      exact absurd h1 (by decide)
    · rw [← h2] at h1
      exact absurd h1 (by decide)
  · intro heq
    have := searchUrl_injective p (p + 1) heq
    omega
  · intro q h
    simp only [Prod.mk.injEq] at h
    rw [hv, hv, searchStart_eq, searchStart_eq] at h
    omega
  · intro q h
    exact searchUrl_injective p q h
  · decide

/-! ## Code fields of fetched records -/

theorem detectArtifactType_eq_unknown_iff (rt : Runtime) (code : Str) :
    detectArtifactType rt code = "unknown".toList ↔ code = [] := by
  unfold detectArtifactType
  dsimp only
  split_ifs with h0 <;> simp_all [List.isEmpty_iff]

theorem detectLanguage_eq_nil_iff (code : Str) : detectLanguage code = [] ↔ code = [] := by
  unfold detectLanguage
  split_ifs with h0 <;> simp_all [List.isEmpty_iff]

theorem parseArtifactData_code_iff (rt : Runtime) (url : Str) (data : JsVal) (method : Str)
    (r : Artifact) (h : parseArtifactData rt url data method = some r) :
    (r.rawCode ≠ [] ↔ r.type ≠ JsVal.str "unknown".toList) ∧
    (r.type ≠ JsVal.str "unknown".toList ↔ r.language ≠ []) := by
  obtain ⟨content, rawCode, title, hasCode, -, rfl⟩ := parseArtifactData_eq_some _ _ _ _ _ h
  have ht : JsVal.str (detectArtifactType rt rawCode) ≠ JsVal.str "unknown".toList ↔
      rawCode ≠ [] := by
    constructor
    · intro h1 h2
      exact h1 (by rw [(detectArtifactType_eq_unknown_iff rt rawCode).mpr h2])
    · intro h1 h2
      exact h1 ((detectArtifactType_eq_unknown_iff rt rawCode).mp (JsVal.str.inj h2))
  have hl : detectLanguage rawCode ≠ [] ↔ rawCode ≠ [] :=
    not_congr (detectLanguage_eq_nil_iff rawCode)
  have hr : substring0 rawCode 10000 ≠ [] ↔ rawCode ≠ [] := by
    cases rawCode <;> simp [substring0]
  exact ⟨hr.trans ht.symm, ht.trans hl.symm⟩

/-- C28: for every URL, every method and every data that is a string or a JSON object
whose `content` field is absent or a string, `parseArtifactData` returns a record, and
in that record `hasCode` is true if and only if `rawCode` is non-empty, if and only if
`type` is not `unknown`, if and only if `language` is not the empty string. -/
theorem parseArtifactData_code_fields (rt : Runtime) (url method : Str) (data : JsVal)
    (hdata : (∃ s, data = JsVal.str s) ∨
      ∃ fields, data = JsVal.obj fields ∧
        (JsVal.lookup "content".toList fields = JsVal.undefined ∨
          ∃ s, JsVal.lookup "content".toList fields = JsVal.str s)) :
    ∃ r, parseArtifactData rt url data method = some r ∧
      (r.hasCode = true ↔ r.rawCode ≠ []) ∧
      (r.rawCode ≠ [] ↔ r.type ≠ JsVal.str "unknown".toList) ∧
      (r.type ≠ JsVal.str "unknown".toList ↔ r.language ≠ []) := by
  have hsome : (parseArtifactData rt url data method).isSome = true := by
    rcases hdata with ⟨s, rfl⟩ | ⟨fields, rfl, hc⟩
    · unfold parseArtifactData parseLocals
      simp only [JsVal.isObject, Bool.false_eq_true, if_false]
      split_ifs <;> simp [JsVal.asStr?]
    · unfold parseArtifactData parseLocals
      simp only [JsVal.isObject, JsVal.get, if_true]
      rcases hc with hc | ⟨s, hc⟩
      · rw [hc]
        simp [JsVal.truthy, JsVal.asStr?]
      · rw [hc]
        cases s <;> simp [JsVal.truthy, JsVal.asStr?]
  obtain ⟨r, hr⟩ := Option.isSome_iff_exists.mp hsome
  exact ⟨r, hr, parseArtifactData_hasCode_iff _ _ _ _ _ hr,
    parseArtifactData_code_iff _ _ _ _ _ hr⟩

/-- Witness for C28: the JSON answer of `webApiJson`. -/
theorem parseArtifactData_code_fields_witness :
    ∃ r, parseArtifactData asciiRuntime sampleUrl
        (jsonWithContent (JsVal.str "<div>hi</div>".toList)) "api".toList = some r ∧
      (r.hasCode = true ↔ r.rawCode ≠ []) ∧
      (r.rawCode ≠ [] ↔ r.type ≠ JsVal.str "unknown".toList) ∧
      (r.type ≠ JsVal.str "unknown".toList ↔ r.language ≠ []) :=
  parseArtifactData_code_fields asciiRuntime sampleUrl "api".toList _
    (Or.inr ⟨_, rfl, Or.inr ⟨"<div>hi</div>".toList, by rfl⟩⟩)

/-! ## The two classifiers -/

theorem renderIsReact_false (code : Str) (h : renderIsReact code = false) :
    includes code "import React".toList = false ∧ includes code "useState".toList = false := by
  unfold renderIsReact at h
  simp only [Bool.or_eq_false_iff] at h
  exact ⟨h.1.1.1.1.1, h.1.2⟩

/-- C29 (as stated, refuted): on the text `hello` the classifiers of fetched records
give `(html, html)` while the render-path classifier leaves the type it had and the
language empty; on the sentence `About SVG` the former give `(html, html)` and the
latter `(svg, xml)`; on `a function may return (x)` the former give
`(javascript, javascript)` and the latter `(react, jsx)`. -/
theorem classifiers_disagree :
    (detectArtifactType asciiRuntime plainText, detectLanguage plainText) =
      ("html".toList, "html".toList) ∧
    renderClassify asciiRuntime (JsVal.str "html".toList) plainText =
      (JsVal.str "html".toList, []) ∧
    (detectArtifactType asciiRuntime svgSentence, detectLanguage svgSentence) =
      ("html".toList, "html".toList) ∧
    renderClassify asciiRuntime (JsVal.str "html".toList) svgSentence =
      (JsVal.str "svg".toList, "xml".toList) ∧
    (detectArtifactType asciiRuntime "a function may return (x)".toList,
        detectLanguage "a function may return (x)".toList) =
      ("javascript".toList, "javascript".toList) ∧
    renderClassify asciiRuntime (JsVal.str "html".toList) "a function may return (x)".toList =
      (JsVal.str "react".toList, "jsx".toList) :=
  ⟨by decide, by rfl, by decide, by rfl, by decide, by rfl⟩

/-- C29 (amended): the classifiers of fetched records and the render-path classifier
assign the same (type, language) pair to a code string in each of these cases: it
contains `import React` (both give `(react, jsx)`); or the React test of the render path
fails, the string does not contain `jsx`, and either it contains `<svg` (both give
`(svg, xml)`), or the SVG test of the render path fails and it contains `<!DOCTYPE` or
`<html` but neither `function ` nor `const ` (both give `(html, html)`), or the SVG and
HTML tests of the render path fail and it contains `function ` or `const ` (both give
`(javascript, javascript)`). -/
theorem classifiers_agree (rt : Runtime) (type0 : JsVal) (code : Str)
    (h : includes code "import React".toList = true ∨
      (renderIsReact code = false ∧ includes code "jsx".toList = false ∧
        (includes code "<svg".toList = true ∨
          (renderIsSvg rt code = false ∧
            (includes code "<!DOCTYPE".toList = true ∨ includes code "<html".toList = true) ∧
            includes code "function ".toList = false ∧
            includes code "const ".toList = false) ∨
          (renderIsSvg rt code = false ∧ renderIsHtml code = false ∧
            (includes code "function ".toList = true ∨
              includes code "const ".toList = true))))) :
    (JsVal.str (detectArtifactType rt code), detectLanguage code) =
      renderClassify rt type0 code := by
  have hne : code.isEmpty = false := by
    rcases h with h | ⟨-, -, h | ⟨-, h | h, -, -⟩ | ⟨-, -, h | h⟩⟩ <;>
      exact isEmpty_of_includes _ _ (by decide) h
  rcases h with h | ⟨hreact, hjsx, h | ⟨hsvg, h, hf, hc⟩ | ⟨hsvg, hhtml, h⟩⟩
  · simp_all [detectArtifactType, detectLanguage, renderClassify, renderIsReact]
  · obtain ⟨hir, hus⟩ := renderIsReact_false code hreact
    simp_all [detectArtifactType, detectLanguage, renderClassify, renderIsSvg]
  · obtain ⟨hir, hus⟩ := renderIsReact_false code hreact
    rcases h with h | h <;>
      simp_all [detectArtifactType, detectLanguage, renderClassify, renderIsSvg, renderIsHtml]
  · obtain ⟨hir, hus⟩ := renderIsReact_false code hreact
    rcases h with h | h <;>
      simp_all [detectArtifactType, detectLanguage, renderClassify, renderIsSvg, renderIsHtml,
        renderIsJavascript]

/-- Witness for C29 (amended): a component module and a drawing. -/
theorem classifiers_agree_witness :
    (JsVal.str (detectArtifactType asciiRuntime reactModule), detectLanguage reactModule) =
      renderClassify asciiRuntime (JsVal.str "html".toList) reactModule ∧
    (JsVal.str (detectArtifactType asciiRuntime svgDrawing), detectLanguage svgDrawing) =
      renderClassify asciiRuntime (JsVal.str "html".toList) svgDrawing :=
  ⟨classifiers_agree asciiRuntime _ reactModule (Or.inl (by decide)),
    classifiers_agree asciiRuntime _ svgDrawing
      (Or.inr ⟨by decide, by decide, Or.inl (by decide)⟩)⟩

/-! ## The found counter -/

/-- C30: on `sourcesDuplicate` the Google phase finds nothing and the secondary tier
finds two candidates; `getArtifactUrls` returns both and leaves `totalFound = 0`. In
every call `totalFound` is the number of candidates of the Google phase, which is the
number of returned candidates whenever the Google phase found one. -/
theorem totalFound_ignores_secondary_tier :
    getArtifactUrls asciiRuntime 3 sourcesDuplicate =
      Completion.returns ([sampleUrl, sampleUrl ++ "?ref=x".toList], 0) ∧
    [sampleUrl, sampleUrl ++ "?ref=x".toList].length = 2 ∧
    (∀ rt maxPages src urls totalFound,
      getArtifactUrls rt maxPages src = Completion.returns (urls, totalFound) →
        totalFound = (googlePhase rt maxPages src).length ∧
        (googlePhase rt maxPages src ≠ [] → totalFound = urls.length)) := by
  refine ⟨by rfl, by rfl, ?_⟩
  intro rt maxPages src urls totalFound h
  unfold getArtifactUrls at h
  dsimp only at h
  split_ifs at h with hb h0
  · simp only [Completion.returns.injEq, Prod.mk.injEq] at h
    refine ⟨h.2.symm, ?_⟩
    intro hne
    exact absurd (List.length_eq_zero.mp h0) hne
  · simp only [Completion.returns.injEq, Prod.mk.injEq] at h
    refine ⟨h.2.symm, ?_⟩
    intro _
    rw [← h.1, ← h.2]

/-! ## The round loop -/

/-- C21: when the page of the Google phase has been set up, then for every number of
rounds and every outcome of each round (a URL list, a CAPTCHA, a throw) the set
accumulated by the Google phase holds exactly the URLs of the lists of the rounds that
yielded one, without repetition; the loop navigates once in every round `0, ...,
maxPages - 1`, whatever the outcome of the rounds before; and once its browser has
started, `getArtifactUrls` returns a result. -/
theorem google_phase_union (rt : Runtime) (maxPages : Nat) (src : Sources)
    (hsetup : src.googleSetup = true) :
    (∀ u, u ∈ googlePhase rt maxPages src ↔
      ∃ p, p < maxPages ∧ ∃ links bodyText, src.rounds p = Round.page links bodyText ∧
        u ∈ extractUrls rt links bodyText) ∧
    (googlePhase rt maxPages src).Nodup ∧
    googleRounds rt maxPages src =
      (googlePhase rt maxPages src, (List.range maxPages).map searchUrl) ∧
    (createBrowser src.launchGoogle = true →
      ∃ result, getArtifactUrls rt maxPages src = Completion.returns result) := by
  have heq := googlePhase_eq rt maxPages src hsetup
  refine ⟨?_, ?_, ?_, ?_⟩
  · intro u
    rw [heq]
    exact mem_googleRounds rt maxPages src u
  · rw [heq]
    exact nodup_googleRounds rt maxPages src
  · rw [heq, ← googleRounds_requests rt maxPages src]
  · intro hb
    unfold getArtifactUrls
    rw [if_pos hb]
    dsimp only
    split_ifs
    · exact ⟨_, rfl⟩
    · exact ⟨_, rfl⟩

/-- Witness for C21: the first round times out, the second meets a CAPTCHA, the third
yields `sampleUrl`. -/
theorem google_phase_union_witness :
    googlePhase asciiRuntime 3 sourcesThirdRound = [sampleUrl] ∧
    (∀ u, u ∈ googlePhase asciiRuntime 3 sourcesThirdRound ↔
      ∃ p, p < 3 ∧ ∃ links bodyText, sourcesThirdRound.rounds p = Round.page links bodyText ∧
        u ∈ extractUrls asciiRuntime links bodyText) ∧
    (googlePhase asciiRuntime 3 sourcesThirdRound).Nodup ∧
    googleRounds asciiRuntime 3 sourcesThirdRound =
      (googlePhase asciiRuntime 3 sourcesThirdRound, (List.range 3).map searchUrl) ∧
    (createBrowser sourcesThirdRound.launchGoogle = true →
      ∃ result, getArtifactUrls asciiRuntime 3 sourcesThirdRound = Completion.returns result) :=
  ⟨by decide, google_phase_union asciiRuntime 3 sourcesThirdRound (by rfl)⟩

/-! ## The secondary discovery tier -/

/-- C22 (as stated, refuted): on `sourcesDuckDown` the DuckDuckGo search throws because
its browser cannot be started, the archive search on its own finds `sampleUrl`, and
`getArtifactUrlsAlternative` returns the empty list: the archive search is never
called, so `getArtifactUrls` returns no candidate. -/
theorem duck_launch_failure_skips_adapters :
    searchDuckDuckGo sourcesDuckDown.launchDuck sourcesDuckDown.duckLinks =
      Completion.throws ∧
    searchWebArchives sourcesDuckDown.archiveRows = [sampleUrl] ∧
    getArtifactUrlsAlternative sourcesDuckDown = [] ∧
    getArtifactUrls asciiRuntime 3 sourcesDuckDown = Completion.returns ([], 0) :=
  ⟨by rfl, by decide, by decide, by rfl⟩

/-- C22 (amended): `getArtifactUrlsAlternative` always returns a list. When the browser
of the DuckDuckGo search starts, the list holds exactly the URLs of the three adapters
(the filtered links of the DuckDuckGo result page, or nothing when that page cannot be
read; the forum search; the archive search), without repetition. When that browser
cannot be started the DuckDuckGo search throws and the returned list is empty, whatever
the forum and archive searches would find. -/
theorem secondary_tier_union (src : Sources) :
    (createBrowser src.launchDuck = true →
      (∀ u, u ∈ getArtifactUrlsAlternative src ↔
        ((∃ hrefs, src.duckLinks = some hrefs ∧ u ∈ hrefs.filter duckFilter) ∨
          u ∈ searchForumsAndCommunities src.reddit ∨
          u ∈ searchWebArchives src.archiveRows)) ∧
      (getArtifactUrlsAlternative src).Nodup) ∧
    (createBrowser src.launchDuck = false →
      searchDuckDuckGo src.launchDuck src.duckLinks = Completion.throws ∧
      getArtifactUrlsAlternative src = []) := by
  constructor
  · intro hb
    have hduck : searchDuckDuckGo src.launchDuck src.duckLinks =
        Completion.returns
          (match src.duckLinks with
           | some hrefs => setAddAll [] (hrefs.filter duckFilter)
           | none => []) := by
      unfold searchDuckDuckGo
      rw [if_pos hb]
      cases src.duckLinks <;> rfl
    constructor
    · intro u
      unfold getArtifactUrlsAlternative
      rw [hduck]
      dsimp only
      rw [mem_setAddAll, mem_setAddAll, mem_setAddAll]
      cases hl : src.duckLinks with
      | none =>
        simp only [setAddAll, List.foldl_nil, List.not_mem_nil, false_or, reduceCtorEq,
          false_and, exists_false]
      | some hrefs =>
        simp only [mem_setAddAll, Option.some.injEq, exists_eq_left']
        simp only [setAddAll, List.foldl_nil, List.not_mem_nil, false_or, or_assoc]
    · unfold getArtifactUrlsAlternative
      rw [hduck]
      dsimp only
      exact nodup_setAddAll _ _ (nodup_setAddAll _ _ (nodup_setAddAll _ _
        (nodup_setAddAll _ _ List.nodup_nil)))
  · intro hb
    have hduck : searchDuckDuckGo src.launchDuck src.duckLinks = Completion.throws := by
      unfold searchDuckDuckGo
      rw [hb]
      rfl
    refine ⟨hduck, ?_⟩
    unfold getArtifactUrlsAlternative
    rw [hduck]
    rfl

/-- Witness for C22 (amended): on `sourcesDuplicate` the browser of the DuckDuckGo
search starts. -/
theorem secondary_tier_union_witness :
    createBrowser sourcesDuplicate.launchDuck = true ∧
    (∀ u, u ∈ getArtifactUrlsAlternative sourcesDuplicate ↔
      ((∃ hrefs, sourcesDuplicate.duckLinks = some hrefs ∧ u ∈ hrefs.filter duckFilter) ∨
        u ∈ searchForumsAndCommunities sourcesDuplicate.reddit ∨
        u ∈ searchWebArchives sourcesDuplicate.archiveRows)) ∧
    (getArtifactUrlsAlternative sourcesDuplicate).Nodup :=
  ⟨by rfl, (secondary_tier_union sourcesDuplicate).1 (by rfl)⟩

/-! ## Challenge markers of the proxy probe -/

set_option maxRecDepth 100000 in
/-- C23: the relay `cors-anywhere` answers with `waitingPage`, 516 characters that
contain `Just a moment`; `tryProxyServices` returns a record with that page as content.
The archive probe returns `null` for the same page and the render fallback counts it as
a challenge. For every relayed string that contains `Verify you are human` or has at most
500 characters the test of the proxy probe fails. -/
theorem proxy_accepts_waiting_page :
    includes waitingPage "Just a moment".toList = true ∧ waitingPage.length = 516 ∧
    (tryProxyServices asciiRuntime webProxyWaiting.fetch sampleUrl).map
        (fun r => (r.content, r.method)) =
      some (waitingPage, some "proxy".toList) ∧
    (tryInternetArchiveContent asciiRuntime webArchiveWaiting.fetch sampleUrl).isSome = false ∧
    stillChallenge waitingPage = true ∧
    (∀ s : Str, includes s "Verify you are human".toList = true ∨ s.length ≤ 500 →
      proxyDataUsable (JsVal.str s) = some false) := by
  refine ⟨by decide, by rfl, by rfl, by rfl, by decide, ?_⟩
  intro s h
  unfold proxyDataUsable
  split_ifs with ht
  · rcases h with h | h
    · simp only [h, Bool.not_true, Bool.false_and]
    · have hd : decide (500 < s.length) = false := by
        rw [decide_eq_false_iff_not]
        omega
      simp only [hd, Bool.and_false]
  · rfl

/-! ## Extraction from a URL that is not an artifact URL -/

/-- C24: the last path segment of `https://example.com/invalid` holds no run of eight
characters of `a-f`, `0-9`, `-`, and every probe of `scrapeArtifact` before the browser
fails on `webPlainRender`; the browser opens the page and `scrapeArtifact` returns the
record built from it, not `null`. It returns `null` on `webDown`, where the page cannot
be opened. -/
theorem invalid_url_yields_page_record :
    matchesIdPattern (lastSegment invalidUrl) = false ∧
    matchesArtifactUrl invalidUrl = false ∧
    scrapeArtifact asciiRuntime false webPlainRender invalidUrl =
      (Completion.returns (some invalidUrlRecord),
        [Strategy.api, Strategy.archive, Strategy.proxy, Strategy.metadata,
          Strategy.browser]) ∧
    (scrapeArtifact asciiRuntime false webDown invalidUrl).1 = Completion.returns none :=
  ⟨by decide, by decide, by rfl, by rfl⟩

end Scraper
